import Mathlib

/-!
TFTP transfer engine of gogoboot (`src/tftp.c`)

A shallow embedding of the TFTP client state machine and the properties its
specification states about it.

Conventions of the embedding.

* Byte strings (datagrams, file names, option strings) are `List Nat`; a C
  string is the list of its bytes without the terminating NUL.
* `uint16_t` fields are `Nat`, reduced `% 65536` wherever the C code stores
  into them or wraps; `int` fields are `Int` (signed overflow is undefined in
  C and is not modelled).
* The target is big-endian, so `htons`/`ntohs` are the identity on values and
  a 16-bit field occupies two bytes, most significant first.
* The collaborators (network transmit, storage, dispatcher registry, clock)
  are an explicit environment `Env` that records what the code hands to them.
  The clock counts the ticks of the 200 Hz timer (`q40hw.h`), and so does a
  timer deadline.
  Console output (`printf`) carries no state and is left out.
* The checksum routines declared in `src/net.h` have no body among the
  sources; their model follows the specification and is marked as such.
-/

set_option maxRecDepth 8192

namespace Tftp

/-! ## Constants -/

def RRQ_TIMEOUT : Nat := 1000
def DATA_TIMEOUT : Nat := 250
def MAXOPT : Nat := 1400

def tftp_op_rrq : Nat := 1
def tftp_op_data : Nat := 3
def tftp_op_ack : Nat := 4
def tftp_op_err : Nat := 5
def tftp_op_options_ack : Nat := 6

/-- Result code of the storage collaborator meaning success (`FR_OK`). -/
def FR_OK : Nat := 0

/-- The bytes of a string literal, as a C string without its NUL. -/
def cstr (s : String) : List Nat := s.toList.map Char.toNat

/-! ## Data model -/

/-- The record `struct tftp_transfer_t`; the open file `disk_file` is represented by
the write log of the environment. -/
structure tftp_transfer_t where
  tftp_filename : List Nat
  disk_filename : List Nat
  block_size : Nat
  last_block : Nat
  last_ack : Nat
  rollover_value : Nat
  bytes_received : Int
  total_size : Int
  window_size : Int
  started : Bool
  completed : Bool
  success : Bool
  retransmits_this_block : Int
  retransmits_total : Int
deriving DecidableEq, Repr

/-- Modelled from the spec: a UDP datagram as the engine sees it (the `packet_t` of
`src/net.h` has none of the fields `udp`, `data_length` and `buffer` that
`tftp.c` uses; the declaration `tftp.c` was compiled with is not among the
sources):
the peer address, the two ports and the `data_length` bytes of UDP payload. -/
structure packet_t where
  remote_ip : Nat
  source_port : Nat
  destination_port : Nat
  data : List Nat
deriving DecidableEq, Repr

/-- Modelled from the spec: the sink (`packet_sink_t` is declared in a header that is
not among the sources) with the fields `tftp.c` uses: the match constraints,
the timer deadline and the private transfer state. A remote port of 0 is the
wildcard. -/
structure packet_sink_t where
  match_remote_ip : Nat
  match_local_port : Nat
  match_remote_port : Nat
  timer : Nat
  sink_private : tftp_transfer_t
deriving DecidableEq, Repr

/-- One call on the dispatcher registry, with the remote-port match of the sink
at the time of the call. -/
inductive reg_op where
  | add (match_remote_port : Nat)
  | remove (match_remote_port : Nat)
deriving DecidableEq, Repr

/-- The collaborators of the engine: the tick count of the clock read by
`set_timer_ticks`, the packets
handed to `net_tx` (oldest first), the buffers handed to `f_write` (oldest
first), and the dispatcher registry (whether this sink is registered, and the
calls made on it). -/
structure Env where
  now : Nat
  sent : List packet_t
  written : List (List Nat)
  registered : Bool
  reglog : List reg_op
deriving DecidableEq, Repr

/-! ## Collaborators -/

/-- The constant `TIMER_HZ` of q40hw.h: the timer ticks per second. -/
def TIMER_HZ : Nat := 200

/-- The constant `TIMER_MS_PER_TICK` of q40hw.h. -/
def TIMER_MS_PER_TICK : Nat := 1000 / TIMER_HZ

/-- Modelled from the spec: `set_timer_ticks` (declared in q40hw.h, its body is not
among the sources) returns the absolute deadline that lies `duration` ticks
after the current tick count, as a `timer_t`, a 32-bit unsigned value. -/
def set_timer_ticks (env : Env) (duration : Nat) : Nat := (env.now + duration) % 4294967296

/-- The macro `set_timer_ms` of q40hw.h: the milliseconds are rounded up to whole
ticks and handed to `set_timer_ticks`. -/
def set_timer_ms (env : Env) (msec : Nat) : Nat :=
  set_timer_ticks env ((msec + TIMER_MS_PER_TICK - 1) / TIMER_MS_PER_TICK)

/-- Modelled from the spec: `net_tx` hands a datagram to the network; the
environment records it. -/
def net_tx (env : Env) (packet : packet_t) : Env :=
  { env with sent := env.sent ++ [packet] }

/-- Modelled from the spec: `f_write` appends a buffer to the open file; the
environment records it. Its result code is an input of the caller. -/
def f_write (env : Env) (buf : List Nat) : Env :=
  { env with written := env.written ++ [buf] }

/-- Modelled from the spec: `net_add_packet_sink` registers the sink with the dispatcher. -/
def net_add_packet_sink (env : Env) (sink : packet_sink_t) : Env :=
  { env with registered := true, reglog := env.reglog ++ [reg_op.add sink.match_remote_port] }

/-- Modelled from the spec: `net_remove_packet_sink` removes the sink from the dispatcher. -/
def net_remove_packet_sink (env : Env) (sink : packet_sink_t) : Env :=
  { env with registered := false,
             reglog := env.reglog ++ [reg_op.remove sink.match_remote_port] }

/-- Modelled from the spec: `packet_create_for_sink` allocates an outbound datagram of
the given payload size addressed to the sink's peer, source port taken from the
sink. -/
def packet_create_for_sink (sink : packet_sink_t) (size : Nat) : packet_t :=
  { remote_ip := sink.match_remote_ip,
    source_port := sink.match_local_port,
    destination_port := sink.match_remote_port,
    data := List.replicate size 0 }

/-- The 16-bit big-endian field at byte offset `off` of a datagram (`ntohs` of
a `uint16_t` member). Bytes past the end of the datagram read as 0. -/
def get16 (message : List Nat) (off : Nat) : Nat :=
  (message.getD off 0 * 256 + message.getD (off + 1) 0) % 65536

/-- The two bytes of a 16-bit value in network order (`htons` and store). -/
def put16 (v : Nat) : List Nat := [v / 256 % 256, v % 256]

/-- Conversion of an `int` to `uint16_t` on assignment. -/
def to_u16 (v : Int) : Nat := (v % 65536).toNat

def isspace (c : Nat) : Bool := c = 32 || (9 ≤ c && c ≤ 13)

def isdigit (c : Nat) : Bool := 48 ≤ c && c ≤ 57

/-- The digit loop of `atoi`: accumulates decimal digits until the first byte
that is not a digit. -/
def atoi_digits : List Nat → Nat → Nat
  | [], acc => acc
  | c :: cs, acc => if isdigit c then atoi_digits cs (acc * 10 + (c - 48)) else acc

/-- Modelled from the spec: the numeric parse `atoi` of the C library (not among the
sources): leading white space, an optional sign, then decimal digits up to the
first byte that is not a digit. -/
def atoi (s : List Nat) : Int :=
  match s.dropWhile isspace with
  | 45 :: r => - (atoi_digits r 0 : Int)
  | 43 :: r => (atoi_digits r 0 : Int)
  | r => (atoi_digits r 0 : Int)

/-! ## Building packets -/

/-- The call `memcpy(buf + offset, src, len)` on a byte buffer. -/
def memcpy_at (buf : List Nat) (offset : Nat) (src : List Nat) : List Nat :=
  buf.take offset ++ src ++ buf.drop (offset + src.length)

/-- The function `options_append`: returns the buffer and the new offset. -/
def options_append (options : List Nat) (offset : Nat) (extra : List Nat) : List Nat × Nat :=
  let extra_len := extra.length + 1
  if extra_len + offset ≥ MAXOPT then
    (options, 0)
  else
    (memcpy_at options offset (extra ++ [0]), offset + extra_len)

/-- The option string `tftp_create_rrq` builds in its local array `options` (which
starts out as `MAXOPT` zero bytes), with the final offset. -/
def rrq_options (tftp_filename : List Nat) : List Nat × Nat :=
  let options := List.replicate MAXOPT 0
  let offset := 0
  let (options, offset) := options_append options offset tftp_filename
  let (options, offset) := options_append options offset (cstr "octet")
  let (options, offset) := options_append options offset (cstr "rollover")
  let (options, offset) := options_append options offset (cstr "0")
  let (options, offset) := options_append options offset (cstr "tsize")
  let (options, offset) := options_append options offset (cstr "0")
  let (options, offset) := options_append options offset (cstr "blksize")
  let (options, offset) := options_append options offset (cstr "1024")
  let (options, offset) := options_append options offset (cstr "windowsize")
  let (options, offset) := options_append options offset (cstr "8")
  (options, offset)

/-- The function `tftp_create_rrq`. -/
def tftp_create_rrq (sink : packet_sink_t) : packet_t :=
  let tftp := sink.sink_private
  let options := (rrq_options tftp.tftp_filename).1
  let offset := (rrq_options tftp.tftp_filename).2
  let packet := packet_create_for_sink sink (offset + 2)
  { packet with
    destination_port := 69,
    data := put16 tftp_op_rrq ++ options.take offset }

/-- The function `tftp_create_ack`: returns the packet and the sink, whose transfer
state has `last_ack` updated. -/
def tftp_create_ack (sink : packet_sink_t) : packet_t × packet_sink_t :=
  let tftp := sink.sink_private
  let packet := packet_create_for_sink sink 4
  let packet := { packet with data := put16 tftp_op_ack ++ put16 tftp.last_block }
  (packet, { sink with sink_private := { tftp with last_ack := tftp.last_block } })

/-! ## The callbacks -/

/-- The function `tftp_timer_expired`. -/
def tftp_timer_expired (sink : packet_sink_t) (env : Env) : packet_sink_t × Env :=
  let tftp := sink.sink_private
  if tftp.retransmits_this_block > 10 then
    ({ sink with sink_private := { tftp with completed := true, success := false } }, env)
  else if tftp.completed then
    (sink, env)
  else
    let (sink, env) :=
      if !tftp.started then
        let sink := { sink with timer := set_timer_ms env RRQ_TIMEOUT }
        (sink, net_tx env (tftp_create_rrq sink))
      else
        let sink := { sink with timer := set_timer_ms env DATA_TIMEOUT }
        let (packet, sink) := tftp_create_ack sink
        (sink, net_tx env packet)
    let tftp := sink.sink_private
    ({ sink with sink_private :=
        { tftp with retransmits_this_block := tftp.retransmits_this_block + 1,
                    retransmits_total := tftp.retransmits_total + 1 } }, env)

/-- The C string that starts at a pointer into the payload: the bytes up to the
first NUL. The pointer is represented by the bytes from it to `end`. -/
def c_string (ptr : List Nat) : List Nat := ptr.takeWhile (fun b => b ≠ 0)

/-- The inner loop `while(*ptr && ptr < end) ptr++;`: the pointer after the loop,
which is `end` (the empty list) or points at a NUL. -/
def skip_token (ptr : List Nat) : List Nat := ptr.dropWhile (fun b => b ≠ 0)

/-- The assignment chain on `strcmp(opt, ...)` in the option loop. -/
def apply_option (tftp : tftp_transfer_t) (opt val : List Nat) : tftp_transfer_t :=
  let val_int := atoi val
  if opt = cstr "rollover" then
    { tftp with rollover_value := to_u16 val_int }
  else if opt = cstr "tsize" then
    { tftp with total_size := val_int }
  else if opt = cstr "blksize" then
    { tftp with block_size := to_u16 val_int }
  else if opt = cstr "windowsize" then
    { tftp with window_size := val_int }
  else
    tftp

/-- The loop `while(true)` of `tftp_process_options_ack`; `ptr` is the part of the
payload from the current pointer to `end`. -/
def options_loop (ptr : List Nat) (tftp : tftp_transfer_t) : tftp_transfer_t :=
  let opt := ptr
  match h1 : skip_token ptr with
  | [] => tftp
  | _ :: ptr1 =>
    let val := ptr1
    match h2 : skip_token ptr1 with
    | [] => tftp
    | _ :: ptr2 =>
      options_loop ptr2 (apply_option tftp (c_string opt) (c_string val))
termination_by ptr.length
decreasing_by
  have a1 : (skip_token ptr).length ≤ ptr.length := (List.dropWhile_suffix _).length_le
  have a2 : (skip_token ptr1).length ≤ ptr1.length := (List.dropWhile_suffix _).length_le
  rw [h1] at a1
  rw [h2] at a2
  simp only [List.length_cons] at a1 a2
  omega

/-- The function `tftp_process_options_ack`; `message` holds the `message_len` bytes
of the datagram, so the payload runs from byte 2 to its end. -/
def tftp_process_options_ack (sink : packet_sink_t) (env : Env) (message : List Nat) :
    packet_sink_t × Env :=
  let tftp := sink.sink_private
  let ptr := message.drop 2
  let tftp := options_loop ptr tftp
  let tftp := { tftp with last_block := 0 }
  let (packet, sink) := tftp_create_ack { sink with sink_private := tftp }
  let env := net_tx env packet
  ({ sink with timer := set_timer_ms env DATA_TIMEOUT }, env)

/-- The block number `tftp_process_data` expects next. -/
def expected_block (tftp : tftp_transfer_t) : Nat :=
  let expected_block := (tftp.last_block + 1) % 65536
  if expected_block = 0 then tftp.rollover_value else expected_block

/-- The body of `if(rxblock == expected_block)` in `tftp_process_data`: accepts the
block. `fr` is the result code `f_write` returns if it is called. -/
def accept_data (tftp : tftp_transfer_t) (env : Env) (message : List Nat) (fr : Nat) :
    tftp_transfer_t × Env :=
  let tftp := { tftp with last_block := get16 message 2, retransmits_this_block := 0 }
  let size : Int := (message.length : Int) - 4
  let (tftp, env) :=
    if size > 0 then
      let env := f_write env ((message.drop 4).take size.toNat)
      let tftp := { tftp with bytes_received := tftp.bytes_received + size }
      if fr ≠ FR_OK then
        ({ tftp with completed := true, success := false }, env)
      else
        (tftp, env)
    else
      (tftp, env)
  if !tftp.completed && size < (tftp.block_size : Int) then
    ({ tftp with completed := true, success := true }, env)
  else
    (tftp, env)

/-- The last two statements of `tftp_process_data`: the window test with the ACK it
may send, and the rearming of the timer. -/
def window_ack (sink : packet_sink_t) (env : Env) : packet_sink_t × Env :=
  let tftp := sink.sink_private
  let (sink, env) :=
    if (tftp.last_block : Int) ≥ (tftp.last_ack : Int) + tftp.window_size then
      let (packet, sink) := tftp_create_ack sink
      (sink, net_tx env packet)
    else
      (sink, env)
  ({ sink with timer := set_timer_ms env DATA_TIMEOUT }, env)

/-- The function `tftp_process_data`; `message` holds the `message_len` bytes of the
datagram and `fr` is the result code `f_write` returns if it is called. -/
def tftp_process_data (sink : packet_sink_t) (env : Env) (message : List Nat) (fr : Nat) :
    packet_sink_t × Env :=
  let tftp := sink.sink_private
  let rxblock := get16 message 2
  let (tftp, env) :=
    if rxblock = expected_block tftp then
      accept_data tftp env message fr
    else
      (tftp, env)
  window_ack { sink with sink_private := tftp } env

/-- The function `tftp_packet_received`; `fr` is the result code `f_write` returns
if the datagram leads to a write. -/
def tftp_packet_received (sink : packet_sink_t) (env : Env) (packet : packet_t) (fr : Nat) :
    packet_sink_t × Env :=
  let (sink, env) :=
    if !sink.sink_private.started then
      let env := net_remove_packet_sink env sink
      let sink := { sink with match_remote_port := packet.source_port % 65536 }
      let env := net_add_packet_sink env sink
      ({ sink with sink_private := { sink.sink_private with started := true } }, env)
    else
      (sink, env)
  let message := packet.data
  let opcode := get16 message 0
  if opcode = tftp_op_options_ack then
    tftp_process_options_ack sink env message
  else if opcode = tftp_op_data then
    tftp_process_data sink env message fr
  else if opcode = tftp_op_err then
    ({ sink with sink_private := { sink.sink_private with completed := true, success := false } },
      env)
  else
    ({ sink with sink_private := { sink.sink_private with completed := true, success := false } },
      env)

/-! ## The transfer command -/

/-- One callback the dispatcher makes on the sink during `net_pump`. -/
inductive net_event where
  | packet_received (packet : packet_t) (fr : Nat)
  | timer_expired
deriving DecidableEq, Repr

/-- What one pass of the wait loop of `tftp_receive` gets from outside: the time,
the callbacks `net_pump` makes (in order), and the byte `uart_read_byte`
returns (negative when there is none). -/
structure pump_input where
  now : Nat
  events : List net_event
  uart_byte : Int
deriving DecidableEq, Repr

/-- Modelled from the spec: `net_pump` (net.c is not among the sources) delivers
the pending datagrams for the sink to `cb_packet_received` and then, if the
deadline has passed, calls `cb_timer_expired`; the callbacks it makes are
given by the list of events. -/
def net_pump : List net_event → packet_sink_t → Env → packet_sink_t × Env
  | [], sink, env => (sink, env)
  | net_event.packet_received packet fr :: rest, sink, env =>
    let (sink, env) := tftp_packet_received sink env packet fr
    net_pump rest sink env
  | net_event.timer_expired :: rest, sink, env =>
    let (sink, env) := tftp_timer_expired sink env
    net_pump rest sink env

/-- The first part of `tftp_receive`: the transfer state and the sink as they are
when `f_open` is called. `ticks` is the value of `q40_read_timer_ticks()`. -/
def tftp_receive_setup (tftp_server_ip : Nat) (tftp_filename disk_filename : List Nat)
    (ticks : Nat) : packet_sink_t :=
  let tftp : tftp_transfer_t :=
    { tftp_filename := [], disk_filename := [], block_size := 0, last_block := 0,
      last_ack := 0, rollover_value := 0, bytes_received := 0, total_size := 0,
      window_size := 0, started := false, completed := false, success := false,
      retransmits_this_block := 0, retransmits_total := 0 }
  let tftp := { tftp with block_size := 512, window_size := 1,
                          tftp_filename := tftp_filename, disk_filename := disk_filename }
  { match_remote_ip := tftp_server_ip,
    match_local_port := 8192 + ticks % 32768,
    match_remote_port := 0,
    timer := 0,
    sink_private := tftp }

/-- The part of `tftp_receive` between a successful `f_open` and the wait loop:
registers the sink, synthesises a timeout to send the RRQ, and resets the
retransmit counters. -/
def tftp_receive_start (sink : packet_sink_t) (env : Env) : packet_sink_t × Env :=
  let env := net_add_packet_sink env sink
  let (sink, env) := tftp_timer_expired sink env
  ({ sink with sink_private :=
      { sink.sink_private with retransmits_total := 0, retransmits_this_block := 0 } }, env)

/-- The wait loop `while(!tftp->completed)` of `tftp_receive`, one `pump_input` per
pass. The result is `none` when the inputs run out while the loop is still
running. -/
def tftp_receive_loop : List pump_input → packet_sink_t → Env → Option (packet_sink_t × Env)
  | [], sink, env => if sink.sink_private.completed then some (sink, env) else none
  | inp :: rest, sink, env =>
    if sink.sink_private.completed then
      some (sink, env)
    else
      let (sink, env) := net_pump inp.events sink { env with now := inp.now }
      if inp.uart_byte = 113 ∨ inp.uart_byte = 81 then
        some (sink, env)
      else
        tftp_receive_loop rest sink env

/-- The function `tftp_receive`. `fr_open` is the result code of `f_open`, `ticks` the
timer tick count read at entry, `env` the environment at entry and `inputs`
what the wait loop receives. The result is the returned `bool` together with
the transfer state and the environment at the moment of return, or `none` when
the inputs run out while the wait loop is still running. -/
def tftp_receive (tftp_server_ip : Nat) (tftp_filename disk_filename : List Nat)
    (ticks : Nat) (fr_open : Nat) (env : Env) (inputs : List pump_input) :
    Option (Bool × tftp_transfer_t × Env) :=
  let sink := tftp_receive_setup tftp_server_ip tftp_filename disk_filename ticks
  if fr_open ≠ FR_OK then
    some (true, sink.sink_private, env)
  else
    let (sink, env) := tftp_receive_start sink env
    match tftp_receive_loop inputs sink env with
    | none => none
    | some (sink, env) =>
      let env := net_remove_packet_sink env sink
      some (true, sink.sink_private, env)

/-! ## Definitions used in the statements -/

/-- The ACK datagram for the sink's current `last_block`. -/
def ack_packet (sink : packet_sink_t) : packet_t :=
  { remote_ip := sink.match_remote_ip,
    source_port := sink.match_local_port,
    destination_port := sink.match_remote_port,
    data := put16 tftp_op_ack ++ put16 sink.sink_private.last_block }

/-- A transfer as `tftp_receive` sets it up, used for the concrete instances. -/
def demo_sink : packet_sink_t :=
  tftp_receive_setup 3232235777 (cstr "vmlinux") (cstr "vmlinux") 0

/-- An environment in which nothing has happened yet. -/
def demo_env : Env := { now := 0, sent := [], written := [], registered := false, reglog := [] }

/-- The sink `demo_sink` with its transfer state replaced. -/
def demo_with (tftp : tftp_transfer_t) : packet_sink_t := { demo_sink with sink_private := tftp }

/-- A DATA datagram with the given block number and payload. -/
def data_packet (block : Nat) (payload : List Nat) : List Nat :=
  put16 tftp_op_data ++ put16 block ++ payload

/-- Consecutive expirations of the sink's timer, at the given times, with no
datagram received in between: the dispatcher calls `tftp_timer_expired` once
per expiration. -/
def timer_expirations : List Nat → packet_sink_t → Env → packet_sink_t × Env
  | [], sink, env => (sink, env)
  | t :: ts, sink, env =>
    timer_expirations ts (tftp_timer_expired sink { env with now := t }).1
      (tftp_timer_expired sink { env with now := t }).2

/-- The inputs of a wait loop in which the timer expires on each of `n` passes and
nothing else happens: no datagram, no console byte. -/
def silent_inputs (n : Nat) : List pump_input :=
  (List.range n).map (fun i => { now := 1000 * (i + 1), events := [net_event.timer_expired],
                                 uart_byte := -1 })

/-- The payload formed by a sequence of key/value pairs, each key and each value
followed by a NUL. -/
def encode_options : List (List Nat × List Nat) → List Nat
  | [] => []
  | (k, v) :: rest => k ++ 0 :: (v ++ 0 :: encode_options rest)

/-- The value of the last pair with the given key, if there is one. -/
def last_value (key : List Nat) (pairs : List (List Nat × List Nat)) : Option (List Nat) :=
  ((pairs.filter (fun p => p.1 = key)).getLast?).map (fun p => p.2)

/-- The decimal numeral of a natural number as a C string. -/
def decimal (n : Nat) : List Nat :=
  if n = 0 then [48] else ((Nat.digits 10 n).reverse).map (fun d => d + 48)

/-- The options applied in order, as the loop does for a well-formed payload. -/
def apply_options (tftp : tftp_transfer_t) (pairs : List (List Nat × List Nat)) :
    tftp_transfer_t :=
  pairs.foldl (fun t p => apply_option t p.1 p.2) tftp

/-- The OPTION-ACK datagram with the given payload. -/
def oack_packet (payload : List Nat) : List Nat := put16 tftp_op_options_ack ++ payload

/-- The ACK datagram for block 0 sent by the sink. -/
def ack0_packet (sink : packet_sink_t) : packet_t :=
  { remote_ip := sink.match_remote_ip,
    source_port := sink.match_local_port,
    destination_port := sink.match_remote_port,
    data := [0, 4, 0, 0] }

/-- The ACK datagram the sink sends for the given block number. -/
def ack_for (sink : packet_sink_t) (block : Nat) : packet_t :=
  { remote_ip := sink.match_remote_ip,
    source_port := sink.match_local_port,
    destination_port := sink.match_remote_port,
    data := put16 tftp_op_ack ++ put16 block }

/-- A transfer in the middle of a window: negotiated block size 1024 and window
size 8, blocks up to 9 accepted, block 8 acknowledged. -/
def mid_window_sink : packet_sink_t :=
  demo_with { demo_sink.sink_private with
    block_size := 1024, window_size := 8, started := true, last_block := 9, last_ack := 8 }

/-- The server of the end-to-end scenario answers from port 50000. -/
def scenario_packet (data : List Nat) : packet_t :=
  { remote_ip := 3232235777, source_port := 50000, destination_port := 8192, data := data }

/-- The OPTION-ACK of the end-to-end scenario: `blksize=1024`, `windowsize=8`. -/
def scenario_oack : packet_t :=
  scenario_packet
    (oack_packet (encode_options [(cstr "blksize", cstr "1024"), (cstr "windowsize", cstr "8")]))

/-- The DATA blocks of the end-to-end scenario: blocks 1 to 9 with 1024 bytes
each and block 10 with `k` bytes, every write succeeding. -/
def scenario_data (k : Nat) : List net_event :=
  (List.range 9).map
      (fun i => net_event.packet_received
        (scenario_packet (data_packet (i + 1) (List.replicate 1024 0))) FR_OK) ++
    [net_event.packet_received (scenario_packet (data_packet 10 (List.replicate k 0))) FR_OK]

/-- The end-to-end scenario: the transfer is started, then the OPTION-ACK and the
ten DATA blocks arrive in order. -/
def scenario_run (k : Nat) : packet_sink_t × Env :=
  net_pump (net_event.packet_received scenario_oack FR_OK :: scenario_data k)
    (tftp_receive_start demo_sink demo_env).1 (tftp_receive_start demo_sink demo_env).2

/-- The sink of the scenario once it is locked on to the server's port. -/
def scenario_sink : packet_sink_t := { demo_sink with match_remote_port := 50000 }

/-- A transfer whose last accepted and acknowledged block is 0xFFFF, with window
size 1, block size 512 and the negotiated rollover value 0. -/
def rollover_sink : packet_sink_t :=
  demo_with { demo_sink.sink_private with
    started := true, last_block := 0xFFFF, last_ack := 0xFFFF, rollover_value := 0 }

/-- A transfer with window size 4 in which block 0 was just acknowledged. -/
def window4_sink : packet_sink_t :=
  demo_with { demo_sink.sink_private with started := true, window_size := 4 }

/-- Delivery of DATA datagrams to `tftp_process_data` one after the other, every
write succeeding. -/
def deliver_data : List (List Nat) → packet_sink_t → Env → packet_sink_t × Env
  | [], sink, env => (sink, env)
  | message :: rest, sink, env =>
    deliver_data rest (tftp_process_data sink env message FR_OK).1
      (tftp_process_data sink env message FR_OK).2

/-- The datagrams are consecutive in-sequence blocks after block `b`: the i-th
carries block number `b + i + 1`. -/
def consecutive_blocks (b : Nat) : List (List Nat) → Prop
  | [] => True
  | message :: rest => get16 message 2 = b + 1 ∧ consecutive_blocks (b + 1) rest

instance consecutive_blocks_decidable :
    ∀ (b : Nat) (ms : List (List Nat)), Decidable (consecutive_blocks b ms)
  | _, [] => isTrue trivial
  | b, m :: rest =>
    have := consecutive_blocks_decidable (b + 1) rest
    inferInstanceAs (Decidable (get16 m 2 = b + 1 ∧ consecutive_blocks (b + 1) rest))

/-- The first nine DATA events of the end-to-end scenario. -/
def scenario_first_nine : List net_event :=
  (List.range 9).map
    (fun i => net_event.packet_received
      (scenario_packet (data_packet (i + 1) (List.replicate 1024 0))) FR_OK)

/-- The sink of the scenario after block 9: blocks up to 9 accepted, block 8
acknowledged. -/
def scenario_sink_nine : packet_sink_t :=
  { scenario_sink with
    timer := 50,
    sink_private :=
      { demo_sink.sink_private with
        started := true, block_size := 1024, window_size := 8, last_block := 9, last_ack := 8,
        bytes_received := 9216 } }

/-- The environment of the scenario after block 9. -/
def scenario_env_nine : Env :=
  { now := 0,
    sent := [tftp_create_rrq demo_sink, ack0_packet scenario_sink, ack_for scenario_sink 8],
    written := List.replicate 9 (List.replicate 1024 0),
    registered := true,
    reglog := [reg_op.add 0, reg_op.remove 0, reg_op.add 50000] }

/-- The first statement of `tftp_packet_received`: on the first reply the sink is
removed from the registry, locked on to the server's source port and added
again, and the transfer is marked started. -/
def lock_on (sink : packet_sink_t) (env : Env) (packet : packet_t) : packet_sink_t × Env :=
  if !sink.sink_private.started then
    let env := net_remove_packet_sink env sink
    let sink := { sink with match_remote_port := packet.source_port % 65536 }
    let env := net_add_packet_sink env sink
    ({ sink with sink_private := { sink.sink_private with started := true } }, env)
  else
    (sink, env)

/-- The strings `tftp_create_rrq` appends after the file name, in order. -/
def rrq_fixed_strings : List (List Nat) :=
  [cstr "octet", cstr "rollover", cstr "0", cstr "tsize", cstr "0", cstr "blksize",
    cstr "1024", cstr "windowsize", cstr "8"]

/-- The strings written one after the other, each followed by its NUL. -/
def nul_terminated : List (List Nat) → List Nat
  | [] => []
  | s :: rest => s ++ 0 :: nul_terminated rest

/-- The calls of `options_append` for a list of strings, in order. -/
def options_append_all (strings : List (List Nat)) (start : List Nat × Nat) : List Nat × Nat :=
  strings.foldl (fun s e => options_append s.1 s.2 e) start

/-- The payload the RRQ is meant to have for the remote file name `f`. -/
def rrq_payload (f : List Nat) : List Nat :=
  [0, 1] ++ f ++ [0] ++ cstr "octet" ++ [0] ++ cstr "rollover" ++ [0] ++ cstr "0" ++ [0] ++
    cstr "tsize" ++ [0] ++ cstr "0" ++ [0] ++ cstr "blksize" ++ [0] ++ cstr "1024" ++ [0] ++
    cstr "windowsize" ++ [0] ++ cstr "8" ++ [0]

/-- A sink whose transfer has the given remote file name. -/
def sink_for_file (f : List Nat) : packet_sink_t :=
  tftp_receive_setup 3232235777 f (cstr "out") 0

/-- One callback of the dispatcher on the sink. -/
def engine_step (e : net_event) (sink : packet_sink_t) (env : Env) : packet_sink_t × Env :=
  match e with
  | net_event.packet_received packet fr => tftp_packet_received sink env packet fr
  | net_event.timer_expired => tftp_timer_expired sink env

/-- The event is a DATA datagram that is accepted while `last_block` is 0xFFFF: the
block number rolls over. -/
def rolls_over (sink : packet_sink_t) (e : net_event) : Prop :=
  match e with
  | net_event.packet_received packet _ =>
    get16 packet.data 0 = tftp_op_data ∧ sink.sink_private.last_block = 0xFFFF ∧
      get16 packet.data 2 = expected_block sink.sink_private
  | net_event.timer_expired => False

instance rolls_over_decidable (sink : packet_sink_t) (e : net_event) :
    Decidable (rolls_over sink e) :=
  match e with
  | net_event.packet_received packet _ =>
    inferInstanceAs (Decidable (get16 packet.data 0 = tftp_op_data ∧
      sink.sink_private.last_block = 0xFFFF ∧
      get16 packet.data 2 = expected_block sink.sink_private))
  | net_event.timer_expired => inferInstanceAs (Decidable False)

/-- No event of the sequence, delivered in order from the given state, makes the
block number roll over. -/
def no_rollover : List net_event → packet_sink_t → Env → Prop
  | [], _, _ => True
  | e :: rest, sink, env =>
    ¬ rolls_over sink e ∧ no_rollover rest (engine_step e sink env).1 (engine_step e sink env).2

instance no_rollover_decidable :
    ∀ (events : List net_event) (sink : packet_sink_t) (env : Env),
      Decidable (no_rollover events sink env)
  | [], _, _ => isTrue trivial
  | e :: rest, sink, env =>
    have := no_rollover_decidable rest (engine_step e sink env).1 (engine_step e sink env).2
    inferInstanceAs (Decidable (¬ rolls_over sink e ∧
      no_rollover rest (engine_step e sink env).1 (engine_step e sink env).2))

/-- The order invariant with its range side condition. -/
def ack_order (t : tftp_transfer_t) : Prop := t.last_ack ≤ t.last_block ∧ t.last_block ≤ 0xFFFF

/-- The event: a DATA block with the given number and a 512-byte payload arrives
from the server, and its write succeeds. -/
def data_event (block : Nat) : net_event :=
  net_event.packet_received (scenario_packet (data_packet block (List.replicate 512 0))) FR_OK

/-- The events: DATA blocks `b + 1` to `b + n` arrive in order. -/
def data_run : Nat → Nat → List net_event
  | _, 0 => []
  | b, n + 1 => data_event (b + 1) :: data_run (b + 1) n

/-- An OPTION-ACK that sets the window size to 3. -/
def oack_window3 : packet_t :=
  scenario_packet (oack_packet (encode_options [(cstr "windowsize", cstr "3")]))

/-- A run in which the block number rolls over: the OPTION-ACK with window size 3,
then DATA blocks 1 to 65535 in order, then DATA block 0. -/
def rollover_events : List net_event :=
  net_event.packet_received oack_window3 FR_OK :: (data_run 0 65535 ++ [data_event 0])

/-- The sink after the OPTION-ACK with window size 3. -/
def window3_sink : packet_sink_t :=
  { scenario_sink with
    timer := 50,
    sink_private := { demo_sink.sink_private with started := true, window_size := 3 } }

/-- The environment after the OPTION-ACK of the scenarios: the RRQ and ACK(0) have
been sent and the sink is locked on to port 50000. -/
def after_oack_env : Env :=
  { now := 0,
    sent := [tftp_create_rrq demo_sink, ack0_packet scenario_sink],
    written := [],
    registered := true,
    reglog := [reg_op.add 0, reg_op.remove 0, reg_op.add 50000] }

/-- The states of the end-to-end scenario after the OPTION-ACK, for any transfer
that `tftp_receive` has started: block size 1024, window size 8, locked on to
port 50000, with the given progress. `acks` are the ACKs sent after ACK(0) and
`blocks` the buffers written so far. -/
def e2e_state (ip : Nat) (f d : List Nat) (ticks : Nat) (env : Env) (last_block last_ack : Nat)
    (bytes : Int) (blocks : List (List Nat)) (acks : List packet_t) (done : Bool) :
    packet_sink_t × Env :=
  ({ match_remote_ip := ip,
     match_local_port := 8192 + ticks % 32768,
     match_remote_port := 50000,
     timer := set_timer_ms env DATA_TIMEOUT,
     sink_private :=
       { tftp_filename := f, disk_filename := d, block_size := 1024, last_block := last_block,
         last_ack := last_ack, rollover_value := 0, bytes_received := bytes, total_size := 0,
         window_size := 8, started := true, completed := done, success := done,
         retransmits_this_block := 0, retransmits_total := 0 } },
   { now := env.now,
     sent := env.sent ++
       [tftp_create_rrq (tftp_receive_setup ip f d ticks),
        ack0_packet { tftp_receive_setup ip f d ticks with match_remote_port := 50000 }] ++ acks,
     written := env.written ++ blocks,
     registered := true,
     reglog := env.reglog ++ [reg_op.add 0, reg_op.remove 0, reg_op.add 50000] })

/-- The events of the end-to-end scenario for arbitrary payloads: the OPTION-ACK,
DATA blocks 1 to 9 carrying `payload 0` to `payload 8`, and DATA block 10
carrying `last`; every write succeeds. -/
def e2e_events (payload : Nat → List Nat) (last : List Nat) : List net_event :=
  net_event.packet_received scenario_oack FR_OK ::
    ((List.range 9).map
        (fun i => net_event.packet_received
          (scenario_packet (data_packet (i + 1) (payload i))) FR_OK) ++
      [net_event.packet_received (scenario_packet (data_packet 10 last)) FR_OK])

/-- The flag invariant: a successful transfer is completed and has no pending
retransmission count. -/
def success_settled (t : tftp_transfer_t) : Prop :=
  t.success = true → t.completed = true ∧ t.retransmits_this_block = 0

/-- A DATA block with a 3-byte payload arrives and is written. -/
def short_data_event (block : Nat) : net_event :=
  net_event.packet_received (scenario_packet (data_packet block [1, 2, 3])) FR_OK

/-- The window bound: fewer than `window_size` blocks are accepted and not yet
acknowledged (as integers). -/
def window_bound (t : tftp_transfer_t) : Prop :=
  (t.last_block : Int) < (t.last_ack : Int) + t.window_size

/-- After every event of the sequence, delivered in order from the given state,
the window size is at least 1. -/
def windows_positive : List net_event → packet_sink_t → Env → Prop
  | [], _, _ => True
  | e :: rest, sink, env =>
    1 ≤ (engine_step e sink env).1.sink_private.window_size ∧
      windows_positive rest (engine_step e sink env).1 (engine_step e sink env).2

instance windows_positive_decidable :
    ∀ (events : List net_event) (sink : packet_sink_t) (env : Env),
      Decidable (windows_positive events sink env)
  | [], _, _ => isTrue trivial
  | e :: rest, sink, env =>
    have := windows_positive_decidable rest (engine_step e sink env).1 (engine_step e sink env).2
    inferInstanceAs (Decidable (1 ≤ (engine_step e sink env).1.sink_private.window_size ∧
      windows_positive rest (engine_step e sink env).1 (engine_step e sink env).2))

/-- The bytes handed to the storage write since the start equal `bytes_received`. -/
def bytes_accounted (written0 : List (List Nat)) (sink : packet_sink_t) (env : Env) : Prop :=
  ∃ blocks : List (List Nat), env.written = written0 ++ blocks ∧
    sink.sink_private.bytes_received = ((blocks.map List.length).sum : Nat)

/-! ## Checksums of the IPv4 and UDP headers

`src/net.h` declares the header records and `net_compute_ipv4_checksum`,
`net_compute_udp_checksum`; the bodies (net.c) are not among the sources, so the
routines and the decoder's checks follow the specification's description. -/

/-- The record `ipv4_header_t` of net.h without its payload; the fields hold the
host-order values. -/
structure ipv4_header_t where
  version_length : Nat
  diffserv_ecn : Nat
  length : Nat
  id : Nat
  flags_and_frags : Nat
  ttl : Nat
  protocol : Nat
  checksum : Nat
  source_ip : Nat
  destination_ip : Nat
deriving DecidableEq, Repr

/-- The record `udp_header_t` of net.h without its payload. -/
structure udp_header_t where
  source_port : Nat
  destination_port : Nat
  length : Nat
  checksum : Nat
deriving DecidableEq, Repr

/-- An IPv4 packet that carries a UDP datagram: the IPv4 header, the UDP header in
its payload, and the bytes of the UDP payload. -/
structure udp_datagram where
  ipv4 : ipv4_header_t
  udp : udp_header_t
  payload : List Nat
deriving DecidableEq, Repr

/-- Modelled from the spec: one step of the one's-complement sum of 16-bit words,
an addition with end-around carry (the checksum routines of net.c are not among
the sources). -/
def ones_add (a b : Nat) : Nat := (a + b) % 65536 + (a + b) / 65536

/-- Modelled from the spec: the one's-complement fold-carry sum over 16-bit words. -/
def ones_sum (words : List Nat) : Nat := words.foldl ones_add 0

/-- Modelled from the spec: the 16-bit big-endian words of a byte sequence, an odd
length being padded with a trailing zero byte for the computation only. -/
def words_of_bytes : List Nat → List Nat
  | [] => []
  | [b] => [b % 256 * 256]
  | b1 :: b2 :: rest => (b1 % 256 * 256 + b2 % 256) :: words_of_bytes rest

/-- The ten 16-bit words of the 20-byte IPv4 header, in wire order. -/
def ipv4_words (h : ipv4_header_t) : List Nat :=
  [h.version_length % 256 * 256 + h.diffserv_ecn % 256, h.length % 65536, h.id % 65536,
    h.flags_and_frags % 65536, h.ttl % 256 * 256 + h.protocol % 256, h.checksum % 65536,
    h.source_ip / 65536 % 65536, h.source_ip % 65536,
    h.destination_ip / 65536 % 65536, h.destination_ip % 65536]

/-- Modelled from the spec: the words the UDP checksum covers: the pseudo-header
(source and destination address, a zero byte, the protocol, the UDP length),
the UDP header and the payload. -/
def udp_words (d : udp_datagram) : List Nat :=
  [d.ipv4.source_ip / 65536 % 65536, d.ipv4.source_ip % 65536,
    d.ipv4.destination_ip / 65536 % 65536, d.ipv4.destination_ip % 65536,
    d.ipv4.protocol % 256, d.udp.length % 65536,
    d.udp.source_port % 65536, d.udp.destination_port % 65536, d.udp.length % 65536,
    d.udp.checksum % 65536] ++ words_of_bytes d.payload

/-- Modelled from the spec: `net_compute_ipv4_checksum` stores the complement of the
one's-complement sum over the header, taken with the checksum field zero. -/
def net_compute_ipv4_checksum (d : udp_datagram) : udp_datagram :=
  { d with ipv4 :=
      { d.ipv4 with checksum := 0xFFFF - ones_sum (ipv4_words { d.ipv4 with checksum := 0 }) } }

/-- Modelled from the spec: the value stored for a computed UDP checksum: a
computed zero goes out as
0xFFFF, its equivalent in one's-complement arithmetic, since zero in the field
means that the datagram is unchecked. -/
def udp_checksum_field (sum : Nat) : Nat := if sum = 0 then 0xFFFF else sum

/-- Modelled from the spec: `net_compute_udp_checksum` stores the complement of the
one's-complement sum over pseudo-header, UDP header and payload, taken with the
checksum field zero. The spec keeps the value zero of the field for unchecked
datagrams and requires every bit flip in a datagram it has encoded to be
detected, so a computed zero is stored as 0xFFFF, the rule of the RFC the spec
refers to for this field. -/
def net_compute_udp_checksum (d : udp_datagram) : udp_datagram :=
  { d with udp :=
      { d.udp with
        checksum := udp_checksum_field
          (0xFFFF - ones_sum (udp_words { d with udp := { d.udp with checksum := 0 } })) } }

/-- Modelled from the spec: the decoder's verdict on the IPv4 header checksum, which
it must verify: the sum over the header, checksum included, is all ones. -/
def ipv4_checksum_valid (d : udp_datagram) : Bool :=
  decide (ones_sum (ipv4_words d.ipv4) = 0xFFFF)

/-- Modelled from the spec: the decoder's verdict on the UDP checksum: a zero
checksum means unchecked and is accepted; a checksum that is present must
verify. -/
def udp_checksum_valid (d : udp_datagram) : Bool :=
  decide (d.udp.checksum % 65536 = 0 ∨ ones_sum (udp_words d) = 0xFFFF)

/-- The byte with bit `k` inverted. -/
def flip_bit (b k : Nat) : Nat := if b / 2 ^ k % 2 = 1 then b - 2 ^ k else b + 2 ^ k

/-- The datagram with bit `k` of payload byte `i` inverted. -/
def flip_payload_bit (d : udp_datagram) (i k : Nat) : udp_datagram :=
  { d with payload := d.payload.set i (flip_bit (d.payload.getD i 0) k) }

/-- The value a one's-complement sum represents for the plain sum `s`: 0 for 0,
otherwise the residue modulo 65535 taken in 1..65535. -/
def ones_norm (s : Nat) : Nat := if s = 0 then 0 else (s - 1) % 65535 + 1

/-- The weight of payload byte `i` in its 16-bit word: 256 for the high byte. -/
def byte_weight (i : Nat) : Nat := if i % 2 = 0 then 256 else 1

/-- A datagram for which the complement of the one's-complement sum is zero:
addresses 10.0.0.1 and 10.0.0.2, ports 8192 and 69, two payload bytes. -/
def zero_checksum_datagram : udp_datagram :=
  { ipv4 := { version_length := 0x45, diffserv_ecn := 0, length := 30, id := 0,
              flags_and_frags := 0, ttl := 64, protocol := 17, checksum := 0,
              source_ip := 0x0A000001, destination_ip := 0x0A000002 },
    udp := { source_port := 8192, destination_port := 69, length := 10, checksum := 0 },
    payload := [0xCB, 0x92] }

/-! ## Equations of the callbacks -/


theorem tftp_create_ack_eq (sink : packet_sink_t) :
    tftp_create_ack sink =
      (ack_packet sink,
        { sink with sink_private :=
            { sink.sink_private with last_ack := sink.sink_private.last_block } }) := rfl

theorem window_ack_eq (sink : packet_sink_t) (env : Env) :
    window_ack sink env =
      if (sink.sink_private.last_block : Int) ≥
          (sink.sink_private.last_ack : Int) + sink.sink_private.window_size then
        ({ sink with
            timer := set_timer_ms env DATA_TIMEOUT,
            sink_private :=
              { sink.sink_private with last_ack := sink.sink_private.last_block } },
          { env with sent := env.sent ++ [ack_packet sink] })
      else
        ({ sink with timer := set_timer_ms env DATA_TIMEOUT }, env) := by
  by_cases h : (sink.sink_private.last_block : Int) ≥
      (sink.sink_private.last_ack : Int) + sink.sink_private.window_size
  · simp only [window_ack, h, if_true, tftp_create_ack_eq, net_tx, set_timer_ms, set_timer_ticks]
  · simp only [window_ack, h, if_false, set_timer_ms, set_timer_ticks]

theorem payload_take (message : List Nat) :
    (message.drop 4).take ((message.length : Int) - 4).toNat = message.drop 4 := by
  apply List.take_of_length_le
  simp only [List.length_drop]
  omega


theorem accept_data_eq (tftp : tftp_transfer_t) (env : Env) (message : List Nat) (fr : Nat) :
    accept_data tftp env message fr =
      ({ tftp with
          last_block := get16 message 2,
          retransmits_this_block := 0,
          bytes_received :=
            if (message.length : Int) - 4 > 0 then
              tftp.bytes_received + ((message.length : Int) - 4)
            else tftp.bytes_received,
          completed :=
            if (message.length : Int) - 4 > 0 ∧ fr ≠ FR_OK then true
            else if tftp.completed = false ∧ (message.length : Int) - 4 < tftp.block_size then true
            else tftp.completed,
          success :=
            if (message.length : Int) - 4 > 0 ∧ fr ≠ FR_OK then false
            else if tftp.completed = false ∧ (message.length : Int) - 4 < tftp.block_size then true
            else tftp.success },
        if (message.length : Int) - 4 > 0 then
          { env with written := env.written ++ [message.drop 4] }
        else env) := by
  have hp := payload_take message
  by_cases h1 : (message.length : Int) - 4 > 0 <;> by_cases h2 : fr = FR_OK <;>
    by_cases h3 : tftp.completed = false <;>
    by_cases h4 : (message.length : Int) - 4 < tftp.block_size <;>
    simp [accept_data, f_write, hp, h1, h2, h3, h4]

theorem tftp_process_data_eq (sink : packet_sink_t) (env : Env) (message : List Nat) (fr : Nat) :
    tftp_process_data sink env message fr =
      if get16 message 2 = expected_block sink.sink_private then
        window_ack
          { sink with sink_private := (accept_data sink.sink_private env message fr).1 }
          (accept_data sink.sink_private env message fr).2
      else
        window_ack sink env := by
  by_cases h : get16 message 2 = expected_block sink.sink_private
  · simp [tftp_process_data, h]
  · simp [tftp_process_data, h]

theorem window_ack_written (sink : packet_sink_t) (env : Env) :
    (window_ack sink env).2.written = env.written := by
  rw [window_ack_eq]
  split_ifs <;> rfl

theorem window_ack_timer (sink : packet_sink_t) (env : Env) :
    (window_ack sink env).1.timer = set_timer_ms env DATA_TIMEOUT := by
  rw [window_ack_eq]
  split_ifs <;> rfl

theorem accept_data_now (tftp : tftp_transfer_t) (env : Env) (message : List Nat) (fr : Nat) :
    (accept_data tftp env message fr).2.now = env.now := by
  rw [accept_data_eq]
  dsimp only
  split_ifs <;> rfl

theorem accept_data_sent (tftp : tftp_transfer_t) (env : Env) (message : List Nat) (fr : Nat) :
    (accept_data tftp env message fr).2.sent = env.sent := by
  rw [accept_data_eq]
  dsimp only
  split_ifs <;> rfl

/-- C2. A DATA datagram of length n whose block number is the expected one is
accepted: `last_block` becomes the received block number,
`retransmits_this_block` becomes 0; when n - 4 > 0 exactly the n - 4 bytes after
the 4-byte header are handed to the storage write, once, and n - 4 is added to
`bytes_received`; when n - 4 <= 0 nothing is written and `bytes_received` is
unchanged. -/
theorem process_data_accepts_in_sequence (sink : packet_sink_t) (env : Env)
    (message : List Nat) (fr : Nat)
    (hseq : get16 message 2 = expected_block sink.sink_private) :
    (tftp_process_data sink env message fr).1.sink_private.last_block = get16 message 2 ∧
    (tftp_process_data sink env message fr).1.sink_private.retransmits_this_block = 0 ∧
    ((message.length : Int) - 4 > 0 →
      (tftp_process_data sink env message fr).2.written = env.written ++ [message.drop 4] ∧
      ((message.drop 4).length : Int) = (message.length : Int) - 4 ∧
      (tftp_process_data sink env message fr).1.sink_private.bytes_received =
        sink.sink_private.bytes_received + ((message.length : Int) - 4)) ∧
    ((message.length : Int) - 4 ≤ 0 →
      (tftp_process_data sink env message fr).2.written = env.written ∧
      (tftp_process_data sink env message fr).1.sink_private.bytes_received =
        sink.sink_private.bytes_received) := by
  rw [tftp_process_data_eq, if_pos hseq]
  refine ⟨?_, ?_, ?_, ?_⟩
  · rw [window_ack_eq, accept_data_eq]
    dsimp only
    split_ifs <;> rfl
  · rw [window_ack_eq, accept_data_eq]
    dsimp only
    split_ifs <;> rfl
  · intro hpos
    refine ⟨?_, ?_, ?_⟩
    · rw [window_ack_written, accept_data_eq]
      dsimp only
      rw [if_pos hpos]
    · rw [List.length_drop]
      omega
    · rw [window_ack_eq, accept_data_eq]
      dsimp only
      split_ifs <;> rfl
  · intro hle
    have hn : ¬ ((message.length : Int) - 4 > 0) := by omega
    refine ⟨?_, ?_⟩
    · rw [window_ack_written, accept_data_eq]
      dsimp only
      rw [if_neg hn]
    · rw [window_ack_eq, accept_data_eq]
      dsimp only
      split_ifs <;> rfl

theorem process_data_accepts_in_sequence_witness :
    get16 (data_packet 1 [7, 8, 9]) 2 = expected_block demo_sink.sink_private ∧
    (tftp_process_data demo_sink demo_env (data_packet 1 [7, 8, 9]) 0).1.sink_private.last_block
      = 1 ∧
    (tftp_process_data demo_sink demo_env (data_packet 1 [7, 8, 9]) 0).2.written = [[7, 8, 9]] ∧
    (tftp_process_data demo_sink demo_env (data_packet 1 [7, 8, 9]) 0).1.sink_private.bytes_received
      = 3 :=
  have h := process_data_accepts_in_sequence demo_sink demo_env (data_packet 1 [7, 8, 9]) 0
    (by decide)
  ⟨by decide, h.1, (h.2.2.1 (by decide)).1, (h.2.2.1 (by decide)).2.2⟩

theorem expected_block_eq (tftp : tftp_transfer_t) (h16 : tftp.last_block ≤ 0xFFFF) :
    expected_block tftp =
      if tftp.last_block < 0xFFFF then tftp.last_block + 1 else tftp.rollover_value := by
  unfold expected_block
  by_cases h : tftp.last_block < 0xFFFF
  · have h1 : (tftp.last_block + 1) % 65536 = tftp.last_block + 1 := Nat.mod_eq_of_lt (by omega)
    simp only [h1, h, if_true]
    rw [if_neg (by omega)]
  · have h2 : tftp.last_block = 0xFFFF := by omega
    simp [h2]

/-- C3. With a 16-bit `last_block`, the block number `tftp_process_data` expects
next is `last_block + 1` when `last_block < 0xFFFF` and the rollover value when
`last_block = 0xFFFF`; the datagram takes the accepting branch exactly when its
block number equals that value, and for a datagram with a payload the storage
write happens exactly in that case. -/
theorem data_in_sequence_iff_expected (sink : packet_sink_t) (env : Env) (message : List Nat)
    (fr : Nat) (h16 : sink.sink_private.last_block ≤ 0xFFFF) :
    (sink.sink_private.last_block < 0xFFFF →
      expected_block sink.sink_private = sink.sink_private.last_block + 1) ∧
    (sink.sink_private.last_block = 0xFFFF →
      expected_block sink.sink_private = sink.sink_private.rollover_value) ∧
    (get16 message 2 = expected_block sink.sink_private →
      tftp_process_data sink env message fr =
        window_ack
          { sink with sink_private := (accept_data sink.sink_private env message fr).1 }
          (accept_data sink.sink_private env message fr).2) ∧
    (get16 message 2 ≠ expected_block sink.sink_private →
      tftp_process_data sink env message fr = window_ack sink env) ∧
    (4 < message.length →
      ((tftp_process_data sink env message fr).2.written = env.written ++ [message.drop 4] ↔
        get16 message 2 = expected_block sink.sink_private)) := by
  have he := expected_block_eq sink.sink_private h16
  refine ⟨?_, ?_, ?_, ?_, ?_⟩
  · intro h
    rw [he, if_pos h]
  · intro h
    rw [he, if_neg (by omega)]
  · intro h
    rw [tftp_process_data_eq, if_pos h]
  · intro h
    rw [tftp_process_data_eq, if_neg h]
  · intro hlen
    have hpos : (message.length : Int) - 4 > 0 := by omega
    constructor
    · intro hw
      by_contra hne
      rw [tftp_process_data_eq, if_neg hne, window_ack_written] at hw
      have := congrArg List.length hw
      simp at this
    · intro h
      rw [tftp_process_data_eq, if_pos h, window_ack_written, accept_data_eq]
      dsimp only
      rw [if_pos hpos]

theorem data_in_sequence_iff_expected_witness :
    (demo_with { demo_sink.sink_private with last_block := 0xFFFF, rollover_value := 0 }
      ).sink_private.last_block ≤ 0xFFFF ∧
    expected_block
      (demo_with { demo_sink.sink_private with last_block := 0xFFFF, rollover_value := 0 }
        ).sink_private = 0 ∧
    (tftp_process_data
      (demo_with { demo_sink.sink_private with last_block := 0xFFFF, rollover_value := 0 })
      demo_env (data_packet 0 [1, 2, 3, 4, 5]) 0).2.written = [[1, 2, 3, 4, 5]] :=
  have h := data_in_sequence_iff_expected
    (demo_with { demo_sink.sink_private with last_block := 0xFFFF, rollover_value := 0 })
    demo_env (data_packet 0 [1, 2, 3, 4, 5]) 0 (by decide)
  ⟨by decide, h.2.1 (by decide), (h.2.2.2.2 (by decide)).2 (by decide)⟩

/-- C5. For a transfer that is not completed and an in-sequence DATA block
whose write succeeds (or whose payload is empty), the transfer is completed
with success exactly when the payload length is less than the negotiated block
size; the payload is in the write log of the resulting state, and a payload of
exactly `block_size` bytes leaves the transfer not completed. -/
theorem short_block_completes (sink : packet_sink_t) (env : Env) (message : List Nat) (fr : Nat)
    (hseq : get16 message 2 = expected_block sink.sink_private)
    (hnc : sink.sink_private.completed = false)
    (hw : fr = FR_OK ∨ (message.length : Int) - 4 ≤ 0) :
    (((tftp_process_data sink env message fr).1.sink_private.completed = true ∧
        (tftp_process_data sink env message fr).1.sink_private.success = true) ↔
      (message.length : Int) - 4 < sink.sink_private.block_size) ∧
    ((tftp_process_data sink env message fr).1.sink_private.completed = true ↔
      (message.length : Int) - 4 < sink.sink_private.block_size) ∧
    ((message.length : Int) - 4 > 0 →
      (tftp_process_data sink env message fr).2.written = env.written ++ [message.drop 4]) ∧
    ((message.length : Int) - 4 = sink.sink_private.block_size →
      (tftp_process_data sink env message fr).1.sink_private.completed = false) := by
  have hf : ¬ ((message.length : Int) - 4 > 0 ∧ fr ≠ FR_OK) := by
    rintro ⟨h1, h2⟩
    rcases hw with h | h
    · exact h2 h
    · omega
  have hc : (tftp_process_data sink env message fr).1.sink_private.completed =
      decide ((message.length : Int) - 4 < sink.sink_private.block_size) := by
    rw [tftp_process_data_eq, if_pos hseq, window_ack_eq, accept_data_eq]
    dsimp only
    by_cases hlt : (message.length : Int) - 4 < sink.sink_private.block_size <;>
      split_ifs <;> simp_all
  have hs : (message.length : Int) - 4 < sink.sink_private.block_size →
      (tftp_process_data sink env message fr).1.sink_private.success = true := by
    intro hlt
    rw [tftp_process_data_eq, if_pos hseq, window_ack_eq, accept_data_eq]
    dsimp only
    split_ifs <;> simp_all
  refine ⟨?_, ?_, ?_, ?_⟩
  · constructor
    · rintro ⟨h1, _⟩
      rw [hc] at h1
      exact of_decide_eq_true h1
    · intro hlt
      exact ⟨by rw [hc]; exact decide_eq_true hlt, hs hlt⟩
  · rw [hc]
    exact decide_eq_true_iff
  · intro hpos
    rw [tftp_process_data_eq, if_pos hseq, window_ack_written, accept_data_eq]
    dsimp only
    rw [if_pos hpos]
  · intro heq
    rw [hc]
    exact decide_eq_false (by omega)

theorem short_block_completes_witness :
    get16 (data_packet 1 (List.replicate 300 0)) 2 = expected_block demo_sink.sink_private ∧
    demo_sink.sink_private.completed = false ∧
    demo_sink.sink_private.block_size = 512 ∧
    (data_packet 1 (List.replicate 300 0)).length = 304 ∧
    (tftp_process_data demo_sink demo_env (data_packet 1 (List.replicate 300 0)) FR_OK
      ).1.sink_private.completed = true ∧
    (tftp_process_data demo_sink demo_env (data_packet 1 (List.replicate 300 0)) FR_OK
      ).1.sink_private.success = true :=
  have h := short_block_completes demo_sink demo_env (data_packet 1 (List.replicate 300 0)) FR_OK
    (by decide) (by decide) (Or.inl rfl)
  ⟨by decide, by decide, by decide, by decide, (h.1.2 (by decide)).1, (h.1.2 (by decide)).2⟩

/-- C7. A DATA datagram whose block number is not the expected one causes no
storage write, leaves `last_block`, `bytes_received`, `completed`, `success`
and both retransmit counters unchanged, and sets the timer to the deadline
`DATA_TIMEOUT` after the current time: 250 ms, which `set_timer_ms` turns into
50 ticks of 5 ms added to the current tick count in 32-bit arithmetic. -/
theorem out_of_sequence_ignored (sink : packet_sink_t) (env : Env) (message : List Nat)
    (fr : Nat) (hne : get16 message 2 ≠ expected_block sink.sink_private) :
    (tftp_process_data sink env message fr).2.written = env.written ∧
    (tftp_process_data sink env message fr).1.sink_private.last_block =
      sink.sink_private.last_block ∧
    (tftp_process_data sink env message fr).1.sink_private.bytes_received =
      sink.sink_private.bytes_received ∧
    (tftp_process_data sink env message fr).1.sink_private.completed =
      sink.sink_private.completed ∧
    (tftp_process_data sink env message fr).1.sink_private.success =
      sink.sink_private.success ∧
    (tftp_process_data sink env message fr).1.sink_private.retransmits_this_block =
      sink.sink_private.retransmits_this_block ∧
    (tftp_process_data sink env message fr).1.sink_private.retransmits_total =
      sink.sink_private.retransmits_total ∧
    (tftp_process_data sink env message fr).1.timer = set_timer_ms env DATA_TIMEOUT ∧
    set_timer_ms env DATA_TIMEOUT = (env.now + 50) % 4294967296 := by
  rw [tftp_process_data_eq, if_neg hne, window_ack_eq]
  refine ⟨?_, ?_, ?_, ?_, ?_, ?_, ?_, ?_, rfl⟩ <;> split_ifs <;> rfl

theorem out_of_sequence_ignored_witness :
    get16 (data_packet 5 [7, 8, 9]) 2 ≠ expected_block demo_sink.sink_private ∧
    (tftp_process_data demo_sink demo_env (data_packet 5 [7, 8, 9]) 0).2.written = [] ∧
    (tftp_process_data demo_sink demo_env (data_packet 5 [7, 8, 9]) 0).1.sink_private.last_block
      = 0 ∧
    (tftp_process_data demo_sink demo_env (data_packet 5 [7, 8, 9]) 0).1.timer = 50 :=
  have h := out_of_sequence_ignored demo_sink demo_env (data_packet 5 [7, 8, 9]) 0 (by decide)
  ⟨by decide, h.1, h.2.1, h.2.2.2.2.2.2.2.1⟩

theorem tftp_timer_expired_eq (sink : packet_sink_t) (env : Env) :
    tftp_timer_expired sink env =
      if sink.sink_private.retransmits_this_block > 10 then
        ({ sink with sink_private :=
            { sink.sink_private with completed := true, success := false } }, env)
      else if sink.sink_private.completed = true then
        (sink, env)
      else if sink.sink_private.started = false then
        ({ sink with
            timer := set_timer_ms env RRQ_TIMEOUT,
            sink_private :=
              { sink.sink_private with
                retransmits_this_block := sink.sink_private.retransmits_this_block + 1,
                retransmits_total := sink.sink_private.retransmits_total + 1 } },
          { env with sent := env.sent ++
              [tftp_create_rrq { sink with timer := set_timer_ms env RRQ_TIMEOUT }] })
      else
        ({ sink with
            timer := set_timer_ms env DATA_TIMEOUT,
            sink_private :=
              { sink.sink_private with
                last_ack := sink.sink_private.last_block,
                retransmits_this_block := sink.sink_private.retransmits_this_block + 1,
                retransmits_total := sink.sink_private.retransmits_total + 1 } },
          { env with sent := env.sent ++ [ack_packet sink] }) := by
  by_cases h1 : sink.sink_private.retransmits_this_block > 10 <;>
    by_cases h2 : sink.sink_private.completed = true <;>
    by_cases h3 : sink.sink_private.started = false <;>
    simp [tftp_timer_expired, h1, h2, h3, tftp_create_ack_eq, net_tx, set_timer_ms, set_timer_ticks, ack_packet]

theorem tftp_create_rrq_opcode (sink : packet_sink_t) :
    get16 (tftp_create_rrq sink).data 0 = tftp_op_rrq := by
  simp only [tftp_create_rrq, put16, tftp_op_rrq]
  rfl

theorem tftp_create_rrq_port (sink : packet_sink_t) :
    (tftp_create_rrq sink).destination_port = 69 := by
  simp only [tftp_create_rrq]

theorem tftp_create_rrq_timer (sink : packet_sink_t) (t : Nat) :
    tftp_create_rrq { sink with timer := t } = tftp_create_rrq sink := rfl

/-- C9. For a transfer that is not completed: if `retransmits_this_block > 10`
the timer callback sets `completed`, clears `success`, transmits nothing and
leaves both counters and the timer alone; otherwise it transmits exactly one
packet, namely the RRQ (opcode 1, to port 69) with the timer set `RRQ_TIMEOUT`
(1000 ms, 200 ticks of 5 ms) ahead when the transfer is not started, or the ACK
carrying `last_block` with the timer set `DATA_TIMEOUT` (250 ms, 50 ticks)
ahead when it is, and adds 1 to each of the two retransmit counters. The timer
is a 32-bit tick count. -/
theorem timer_expired_step (sink : packet_sink_t) (env : Env)
    (hnc : sink.sink_private.completed = false) :
    (sink.sink_private.retransmits_this_block > 10 →
      (tftp_timer_expired sink env).1.sink_private.completed = true ∧
      (tftp_timer_expired sink env).1.sink_private.success = false ∧
      (tftp_timer_expired sink env).2.sent = env.sent ∧
      (tftp_timer_expired sink env).1.sink_private.retransmits_this_block =
        sink.sink_private.retransmits_this_block ∧
      (tftp_timer_expired sink env).1.sink_private.retransmits_total =
        sink.sink_private.retransmits_total ∧
      (tftp_timer_expired sink env).1.timer = sink.timer) ∧
    (sink.sink_private.retransmits_this_block ≤ 10 →
      (sink.sink_private.started = false →
        (tftp_timer_expired sink env).2.sent = env.sent ++ [tftp_create_rrq sink] ∧
        get16 (tftp_create_rrq sink).data 0 = tftp_op_rrq ∧
        (tftp_create_rrq sink).destination_port = 69 ∧
        (tftp_timer_expired sink env).1.timer = (env.now + 200) % 4294967296) ∧
      (sink.sink_private.started = true →
        (tftp_timer_expired sink env).2.sent = env.sent ++ [ack_packet sink] ∧
        (ack_packet sink).data = put16 tftp_op_ack ++ put16 sink.sink_private.last_block ∧
        (tftp_timer_expired sink env).1.timer = (env.now + 50) % 4294967296) ∧
      (tftp_timer_expired sink env).1.sink_private.retransmits_this_block =
        sink.sink_private.retransmits_this_block + 1 ∧
      (tftp_timer_expired sink env).1.sink_private.retransmits_total =
        sink.sink_private.retransmits_total + 1) := by
  have hc : ¬ sink.sink_private.completed = true := by simp [hnc]
  constructor
  · intro hgt
    rw [tftp_timer_expired_eq, if_pos hgt]
    exact ⟨rfl, rfl, rfl, rfl, rfl, rfl⟩
  · intro hle
    have hn : ¬ sink.sink_private.retransmits_this_block > 10 := by omega
    rw [tftp_timer_expired_eq, if_neg hn, if_neg hc]
    refine ⟨?_, ?_, ?_, ?_⟩
    · intro hs
      rw [if_pos hs]
      exact ⟨rfl, tftp_create_rrq_opcode sink, tftp_create_rrq_port sink, rfl⟩
    · intro hs
      have hs2 : ¬ sink.sink_private.started = false := by simp [hs]
      rw [if_neg hs2]
      exact ⟨rfl, rfl, rfl⟩
    · split_ifs <;> rfl
    · split_ifs <;> rfl

theorem timer_expired_step_witness :
    demo_sink.sink_private.completed = false ∧
    (tftp_timer_expired demo_sink demo_env).2.sent = [tftp_create_rrq demo_sink] ∧
    (tftp_timer_expired demo_sink demo_env).1.timer = 200 ∧
    (tftp_timer_expired demo_sink demo_env).1.sink_private.retransmits_this_block = 1 ∧
    (tftp_timer_expired demo_sink demo_env).1.sink_private.retransmits_total = 1 :=
  have h := (timer_expired_step demo_sink demo_env (by decide)).2 (by decide)
  ⟨by decide, (h.1 (by decide)).1, (h.1 (by decide)).2.2.2, h.2.2.1, h.2.2.2⟩

theorem timer_expirations_exhausted (ts : List Nat) :
    ∀ (sink : packet_sink_t) (env : Env), sink.sink_private.retransmits_this_block > 10 →
      sink.sink_private.completed = true → sink.sink_private.success = false →
      (timer_expirations ts sink env).1.sink_private.completed = true ∧
      (timer_expirations ts sink env).1.sink_private.success = false ∧
      (timer_expirations ts sink env).2.sent = env.sent := by
  induction ts with
  | nil => intro sink env _ hc hs; exact ⟨hc, hs, rfl⟩
  | cons t ts ih =>
    intro sink env hgt _ _
    have hstep : tftp_timer_expired sink { env with now := t } =
        ({ sink with sink_private :=
            { sink.sink_private with completed := true, success := false } },
          { env with now := t }) := by
      rw [tftp_timer_expired_eq, if_pos hgt]
    simp only [timer_expirations, hstep]
    exact ih _ _ hgt rfl rfl

theorem timer_expirations_rrq (ts : List Nat) :
    ∀ (k : Nat) (sink : packet_sink_t) (env : Env),
      sink.sink_private.retransmits_this_block = (k : Int) → k ≤ 11 →
      sink.sink_private.started = false → sink.sink_private.completed = false →
      (timer_expirations ts sink env).2.sent =
        env.sent ++ List.replicate (min ts.length (11 - k)) (tftp_create_rrq sink) ∧
      (ts.length ≤ 11 - k →
        (timer_expirations ts sink env).1.sink_private.completed = false) ∧
      (11 - k < ts.length →
        (timer_expirations ts sink env).1.sink_private.completed = true ∧
        (timer_expirations ts sink env).1.sink_private.success = false) := by
  induction ts with
  | nil =>
    intro k sink env _ _ _ hc
    refine ⟨by simp [timer_expirations], fun _ => hc, fun h => ?_⟩
    simp at h
  | cons t ts ih =>
    intro k sink env hk hk11 hs hc
    by_cases hlt : k ≤ 10
    · have hn : ¬ sink.sink_private.retransmits_this_block > 10 := by omega
      have hc2 : ¬ sink.sink_private.completed = true := by simp [hc]
      have hstep : tftp_timer_expired sink { env with now := t } =
          ({ sink with
              timer := set_timer_ms { env with now := t } RRQ_TIMEOUT,
              sink_private :=
                { sink.sink_private with
                  retransmits_this_block := sink.sink_private.retransmits_this_block + 1,
                  retransmits_total := sink.sink_private.retransmits_total + 1 } },
            { env with now := t, sent := env.sent ++ [tftp_create_rrq sink] }) := by
        rw [tftp_timer_expired_eq, if_neg hn, if_neg hc2, if_pos hs]
        rfl
      simp only [timer_expirations, hstep]
      have hk1 : sink.sink_private.retransmits_this_block + 1 = ((k + 1 : Nat) : Int) := by
        rw [hk]
        push_cast
        rfl
      have h := ih (k + 1)
        { sink with
            timer := set_timer_ms { env with now := t } RRQ_TIMEOUT,
            sink_private :=
              { sink.sink_private with
                retransmits_this_block := sink.sink_private.retransmits_this_block + 1,
                retransmits_total := sink.sink_private.retransmits_total + 1 } }
        { env with now := t, sent := env.sent ++ [tftp_create_rrq sink] }
        hk1 (by omega) hs hc
      have hr : tftp_create_rrq { sink with
          timer := set_timer_ms { env with now := t } RRQ_TIMEOUT,
          sink_private :=
            { sink.sink_private with
              retransmits_this_block := sink.sink_private.retransmits_this_block + 1,
              retransmits_total := sink.sink_private.retransmits_total + 1 } } =
          tftp_create_rrq sink := rfl
      rw [hr] at h
      refine ⟨?_, ?_, ?_⟩
      · rw [h.1]
        have hm : min (t :: ts).length (11 - k) = min ts.length (11 - (k + 1)) + 1 := by
          simp only [List.length_cons]
          omega
        rw [hm, List.replicate_succ, List.append_assoc]
        rfl
      · intro hl
        apply h.2.1
        simp only [List.length_cons] at hl
        omega
      · intro hl
        apply h.2.2
        simp only [List.length_cons] at hl
        omega
    · have hk' : k = 11 := by omega
      have hgt : sink.sink_private.retransmits_this_block > 10 := by omega
      have hstep : tftp_timer_expired sink { env with now := t } =
          ({ sink with sink_private :=
              { sink.sink_private with completed := true, success := false } },
            { env with now := t }) := by
        rw [tftp_timer_expired_eq, if_pos hgt]
      simp only [timer_expirations, hstep]
      have h := timer_expirations_exhausted ts
        { sink with sink_private :=
            { sink.sink_private with completed := true, success := false } }
        { env with now := t } hgt rfl rfl
      refine ⟨?_, ?_, ?_⟩
      · rw [h.2.2, hk']
        simp
      · intro hl
        simp only [List.length_cons] at hl
        omega
      · intro _
        exact ⟨h.1, h.2.1⟩

theorem tftp_receive_start_eq (ip : Nat) (f d : List Nat) (ticks : Nat) (env : Env) :
    tftp_receive_start (tftp_receive_setup ip f d ticks) env =
      ({ tftp_receive_setup ip f d ticks with timer := set_timer_ms env RRQ_TIMEOUT },
        { env with
          registered := true,
          reglog := env.reglog ++ [reg_op.add 0],
          sent := env.sent ++ [tftp_create_rrq (tftp_receive_setup ip f d ticks)] }) := by
  have h1 : ¬ (tftp_receive_setup ip f d ticks).sink_private.retransmits_this_block > 10 := by
    simp [tftp_receive_setup]
  have hstep := tftp_timer_expired_eq (tftp_receive_setup ip f d ticks)
    (net_add_packet_sink env (tftp_receive_setup ip f d ticks))
  rw [if_neg h1, if_neg (by simp [tftp_receive_setup]), if_pos (by simp [tftp_receive_setup])]
    at hstep
  simp only [tftp_receive_start, hstep]
  rfl

/-- C8 (amended). From the state `tftp_receive` leaves after sending the first
RRQ, each of the first 11 consecutive timer expirations retransmits the RRQ and
leaves the transfer running; the 12th expiration completes the transfer with
`success = false`, and neither it nor any later expiration sends a packet. -/
theorem retransmit_ceiling_twelfth (ip : Nat) (f d : List Nat) (ticks : Nat) (env : Env)
    (ts : List Nat) :
    (ts.length ≤ 11 →
      (timer_expirations ts
        (tftp_receive_start (tftp_receive_setup ip f d ticks) env).1
        (tftp_receive_start (tftp_receive_setup ip f d ticks) env).2).1.sink_private.completed
        = false ∧
      (timer_expirations ts
        (tftp_receive_start (tftp_receive_setup ip f d ticks) env).1
        (tftp_receive_start (tftp_receive_setup ip f d ticks) env).2).2.sent =
        (tftp_receive_start (tftp_receive_setup ip f d ticks) env).2.sent ++
          List.replicate ts.length (tftp_create_rrq (tftp_receive_setup ip f d ticks))) ∧
    (12 ≤ ts.length →
      (timer_expirations ts
        (tftp_receive_start (tftp_receive_setup ip f d ticks) env).1
        (tftp_receive_start (tftp_receive_setup ip f d ticks) env).2).1.sink_private.completed
        = true ∧
      (timer_expirations ts
        (tftp_receive_start (tftp_receive_setup ip f d ticks) env).1
        (tftp_receive_start (tftp_receive_setup ip f d ticks) env).2).1.sink_private.success
        = false ∧
      (timer_expirations ts
        (tftp_receive_start (tftp_receive_setup ip f d ticks) env).1
        (tftp_receive_start (tftp_receive_setup ip f d ticks) env).2).2.sent =
        (tftp_receive_start (tftp_receive_setup ip f d ticks) env).2.sent ++
          List.replicate 11 (tftp_create_rrq (tftp_receive_setup ip f d ticks))) := by
  rw [tftp_receive_start_eq]
  have h := timer_expirations_rrq ts 0
    { tftp_receive_setup ip f d ticks with timer := set_timer_ms env RRQ_TIMEOUT }
    { env with
      registered := true,
      reglog := env.reglog ++ [reg_op.add 0],
      sent := env.sent ++ [tftp_create_rrq (tftp_receive_setup ip f d ticks)] }
    (by simp [tftp_receive_setup]) (by omega) (by simp [tftp_receive_setup])
    (by simp [tftp_receive_setup])
  rw [tftp_create_rrq_timer] at h
  dsimp only at h ⊢
  constructor
  · intro hl
    refine ⟨h.2.1 (by omega), ?_⟩
    rw [h.1, Nat.min_eq_left (by omega)]
    rfl
  · intro hl
    refine ⟨(h.2.2 (by omega)).1, (h.2.2 (by omega)).2, ?_⟩
    rw [h.1, Nat.min_eq_right (by omega)]
    rfl

/-- C8, as stated, fails: after 11 consecutive expirations the transfer is still
running, and the 11th expiration has retransmitted the RRQ (12 RRQs are out,
the first one and 11 retransmissions). -/
theorem retransmit_ceiling_not_eleventh :
    (timer_expirations [1000, 2000, 3000, 4000, 5000, 6000, 7000, 8000, 9000, 10000, 11000]
      (tftp_receive_start demo_sink demo_env).1
      (tftp_receive_start demo_sink demo_env).2).1.sink_private.completed = false ∧
    (timer_expirations [1000, 2000, 3000, 4000, 5000, 6000, 7000, 8000, 9000, 10000, 11000]
      (tftp_receive_start demo_sink demo_env).1
      (tftp_receive_start demo_sink demo_env).2).2.sent =
      List.replicate 12 (tftp_create_rrq demo_sink) := by
  have h := timer_expirations_rrq
    [1000, 2000, 3000, 4000, 5000, 6000, 7000, 8000, 9000, 10000, 11000] 0
    (tftp_receive_start demo_sink demo_env).1 (tftp_receive_start demo_sink demo_env).2
    (by decide) (by decide) (by decide) (by decide)
  refine ⟨h.2.1 (by decide), ?_⟩
  rw [h.1]
  rfl

/-- C1 (divergence). `tftp_receive` returns `true` although the transfer failed:
when the output file cannot be opened (`f_open` returns the error code 1),
when the user aborts with the byte 'q' before any reply, and when the
retransmit ceiling is exceeded; in each run the success flag of the transfer
is false at the moment of return. -/
theorem tftp_receive_true_on_failure :
    (tftp_receive 3232235777 (cstr "vmlinux") (cstr "vmlinux") 0 1 demo_env []).map
      (fun r => (r.1, r.2.1.success)) = some (true, false) ∧
    (tftp_receive 3232235777 (cstr "vmlinux") (cstr "vmlinux") 0 FR_OK demo_env
      [{ now := 10, events := [], uart_byte := 113 }]).map
      (fun r => (r.1, r.2.1.success)) = some (true, false) ∧
    (tftp_receive 3232235777 (cstr "vmlinux") (cstr "vmlinux") 0 FR_OK demo_env
      (silent_inputs 12)).map
      (fun r => (r.1, r.2.1.completed, r.2.1.success)) = some (true, true, false) := by
  refine ⟨?_, ?_, ?_⟩ <;> decide

theorem skip_token_append (k rest : List Nat) (hk : 0 ∉ k) :
    skip_token (k ++ 0 :: rest) = 0 :: rest := by
  induction k with
  | nil => simp [skip_token]
  | cons b k ih =>
    have hb : b ≠ 0 := fun h => hk (by simp [h])
    have hk2 : 0 ∉ k := fun h => hk (by simp [h])
    show List.dropWhile _ (b :: (k ++ 0 :: rest)) = _
    rw [List.dropWhile_cons_of_pos (by simpa using hb)]
    exact ih hk2

theorem c_string_append (k rest : List Nat) (hk : 0 ∉ k) :
    c_string (k ++ 0 :: rest) = k := by
  induction k with
  | nil => simp [c_string]
  | cons b k ih =>
    have hb : b ≠ 0 := fun h => hk (by simp [h])
    have hk2 : 0 ∉ k := fun h => hk (by simp [h])
    show List.takeWhile _ (b :: (k ++ 0 :: rest)) = _
    rw [List.takeWhile_cons_of_pos (by simpa using hb)]
    exact congrArg (List.cons b) (ih hk2)

theorem options_loop_nil (tftp : tftp_transfer_t) : options_loop [] tftp = tftp := by
  rw [options_loop]
  split
  · rfl
  · next h => simp [skip_token] at h

theorem options_loop_pair (k v rest : List Nat) (hk : 0 ∉ k) (hv : 0 ∉ v)
    (tftp : tftp_transfer_t) :
    options_loop (k ++ 0 :: (v ++ 0 :: rest)) tftp = options_loop rest (apply_option tftp k v) := by
  rw [options_loop]
  split
  · next h => rw [skip_token_append k _ hk] at h; cases h
  · next x ptr1 h =>
    rw [skip_token_append k _ hk] at h
    injection h with _ h1
    subst h1
    split
    · next h2 => rw [skip_token_append v _ hv] at h2; cases h2
    · next y ptr2 h2 =>
      rw [skip_token_append v _ hv] at h2
      injection h2 with _ h3
      subst h3
      dsimp only
      rw [c_string_append k _ hk, c_string_append v _ hv]

theorem options_loop_encode (pairs : List (List Nat × List Nat)) :
    ∀ tftp : tftp_transfer_t, (∀ p ∈ pairs, 0 ∉ p.1 ∧ 0 ∉ p.2) →
      options_loop (encode_options pairs) tftp =
        pairs.foldl (fun t p => apply_option t p.1 p.2) tftp := by
  induction pairs with
  | nil => intro tftp _; exact options_loop_nil tftp
  | cons p pairs ih =>
    intro tftp h
    obtain ⟨k, v⟩ := p
    have hp := h (k, v) (by simp)
    simp only [encode_options, List.foldl_cons]
    rw [options_loop_pair k v _ hp.1 hp.2]
    exact ih _ (fun q hq => h q (by simp [hq]))

theorem atoi_digits_numeral (ds : List Nat) (h : ∀ d ∈ ds, d < 10) :
    ∀ acc : Nat, atoi_digits (ds.map (fun d => d + 48)) acc =
      ds.foldl (fun a d => a * 10 + d) acc := by
  induction ds with
  | nil => intro acc; rfl
  | cons d ds ih =>
    intro acc
    have hd : d < 10 := h d (by simp)
    have hdig : isdigit (d + 48) = true := by
      simp only [isdigit, Bool.and_eq_true, decide_eq_true_eq]
      omega
    simp only [List.map_cons, atoi_digits, hdig, if_true, List.foldl_cons, Nat.add_sub_cancel]
    exact ih (fun x hx => h x (by simp [hx])) _

theorem foldl_digits (ds : List Nat) :
    ∀ acc : Nat, ds.foldl (fun a d => a * 10 + d) acc =
      acc * 10 ^ ds.length + Nat.ofDigits 10 ds.reverse := by
  induction ds with
  | nil => intro acc; simp
  | cons d ds ih =>
    intro acc
    simp only [List.foldl_cons, ih, List.length_cons, List.reverse_cons, Nat.ofDigits_append,
      Nat.ofDigits_singleton, List.length_reverse]
    ring

theorem atoi_of_digit_head (c : Nat) (cs : List Nat) (hc : isdigit c = true) :
    atoi (c :: cs) = (atoi_digits (c :: cs) 0 : Int) := by
  simp only [isdigit, Bool.and_eq_true, decide_eq_true_eq] at hc
  have hs : isspace c = false := by
    simp only [isspace, Bool.or_eq_false_iff, decide_eq_false_iff_not, Bool.and_eq_false_imp,
      decide_eq_true_eq]
    omega
  unfold atoi
  rw [List.dropWhile_cons_of_neg (by simp [hs])]
  split
  · next h => injection h with h1 _; omega
  · next h => injection h with h1 _; omega
  · rfl

theorem atoi_decimal (n : Nat) : atoi (decimal n) = (n : Int) := by
  unfold decimal
  split_ifs with h0
  · subst h0; decide
  · have hne : Nat.digits 10 n ≠ [] := by simpa [Nat.digits_eq_nil_iff_eq_zero] using h0
    have hlt : ∀ d ∈ (Nat.digits 10 n).reverse, d < 10 := by
      intro d hd
      exact Nat.digits_lt_base (by norm_num) (List.mem_reverse.mp hd)
    obtain ⟨d, ds, hds⟩ := List.exists_cons_of_ne_nil
      (show (Nat.digits 10 n).reverse ≠ [] by simpa using hne)
    have hnum := atoi_digits_numeral _ hlt 0
    rw [foldl_digits, List.reverse_reverse, Nat.ofDigits_digits] at hnum
    rw [hds] at hnum hlt ⊢
    simp only [List.map_cons] at hnum ⊢
    rw [atoi_of_digit_head, hnum]
    · simp
    · have := hlt d (by simp)
      simp only [isdigit, Bool.and_eq_true, decide_eq_true_eq]
      omega

theorem last_value_append (key : List Nat) (pairs : List (List Nat × List Nat))
    (p : List Nat × List Nat) :
    last_value key (pairs ++ [p]) = if p.1 = key then some p.2 else last_value key pairs := by
  unfold last_value
  by_cases h : p.1 = key
  · simp [List.filter_append, h]
  · simp [List.filter_append, h]

theorem apply_option_fields (t : tftp_transfer_t) (k v : List Nat) :
    (apply_option t k v).rollover_value =
      (if k = cstr "rollover" then to_u16 (atoi v) else t.rollover_value) ∧
    (apply_option t k v).total_size =
      (if k = cstr "tsize" then atoi v else t.total_size) ∧
    (apply_option t k v).block_size =
      (if k = cstr "blksize" then to_u16 (atoi v) else t.block_size) ∧
    (apply_option t k v).window_size =
      (if k = cstr "windowsize" then atoi v else t.window_size) := by
  have d1 : cstr "rollover" ≠ cstr "tsize" := by decide
  have d2 : cstr "rollover" ≠ cstr "blksize" := by decide
  have d3 : cstr "rollover" ≠ cstr "windowsize" := by decide
  have d4 : cstr "tsize" ≠ cstr "blksize" := by decide
  have d5 : cstr "tsize" ≠ cstr "windowsize" := by decide
  have d6 : cstr "blksize" ≠ cstr "windowsize" := by decide
  unfold apply_option
  by_cases h1 : k = cstr "rollover"
  · subst h1
    simp [d1, d2, d3]
  by_cases h2 : k = cstr "tsize"
  · subst h2
    simp [d1.symm, d4, d5]
  by_cases h3 : k = cstr "blksize"
  · subst h3
    simp [d2.symm, d4.symm, d6]
  by_cases h4 : k = cstr "windowsize"
  · subst h4
    simp [d3.symm, d5.symm, d6.symm]
  simp [h1, h2, h3, h4]

theorem apply_option_frame (t : tftp_transfer_t) (k v : List Nat) :
    (apply_option t k v).tftp_filename = t.tftp_filename ∧
    (apply_option t k v).disk_filename = t.disk_filename ∧
    (apply_option t k v).last_block = t.last_block ∧
    (apply_option t k v).last_ack = t.last_ack ∧
    (apply_option t k v).bytes_received = t.bytes_received ∧
    (apply_option t k v).started = t.started ∧
    (apply_option t k v).completed = t.completed ∧
    (apply_option t k v).success = t.success ∧
    (apply_option t k v).retransmits_this_block = t.retransmits_this_block ∧
    (apply_option t k v).retransmits_total = t.retransmits_total := by
  unfold apply_option
  split_ifs <;> exact ⟨rfl, rfl, rfl, rfl, rfl, rfl, rfl, rfl, rfl, rfl⟩

theorem apply_options_fields (pairs : List (List Nat × List Nat)) (t : tftp_transfer_t) :
    (apply_options t pairs).rollover_value =
      ((last_value (cstr "rollover") pairs).map (fun v => to_u16 (atoi v))).getD
        t.rollover_value ∧
    (apply_options t pairs).total_size =
      ((last_value (cstr "tsize") pairs).map (fun v => atoi v)).getD t.total_size ∧
    (apply_options t pairs).block_size =
      ((last_value (cstr "blksize") pairs).map (fun v => to_u16 (atoi v))).getD t.block_size ∧
    (apply_options t pairs).window_size =
      ((last_value (cstr "windowsize") pairs).map (fun v => atoi v)).getD t.window_size := by
  induction pairs using List.reverseRecOn with
  | nil => exact ⟨rfl, rfl, rfl, rfl⟩
  | append_singleton pairs p ih =>
    have hf := apply_option_fields (apply_options t pairs) p.1 p.2
    have hstep : apply_options t (pairs ++ [p]) = apply_option (apply_options t pairs) p.1 p.2 := by
      simp [apply_options, List.foldl_append]
    rw [hstep, hf.1, hf.2.1, hf.2.2.1, hf.2.2.2, ih.1, ih.2.1, ih.2.2.1, ih.2.2.2]
    simp only [last_value_append]
    refine ⟨?_, ?_, ?_, ?_⟩ <;> split_ifs <;> rfl

theorem apply_options_frame (pairs : List (List Nat × List Nat)) (t : tftp_transfer_t) :
    (apply_options t pairs).tftp_filename = t.tftp_filename ∧
    (apply_options t pairs).disk_filename = t.disk_filename ∧
    (apply_options t pairs).last_block = t.last_block ∧
    (apply_options t pairs).last_ack = t.last_ack ∧
    (apply_options t pairs).bytes_received = t.bytes_received ∧
    (apply_options t pairs).started = t.started ∧
    (apply_options t pairs).completed = t.completed ∧
    (apply_options t pairs).success = t.success ∧
    (apply_options t pairs).retransmits_this_block = t.retransmits_this_block ∧
    (apply_options t pairs).retransmits_total = t.retransmits_total := by
  induction pairs using List.reverseRecOn with
  | nil => exact ⟨rfl, rfl, rfl, rfl, rfl, rfl, rfl, rfl, rfl, rfl⟩
  | append_singleton pairs p ih =>
    have hf := apply_option_frame (apply_options t pairs) p.1 p.2
    have hstep : apply_options t (pairs ++ [p]) = apply_option (apply_options t pairs) p.1 p.2 := by
      simp [apply_options, List.foldl_append]
    rw [hstep]
    obtain ⟨a1, a2, a3, a4, a5, a6, a7, a8, a9, a10⟩ := hf
    obtain ⟨b1, b2, b3, b4, b5, b6, b7, b8, b9, b10⟩ := ih
    exact ⟨a1.trans b1, a2.trans b2, a3.trans b3, a4.trans b4, a5.trans b5, a6.trans b6,
      a7.trans b7, a8.trans b8, a9.trans b9, a10.trans b10⟩

theorem tftp_process_options_ack_eq (sink : packet_sink_t) (env : Env)
    (pairs : List (List Nat × List Nat)) (h : ∀ p ∈ pairs, 0 ∉ p.1 ∧ 0 ∉ p.2) :
    tftp_process_options_ack sink env (oack_packet (encode_options pairs)) =
      ({ sink with
          timer := set_timer_ms env DATA_TIMEOUT,
          sink_private :=
            { apply_options sink.sink_private pairs with last_block := 0, last_ack := 0 } },
        { env with sent := env.sent ++
            [{ remote_ip := sink.match_remote_ip,
               source_port := sink.match_local_port,
               destination_port := sink.match_remote_port,
               data := [0, 4, 0, 0] }] }) := by
  have hl : List.drop 2 (oack_packet (encode_options pairs)) = encode_options pairs := rfl
  have hp : put16 tftp_op_ack ++ put16 0 = [0, 4, 0, 0] := by decide
  simp only [tftp_process_options_ack, hl, options_loop_encode pairs _ h, tftp_create_ack_eq,
    net_tx, set_timer_ms, set_timer_ticks, ack_packet, hp, apply_options]

/-- C10, as stated, fails for the 16-bit parameters: the value 70000 for the key
`blksize` has the decimal value 70000, and `block_size` becomes 4464. -/
theorem options_ack_blksize_truncated :
    atoi (cstr "70000") = 70000 ∧
    (tftp_process_options_ack demo_sink demo_env
      (oack_packet (cstr "blksize" ++ [0] ++ cstr "70000" ++ [0]))).1.sink_private.block_size
      = 4464 := by
  constructor
  · decide
  · have h := tftp_process_options_ack_eq demo_sink demo_env
      [(cstr "blksize", cstr "70000")] (by decide)
    have hp : oack_packet (cstr "blksize" ++ [0] ++ cstr "70000" ++ [0]) =
        oack_packet (encode_options [(cstr "blksize", cstr "70000")]) := by decide
    rw [hp, h]
    decide

/-- C10 (amended). For an OPTION-ACK payload that is a sequence of NUL-terminated
key/value pairs whose values are in the range of an `int`,
`tftp_process_options_ack` sets `total_size` and `window_size`
to the numeric value (`atoi`, which is the decimal value on a decimal numeral
below 2^31) of the last pair with key `tsize` and `windowsize`, and the 16-bit
parameters
`rollover_value` and `block_size` to that value of the last pair with key
`rollover` and `blksize` reduced modulo 65536; a parameter whose key is absent
is unchanged and other keys change nothing; then `last_block` is 0, exactly one
ACK, for block 0, is sent, `last_ack` is 0 and the timer is set `DATA_TIMEOUT`
(250 ms, 50 ticks of 5 ms) ahead, as a 32-bit tick count. -/
theorem options_ack_parsed (sink : packet_sink_t) (env : Env)
    (pairs : List (List Nat × List Nat)) (h : ∀ p ∈ pairs, 0 ∉ p.1 ∧ 0 ∉ p.2)
    (_hint : ∀ p ∈ pairs, -2147483648 ≤ atoi p.2 ∧ atoi p.2 ≤ 2147483647) :
    (tftp_process_options_ack sink env (oack_packet (encode_options pairs))
      ).1.sink_private.rollover_value =
      ((last_value (cstr "rollover") pairs).map (fun v => to_u16 (atoi v))).getD
        sink.sink_private.rollover_value ∧
    (tftp_process_options_ack sink env (oack_packet (encode_options pairs))
      ).1.sink_private.total_size =
      ((last_value (cstr "tsize") pairs).map (fun v => atoi v)).getD
        sink.sink_private.total_size ∧
    (tftp_process_options_ack sink env (oack_packet (encode_options pairs))
      ).1.sink_private.block_size =
      ((last_value (cstr "blksize") pairs).map (fun v => to_u16 (atoi v))).getD
        sink.sink_private.block_size ∧
    (tftp_process_options_ack sink env (oack_packet (encode_options pairs))
      ).1.sink_private.window_size =
      ((last_value (cstr "windowsize") pairs).map (fun v => atoi v)).getD
        sink.sink_private.window_size ∧
    (tftp_process_options_ack sink env (oack_packet (encode_options pairs))
      ).1.sink_private.last_block = 0 ∧
    (tftp_process_options_ack sink env (oack_packet (encode_options pairs))
      ).1.sink_private.last_ack = 0 ∧
    (tftp_process_options_ack sink env (oack_packet (encode_options pairs))).2.sent =
      env.sent ++ [ack0_packet sink] ∧
    (tftp_process_options_ack sink env (oack_packet (encode_options pairs))).1.timer =
      (env.now + 50) % 4294967296 ∧
    (tftp_process_options_ack sink env (oack_packet (encode_options pairs))
      ).1.sink_private.completed = sink.sink_private.completed ∧
    (tftp_process_options_ack sink env (oack_packet (encode_options pairs))
      ).1.sink_private.success = sink.sink_private.success ∧
    (tftp_process_options_ack sink env (oack_packet (encode_options pairs))
      ).1.sink_private.bytes_received = sink.sink_private.bytes_received ∧
    (∀ n : Nat, n ≤ 2147483647 → atoi (decimal n) = (n : Int)) ∧
    (∀ n : Nat, to_u16 (n : Int) = n % 65536) := by
  rw [tftp_process_options_ack_eq sink env pairs h]
  have hf := apply_options_fields pairs sink.sink_private
  have hr := apply_options_frame pairs sink.sink_private
  refine ⟨hf.1, hf.2.1, hf.2.2.1, hf.2.2.2, rfl, rfl, rfl, rfl, hr.2.2.2.2.2.2.1,
    hr.2.2.2.2.2.2.2.1, hr.2.2.2.2.1, fun n _ => atoi_decimal n, ?_⟩
  intro n
  unfold to_u16
  omega

theorem options_ack_parsed_witness :
    (∀ p ∈ [(cstr "blksize", cstr "256"), (cstr "windowsize", cstr "2")], 0 ∉ p.1 ∧ 0 ∉ p.2) ∧
    (tftp_process_options_ack demo_sink demo_env
      (oack_packet (encode_options [(cstr "blksize", cstr "256"), (cstr "windowsize", cstr "2")]))
      ).1.sink_private.block_size = 256 ∧
    (tftp_process_options_ack demo_sink demo_env
      (oack_packet (encode_options [(cstr "blksize", cstr "256"), (cstr "windowsize", cstr "2")]))
      ).1.sink_private.window_size = 2 ∧
    (tftp_process_options_ack demo_sink demo_env
      (oack_packet (encode_options [(cstr "blksize", cstr "256"), (cstr "windowsize", cstr "2")]))
      ).2.sent = [ack0_packet demo_sink] :=
  have h := options_ack_parsed demo_sink demo_env
    [(cstr "blksize", cstr "256"), (cstr "windowsize", cstr "2")] (by decide) (by decide)
  ⟨by decide, h.2.2.1.trans (by decide), h.2.2.2.1.trans (by decide), h.2.2.2.2.2.2.1⟩

theorem tftp_packet_received_oack (sink : packet_sink_t) (env : Env) (packet : packet_t)
    (fr : Nat) (pairs : List (List Nat × List Nat)) (h : ∀ p ∈ pairs, 0 ∉ p.1 ∧ 0 ∉ p.2)
    (hd : packet.data = oack_packet (encode_options pairs))
    (hs : sink.sink_private.started = false) :
    tftp_packet_received sink env packet fr =
      ({ sink with
          match_remote_port := packet.source_port % 65536,
          timer := set_timer_ms env DATA_TIMEOUT,
          sink_private :=
            { apply_options { sink.sink_private with started := true } pairs with
              last_block := 0, last_ack := 0 } },
        { env with
          registered := true,
          reglog := env.reglog ++ [reg_op.remove sink.match_remote_port,
            reg_op.add (packet.source_port % 65536)],
          sent := env.sent ++
            [ack0_packet { sink with match_remote_port := packet.source_port % 65536 }] }) := by
  have hop : get16 (oack_packet (encode_options pairs)) 0 = tftp_op_options_ack := rfl
  simp only [tftp_packet_received, hs, hd, hop, Bool.not_false, if_true,
    tftp_process_options_ack_eq _ _ pairs h, net_add_packet_sink, net_remove_packet_sink,
    ack0_packet, List.append_assoc, List.singleton_append, set_timer_ms, set_timer_ticks]

theorem demo_start_eq :
    tftp_receive_start demo_sink demo_env =
      ({ demo_sink with timer := 200 },
        { now := 0, sent := [tftp_create_rrq demo_sink], written := [], registered := true,
          reglog := [reg_op.add 0] }) :=
  tftp_receive_start_eq 3232235777 (cstr "vmlinux") (cstr "vmlinux") 0 demo_env

theorem scenario_after_oack :
    tftp_packet_received { demo_sink with timer := 200 }
        { now := 0, sent := [tftp_create_rrq demo_sink], written := [], registered := true,
          reglog := [reg_op.add 0] } scenario_oack FR_OK =
      ({ scenario_sink with
          timer := 50,
          sink_private :=
            { demo_sink.sink_private with
              started := true, block_size := 1024, window_size := 8 } },
        { now := 0,
          sent := [tftp_create_rrq demo_sink, ack0_packet scenario_sink],
          written := [],
          registered := true,
          reglog := [reg_op.add 0, reg_op.remove 0, reg_op.add 50000] }) := by
  rw [tftp_packet_received_oack _ _ scenario_oack FR_OK
    [(cstr "blksize", cstr "1024"), (cstr "windowsize", cstr "8")] (by decide) rfl (by decide)]
  have ha : apply_options { demo_sink.sink_private with started := true }
      [(cstr "blksize", cstr "1024"), (cstr "windowsize", cstr "8")] =
      { demo_sink.sink_private with started := true, block_size := 1024, window_size := 8 } := by
    decide
  rw [ha]
  rfl

theorem scenario_run_eq (k : Nat) :
    scenario_run k =
      net_pump (scenario_data k)
        { scenario_sink with
          timer := 50,
          sink_private :=
            { demo_sink.sink_private with
              started := true, block_size := 1024, window_size := 8 } }
        { now := 0,
          sent := [tftp_create_rrq demo_sink, ack0_packet scenario_sink],
          written := [],
          registered := true,
          reglog := [reg_op.add 0, reg_op.remove 0, reg_op.add 50000] } := by
  unfold scenario_run
  rw [demo_start_eq]
  simp only [net_pump]
  rw [scenario_after_oack]

/-- C4 (divergence). The window rule holds in the stated instance: with window
size 4 and block 0 acknowledged, full-size blocks 1 to 3 cause no ACK and block
4 causes exactly one ACK, for block 4, after which `last_ack` is 4. It fails
where the block number wraps: with blocks up to 0xFFFF accepted and
acknowledged, window size 1 and rollover value 0, the full-size block 0 is
accepted and written, and no ACK is sent for it; `last_ack` stays 0xFFFF. -/
theorem window_ack_lost_at_rollover :
    (deliver_data
      [data_packet 1 (List.replicate 512 0), data_packet 2 (List.replicate 512 0),
        data_packet 3 (List.replicate 512 0)] window4_sink demo_env).2.sent = [] ∧
    (deliver_data
      [data_packet 1 (List.replicate 512 0), data_packet 2 (List.replicate 512 0),
        data_packet 3 (List.replicate 512 0), data_packet 4 (List.replicate 512 0)]
      window4_sink demo_env).2.sent = [ack_for window4_sink 4] ∧
    (deliver_data
      [data_packet 1 (List.replicate 512 0), data_packet 2 (List.replicate 512 0),
        data_packet 3 (List.replicate 512 0), data_packet 4 (List.replicate 512 0)]
      window4_sink demo_env).1.sink_private.last_ack = 4 ∧
    rollover_sink.sink_private.last_ack = rollover_sink.sink_private.last_block ∧
    rollover_sink.sink_private.window_size = 1 ∧
    get16 (data_packet 0 (List.replicate 512 0)) 2 =
      expected_block rollover_sink.sink_private ∧
    (tftp_process_data rollover_sink demo_env (data_packet 0 (List.replicate 512 0)) FR_OK
      ).1.sink_private.last_block = 0 ∧
    (tftp_process_data rollover_sink demo_env (data_packet 0 (List.replicate 512 0)) FR_OK
      ).2.written = [List.replicate 512 0] ∧
    (tftp_process_data rollover_sink demo_env (data_packet 0 (List.replicate 512 0)) FR_OK
      ).1.sink_private.completed = false ∧
    (tftp_process_data rollover_sink demo_env (data_packet 0 (List.replicate 512 0)) FR_OK
      ).2.sent = [] ∧
    (tftp_process_data rollover_sink demo_env (data_packet 0 (List.replicate 512 0)) FR_OK
      ).1.sink_private.last_ack = 0xFFFF := by
  decide

theorem process_data_accept_frame (sink : packet_sink_t) (env : Env) (message : List Nat)
    (fr : Nat) (hseq : get16 message 2 = expected_block sink.sink_private) :
    (tftp_process_data sink env message fr).1.sink_private.last_block = get16 message 2 ∧
    (tftp_process_data sink env message fr).1.sink_private.window_size =
      sink.sink_private.window_size ∧
    (tftp_process_data sink env message fr).1.sink_private.block_size =
      sink.sink_private.block_size ∧
    (tftp_process_data sink env message fr).1.match_remote_ip = sink.match_remote_ip ∧
    (tftp_process_data sink env message fr).1.match_local_port = sink.match_local_port ∧
    (tftp_process_data sink env message fr).1.match_remote_port = sink.match_remote_port := by
  rw [tftp_process_data_eq, if_pos hseq, window_ack_eq, accept_data_eq]
  dsimp only
  refine ⟨?_, ?_, ?_, ?_, ?_, ?_⟩ <;> split_ifs <;> rfl

theorem process_data_accept_ack (sink : packet_sink_t) (env : Env) (message : List Nat)
    (fr : Nat) (hseq : get16 message 2 = expected_block sink.sink_private) :
    ((get16 message 2 : Int) ≥ (sink.sink_private.last_ack : Int) + sink.sink_private.window_size →
      (tftp_process_data sink env message fr).2.sent =
        env.sent ++ [ack_for sink (get16 message 2)] ∧
      (tftp_process_data sink env message fr).1.sink_private.last_ack = get16 message 2) ∧
    (¬ (get16 message 2 : Int) ≥
        (sink.sink_private.last_ack : Int) + sink.sink_private.window_size →
      (tftp_process_data sink env message fr).2.sent = env.sent ∧
      (tftp_process_data sink env message fr).1.sink_private.last_ack =
        sink.sink_private.last_ack) := by
  constructor
  · intro hge
    rw [tftp_process_data_eq, if_pos hseq, window_ack_eq, accept_data_eq]
    dsimp only
    rw [if_pos hge]
    dsimp only [ack_packet, ack_for]
    refine ⟨?_, rfl⟩
    split_ifs <;> rfl
  · intro hlt
    rw [tftp_process_data_eq, if_pos hseq, window_ack_eq, accept_data_eq]
    dsimp only
    rw [if_neg hlt]
    refine ⟨?_, rfl⟩
    dsimp only
    split_ifs <;> rfl

theorem deliver_data_append (ms : List (List Nat)) (m : List Nat) :
    ∀ (sink : packet_sink_t) (env : Env),
      deliver_data (ms ++ [m]) sink env =
        tftp_process_data (deliver_data ms sink env).1 (deliver_data ms sink env).2 m FR_OK := by
  induction ms with
  | nil => intro sink env; rfl
  | cons x ms ih =>
    intro sink env
    simp only [List.cons_append, deliver_data]
    exact ih _ _

theorem consecutive_blocks_append (ms : List (List Nat)) (m : List Nat) :
    ∀ b : Nat, consecutive_blocks b (ms ++ [m]) ↔
      consecutive_blocks b ms ∧ get16 m 2 = b + ms.length + 1 := by
  induction ms with
  | nil => intro b; simp [consecutive_blocks]
  | cons x ms ih =>
    intro b
    show (get16 x 2 = b + 1 ∧ consecutive_blocks (b + 1) (ms ++ [m])) ↔
      (get16 x 2 = b + 1 ∧ consecutive_blocks (b + 1) ms) ∧
        get16 m 2 = b + (ms.length + 1) + 1
    rw [ih (b + 1)]
    constructor
    · rintro ⟨h1, h2, h3⟩
      exact ⟨⟨h1, h2⟩, by omega⟩
    · rintro ⟨⟨h1, h2⟩, h3⟩
      exact ⟨h1, h2, by omega⟩

theorem deliver_data_below_window (ms : List (List Nat)) :
    ∀ (sink : packet_sink_t) (env : Env),
      consecutive_blocks sink.sink_private.last_block ms →
      sink.sink_private.last_block + ms.length ≤ 0xFFFF →
      ((sink.sink_private.last_block + ms.length : Nat) : Int) <
        (sink.sink_private.last_ack : Int) + sink.sink_private.window_size →
      (deliver_data ms sink env).2.sent = env.sent ∧
      (deliver_data ms sink env).1.sink_private.last_block =
        sink.sink_private.last_block + ms.length ∧
      (deliver_data ms sink env).1.sink_private.last_ack = sink.sink_private.last_ack ∧
      (deliver_data ms sink env).1.sink_private.window_size = sink.sink_private.window_size ∧
      (deliver_data ms sink env).1.match_remote_ip = sink.match_remote_ip ∧
      (deliver_data ms sink env).1.match_local_port = sink.match_local_port ∧
      (deliver_data ms sink env).1.match_remote_port = sink.match_remote_port := by
  induction ms with
  | nil => intro sink env _ _ _; exact ⟨rfl, rfl, rfl, rfl, rfl, rfl, rfl⟩
  | cons m ms ih =>
    intro sink env hcons hwrap hwin
    obtain ⟨hm, hrest⟩ := hcons
    simp only [List.length_cons] at hwrap hwin
    have hseq : get16 m 2 = expected_block sink.sink_private := by
      rw [expected_block_eq _ (by omega), if_pos (by omega), hm]
    have hfr := process_data_accept_frame sink env m FR_OK hseq
    have hnack := (process_data_accept_ack sink env m FR_OK hseq).2 (by rw [hm]; push_cast; omega)
    have hlb : (tftp_process_data sink env m FR_OK).1.sink_private.last_block =
        sink.sink_private.last_block + 1 := by rw [hfr.1, hm]
    have h := ih (tftp_process_data sink env m FR_OK).1 (tftp_process_data sink env m FR_OK).2
      (by rw [hlb]; exact hrest) (by rw [hlb]; omega)
      (by rw [hlb, hnack.2, hfr.2.1]; push_cast at hwin ⊢; omega)
    simp only [deliver_data]
    rw [hlb, hnack.1, hnack.2, hfr.2.1, hfr.2.2.2.1, hfr.2.2.2.2.1, hfr.2.2.2.2.2] at h
    refine ⟨h.1, ?_, h.2.2.1, h.2.2.2.1, h.2.2.2.2.1, h.2.2.2.2.2.1, h.2.2.2.2.2.2⟩
    rw [h.2.1, List.length_cons]
    omega

/-- The window rule away from the block-number wrap: when block `a` has just been
acknowledged (`last_ack = last_block = a`), the window size is `w >= 1` and
`a + w <= 0xFFFF`, then of `w` consecutive in-sequence DATA blocks the first
`w - 1` cause no ACK, and the last causes exactly one ACK, carrying the number
`a + w`, after which `last_ack = a + w`. -/
theorem window_threshold_no_wrap (sink : packet_sink_t) (env : Env) (w : Nat)
    (ms : List (List Nat)) (m : List Nat)
    (hack : sink.sink_private.last_ack = sink.sink_private.last_block)
    (hw : sink.sink_private.window_size = (w : Int)) (hlen : ms.length + 1 = w)
    (hwrap : sink.sink_private.last_block + w ≤ 0xFFFF)
    (hcons : consecutive_blocks sink.sink_private.last_block (ms ++ [m])) :
    (deliver_data ms sink env).2.sent = env.sent ∧
    (deliver_data (ms ++ [m]) sink env).2.sent =
      env.sent ++ [ack_for sink (sink.sink_private.last_block + w)] ∧
    (deliver_data (ms ++ [m]) sink env).1.sink_private.last_ack =
      sink.sink_private.last_block + w := by
  rw [consecutive_blocks_append] at hcons
  obtain ⟨hc1, hc2⟩ := hcons
  have h := deliver_data_below_window ms sink env hc1 (by omega)
    (by rw [hack, hw]; push_cast; omega)
  have hseq : get16 m 2 = expected_block (deliver_data ms sink env).1.sink_private := by
    rw [expected_block_eq _ (by rw [h.2.1]; omega), if_pos (by rw [h.2.1]; omega), h.2.1, hc2]
  have hstep := (process_data_accept_ack (deliver_data ms sink env).1
    (deliver_data ms sink env).2 m FR_OK hseq).1
    (by rw [h.2.2.1, h.2.2.2.1, hc2, hack, hw]; push_cast; omega)
  refine ⟨h.1, ?_, ?_⟩
  · rw [deliver_data_append, hstep.1, h.1, hc2]
    have hb : sink.sink_private.last_block + ms.length + 1 = sink.sink_private.last_block + w := by
      omega
    rw [hb]
    unfold ack_for
    rw [h.2.2.2.2.1, h.2.2.2.2.2.1, h.2.2.2.2.2.2]
  · rw [deliver_data_append, hstep.2, hc2]
    omega

theorem window_threshold_no_wrap_witness :
    (deliver_data
      [data_packet 1 (List.replicate 512 0), data_packet 2 (List.replicate 512 0),
        data_packet 3 (List.replicate 512 0)] window4_sink demo_env).2.sent = [] ∧
    (deliver_data
      ([data_packet 1 (List.replicate 512 0), data_packet 2 (List.replicate 512 0),
        data_packet 3 (List.replicate 512 0)] ++ [data_packet 4 (List.replicate 512 0)])
      window4_sink demo_env).2.sent = [ack_for window4_sink 4] :=
  have h := window_threshold_no_wrap window4_sink demo_env 4
    [data_packet 1 (List.replicate 512 0), data_packet 2 (List.replicate 512 0),
      data_packet 3 (List.replicate 512 0)] (data_packet 4 (List.replicate 512 0))
    (by decide) (by decide) (by decide) (by decide) (by decide)
  ⟨h.1, h.2.1⟩

theorem net_pump_append (es1 es2 : List net_event) :
    ∀ (sink : packet_sink_t) (env : Env),
      net_pump (es1 ++ es2) sink env =
        net_pump es2 (net_pump es1 sink env).1 (net_pump es1 sink env).2 := by
  induction es1 with
  | nil => intro sink env; rfl
  | cons e es1 ih =>
    intro sink env
    cases e with
    | packet_received packet fr =>
      simp only [List.cons_append, net_pump]
      exact ih _ _
    | timer_expired =>
      simp only [List.cons_append, net_pump]
      exact ih _ _

theorem scenario_after_nine :
    net_pump scenario_first_nine
        { scenario_sink with
          timer := 50,
          sink_private :=
            { demo_sink.sink_private with
              started := true, block_size := 1024, window_size := 8 } }
        { now := 0,
          sent := [tftp_create_rrq demo_sink, ack0_packet scenario_sink],
          written := [],
          registered := true,
          reglog := [reg_op.add 0, reg_op.remove 0, reg_op.add 50000] } =
      (scenario_sink_nine, scenario_env_nine) := by
  decide

theorem scenario_run_tenth (k : Nat) :
    scenario_run k =
      tftp_process_data scenario_sink_nine scenario_env_nine
        (data_packet 10 (List.replicate k 0)) FR_OK := by
  rw [scenario_run_eq]
  have hd : scenario_data k = scenario_first_nine ++
      [net_event.packet_received (scenario_packet (data_packet 10 (List.replicate k 0))) FR_OK] :=
    rfl
  rw [hd, net_pump_append, scenario_after_nine]
  have hop : get16 (data_packet 10 (List.replicate k 0)) 0 = tftp_op_data := rfl
  have hst : scenario_sink_nine.sink_private.started = true := rfl
  simp only [net_pump, tftp_packet_received, hst, scenario_packet, hop]
  rfl

theorem short_block_done (sink : packet_sink_t) (env : Env) (message : List Nat) (fr : Nat)
    (hseq : get16 message 2 = expected_block sink.sink_private)
    (hnc : sink.sink_private.completed = false)
    (hw : fr = FR_OK ∨ (message.length : Int) - 4 ≤ 0) :
    ((tftp_process_data sink env message fr).1.sink_private.completed = true ∧
        (tftp_process_data sink env message fr).1.sink_private.success = true) ↔
      (message.length : Int) - 4 < sink.sink_private.block_size := by
  have hf : ¬ ((message.length : Int) - 4 > 0 ∧ fr ≠ FR_OK) := by
    rintro ⟨h1, h2⟩
    rcases hw with h | h
    · exact h2 h
    · omega
  rw [tftp_process_data_eq, if_pos hseq, window_ack_eq, accept_data_eq]
  dsimp only
  by_cases hlt : (message.length : Int) - 4 < sink.sink_private.block_size <;>
    split_ifs <;> simp_all

theorem scenario_outcome (k : Nat) (hk : k < 1024) :
    (scenario_run k).2.sent =
      [tftp_create_rrq demo_sink, ack0_packet scenario_sink, ack_for scenario_sink 8] ∧
    (scenario_run k).1.sink_private.completed = true ∧
    (scenario_run k).1.sink_private.success = true := by
  have hseq : get16 (data_packet 10 (List.replicate k 0)) 2 =
      expected_block scenario_sink_nine.sink_private := rfl
  have hlen : ((data_packet 10 (List.replicate k 0)).length : Int) - 4 = (k : Int) := by
    simp only [data_packet, put16, List.length_append, List.length_cons, List.length_nil,
      List.length_replicate]
    push_cast
    ring
  have hb : get16 (data_packet 10 (List.replicate k 0)) 2 = 10 := rfl
  have hack := (process_data_accept_ack scenario_sink_nine scenario_env_nine
    (data_packet 10 (List.replicate k 0)) FR_OK hseq).2 (by rw [hb]; decide)
  have hshort := (short_block_done scenario_sink_nine scenario_env_nine
    (data_packet 10 (List.replicate k 0)) FR_OK hseq rfl (Or.inl rfl)).2
    (by rw [hlen]; exact_mod_cast hk)
  rw [scenario_run_tenth]
  exact ⟨hack.1, hshort.1, hshort.2⟩

/-- C6, as stated, fails: with window size 8 and block 8 acknowledged, the
terminal short block 10 is accepted and completes the transfer with success,
and no ACK is sent for it. -/
theorem final_block_not_acked :
    get16 (data_packet 10 (List.replicate 1000 0)) 2 =
      expected_block mid_window_sink.sink_private ∧
    (tftp_process_data mid_window_sink demo_env (data_packet 10 (List.replicate 1000 0)) FR_OK
      ).1.sink_private.completed = true ∧
    (tftp_process_data mid_window_sink demo_env (data_packet 10 (List.replicate 1000 0)) FR_OK
      ).1.sink_private.success = true ∧
    (tftp_process_data mid_window_sink demo_env (data_packet 10 (List.replicate 1000 0)) FR_OK
      ).2.sent = [] := by
  decide

/-- C6 (amended). Away from the block-number wrap the only ACK for a DATA block,
the terminal short block included, is the one of the window rule. When block
`a` has just been acknowledged (`last_ack = last_block = a`), the window size
is `w`, and `m` is the `j`-th of `j` consecutive in-sequence DATA blocks after
`a` with `j <= w` and `a + j <= 0xFFFF`, then the `j - 1` blocks before `m`
cause no ACK, and `tftp_process_data` on `m`, whatever its length and whatever
the write returns, sends one ACK carrying the number `a + w` and sets
`last_ack` to it when `j = w`, and sends nothing and leaves `last_ack` alone
when `j < w`. In the end-to-end scenario (blksize 1024, windowsize 8, ten
blocks, the tenth with fewer than 1024 bytes) the packets sent are the RRQ,
ACK(0) and one ACK, for block 8, and the transfer is completed with success. -/
theorem final_ack_at_threshold (sink : packet_sink_t) (env : Env) (w : Nat)
    (ms : List (List Nat)) (m : List Nat) (fr : Nat)
    (hack : sink.sink_private.last_ack = sink.sink_private.last_block)
    (hw : sink.sink_private.window_size = (w : Int)) (hlen : ms.length + 1 ≤ w)
    (hwrap : sink.sink_private.last_block + (ms.length + 1) ≤ 0xFFFF)
    (hcons : consecutive_blocks sink.sink_private.last_block (ms ++ [m])) :
    (deliver_data ms sink env).2.sent = env.sent ∧
    (ms.length + 1 = w →
      (tftp_process_data (deliver_data ms sink env).1 (deliver_data ms sink env).2 m fr).2.sent =
        env.sent ++ [ack_for sink (sink.sink_private.last_block + w)] ∧
      (tftp_process_data (deliver_data ms sink env).1 (deliver_data ms sink env).2 m fr
        ).1.sink_private.last_ack = sink.sink_private.last_block + w) ∧
    (ms.length + 1 < w →
      (tftp_process_data (deliver_data ms sink env).1 (deliver_data ms sink env).2 m fr).2.sent =
        env.sent ∧
      (tftp_process_data (deliver_data ms sink env).1 (deliver_data ms sink env).2 m fr
        ).1.sink_private.last_ack = sink.sink_private.last_ack) ∧
    (∀ k : Nat, k < 1024 →
      (scenario_run k).2.sent =
        [tftp_create_rrq demo_sink, ack0_packet scenario_sink, ack_for scenario_sink 8] ∧
      (scenario_run k).1.sink_private.completed = true ∧
      (scenario_run k).1.sink_private.success = true) := by
  rw [consecutive_blocks_append] at hcons
  obtain ⟨hc1, hc2⟩ := hcons
  have h := deliver_data_below_window ms sink env hc1 (by omega)
    (by rw [hack, hw]; push_cast; omega)
  have hseq : get16 m 2 = expected_block (deliver_data ms sink env).1.sink_private := by
    rw [expected_block_eq _ (by rw [h.2.1]; omega), if_pos (by rw [h.2.1]; omega), h.2.1, hc2]
  have hstep := process_data_accept_ack (deliver_data ms sink env).1
    (deliver_data ms sink env).2 m fr hseq
  refine ⟨h.1, ?_, ?_, scenario_outcome⟩
  · intro hj
    have hs := hstep.1 (by rw [h.2.2.1, h.2.2.2.1, hc2, hack, hw]; push_cast; omega)
    have hb : sink.sink_private.last_block + ms.length + 1 = sink.sink_private.last_block + w := by
      omega
    refine ⟨?_, ?_⟩
    · rw [hs.1, h.1, hc2, hb]
      unfold ack_for
      rw [h.2.2.2.2.1, h.2.2.2.2.2.1, h.2.2.2.2.2.2]
    · rw [hs.2, hc2]
      omega
  · intro hj
    have hs := hstep.2 (by rw [h.2.2.1, h.2.2.2.1, hc2, hack, hw]; push_cast; omega)
    exact ⟨by rw [hs.1, h.1], by rw [hs.2, h.2.2.1]⟩

theorem final_ack_at_threshold_witness :
    (deliver_data
      [data_packet 1 (List.replicate 512 0), data_packet 2 (List.replicate 512 0)]
      window4_sink demo_env).2.sent = [] ∧
    (tftp_process_data
      (deliver_data
        [data_packet 1 (List.replicate 512 0), data_packet 2 (List.replicate 512 0)]
        window4_sink demo_env).1
      (deliver_data
        [data_packet 1 (List.replicate 512 0), data_packet 2 (List.replicate 512 0)]
        window4_sink demo_env).2 (data_packet 3 [1, 2, 3]) FR_OK).2.sent = [] ∧
    (tftp_process_data
      (deliver_data
        [data_packet 1 (List.replicate 512 0), data_packet 2 (List.replicate 512 0)]
        window4_sink demo_env).1
      (deliver_data
        [data_packet 1 (List.replicate 512 0), data_packet 2 (List.replicate 512 0)]
        window4_sink demo_env).2 (data_packet 3 [1, 2, 3]) FR_OK).1.sink_private.success
      = true :=
  have h := final_ack_at_threshold window4_sink demo_env 4
    [data_packet 1 (List.replicate 512 0), data_packet 2 (List.replicate 512 0)]
    (data_packet 3 [1, 2, 3]) FR_OK (by decide) (by decide) (by decide) (by decide) (by decide)
  ⟨h.1, (h.2.2.1 (by decide)).1, by decide⟩

theorem skip_token_cons (l : List Nat) :
    ∀ (x : Nat) (r : List Nat), skip_token l = x :: r →
      x = 0 ∧ l = c_string l ++ 0 :: r ∧ 0 ∉ c_string l := by
  induction l with
  | nil => intro x r h; simp [skip_token] at h
  | cons b l ih =>
    intro x r h
    by_cases hb : b = 0
    · subst hb
      have h1 : skip_token (0 :: l) = 0 :: l := by simp [skip_token]
      have h2 : c_string (0 :: l) = [] := by simp [c_string]
      rw [h1] at h
      injection h with hx hr
      subst hx
      subst hr
      rw [h2]
      exact ⟨rfl, rfl, by simp⟩
    · have h1 : skip_token (b :: l) = skip_token l := by
        show List.dropWhile _ (b :: l) = _
        rw [List.dropWhile_cons_of_pos (by simpa using hb)]
        rfl
      have h2 : c_string (b :: l) = b :: c_string l := by
        show List.takeWhile _ (b :: l) = _
        rw [List.takeWhile_cons_of_pos (by simpa using hb)]
        rfl
      rw [h1] at h
      obtain ⟨hx, hl, hn⟩ := ih x r h
      rw [h2]
      refine ⟨hx, ?_, ?_⟩
      · rw [List.cons_append, ← hl]
      · intro hmem
        rcases List.mem_cons.mp hmem with h0 | h0
        · exact hb h0.symm
        · exact hn h0

theorem skip_token_nil (l : List Nat) (h : skip_token l = []) : 0 ∉ l := by
  induction l with
  | nil => simp
  | cons b l ih =>
    by_cases hb : b = 0
    · subst hb
      simp [skip_token] at h
    · have h1 : skip_token (b :: l) = skip_token l := by
        show List.dropWhile _ (b :: l) = _
        rw [List.dropWhile_cons_of_pos (by simpa using hb)]
        rfl
      rw [h1] at h
      intro hmem
      rcases List.mem_cons.mp hmem with h0 | h0
      · exact hb h0.symm
      · exact ih h h0

theorem options_loop_tail (tail : List Nat) (h : tail.count 0 ≤ 1) (tftp : tftp_transfer_t) :
    options_loop tail tftp = tftp := by
  rw [options_loop]
  split
  · rfl
  · next x ptr1 h1 =>
    split
    · rfl
    · next y ptr2 h2 =>
      exfalso
      obtain ⟨_, hl1, _⟩ := skip_token_cons tail x ptr1 h1
      obtain ⟨_, hl2, _⟩ := skip_token_cons ptr1 y ptr2 h2
      rw [hl1, hl2] at h
      simp only [List.count_append, List.count_cons_self] at h
      omega

theorem options_loop_encode_tail (pairs : List (List Nat × List Nat)) (tail : List Nat)
    (ht : tail.count 0 ≤ 1) :
    ∀ tftp : tftp_transfer_t, (∀ p ∈ pairs, 0 ∉ p.1 ∧ 0 ∉ p.2) →
      options_loop (encode_options pairs ++ tail) tftp = apply_options tftp pairs := by
  induction pairs with
  | nil => intro tftp _; exact options_loop_tail tail ht tftp
  | cons p pairs ih =>
    intro tftp h
    obtain ⟨k, v⟩ := p
    have hp := h (k, v) (by simp)
    have he : encode_options ((k, v) :: pairs) ++ tail =
        k ++ 0 :: (v ++ 0 :: (encode_options pairs ++ tail)) := by
      simp [encode_options]
    rw [he, options_loop_pair k v _ hp.1 hp.2]
    exact ih _ (fun q hq => h q (by simp [hq]))

theorem payload_decomposition (n : Nat) :
    ∀ payload : List Nat, payload.length ≤ n →
      ∃ (pairs : List (List Nat × List Nat)) (tail : List Nat),
        payload = encode_options pairs ++ tail ∧ (∀ p ∈ pairs, 0 ∉ p.1 ∧ 0 ∉ p.2) ∧
          tail.count 0 ≤ 1 := by
  induction n with
  | zero =>
    intro payload h
    have : payload = [] := List.eq_nil_of_length_eq_zero (by omega)
    subst this
    exact ⟨[], [], rfl, by simp, by simp⟩
  | succ n ih =>
    intro payload h
    cases h1 : skip_token payload with
    | nil =>
      refine ⟨[], payload, rfl, by simp, ?_⟩
      rw [List.count_eq_zero_of_not_mem (skip_token_nil payload h1)]
      omega
    | cons x ptr1 =>
      obtain ⟨_, hl1, hn1⟩ := skip_token_cons payload x ptr1 h1
      cases h2 : skip_token ptr1 with
      | nil =>
        refine ⟨[], payload, rfl, by simp, ?_⟩
        rw [hl1]
        simp only [List.count_append, List.count_cons_self]
        rw [List.count_eq_zero_of_not_mem hn1,
          List.count_eq_zero_of_not_mem (skip_token_nil ptr1 h2)]
      | cons y ptr2 =>
        obtain ⟨_, hl2, hn2⟩ := skip_token_cons ptr1 y ptr2 h2
        have hlen : ptr2.length ≤ n := by
          have e1 := congrArg List.length hl1
          have e2 := congrArg List.length hl2
          simp only [List.length_append, List.length_cons] at e1 e2
          omega
        obtain ⟨pairs, tail, hp, hnul, ht⟩ := ih ptr2 hlen
        refine ⟨(c_string payload, c_string ptr1) :: pairs, tail, ?_, ?_, ht⟩
        · rw [hl1, hl2, hp]
          simp [encode_options, c_string_append _ _ hn1, c_string_append _ _ hn2]
        · intro p hp'
          rcases List.mem_cons.mp hp' with h0 | h0
          · subst h0
            exact ⟨hn1, hn2⟩
          · exact hnul p h0

theorem lock_on_eq (sink : packet_sink_t) (env : Env) (packet : packet_t) :
    lock_on sink env packet =
      if sink.sink_private.started = false then
        ({ sink with
            match_remote_port := packet.source_port % 65536,
            sink_private := { sink.sink_private with started := true } },
          { env with
            registered := true,
            reglog := env.reglog ++ [reg_op.remove sink.match_remote_port,
              reg_op.add (packet.source_port % 65536)] })
      else (sink, env) := by
  by_cases h : sink.sink_private.started = false
  · simp [lock_on, h, net_remove_packet_sink, net_add_packet_sink]
  · simp [lock_on, h]

theorem tftp_packet_received_eq (sink : packet_sink_t) (env : Env) (packet : packet_t)
    (fr : Nat) :
    tftp_packet_received sink env packet fr =
      if get16 packet.data 0 = tftp_op_options_ack then
        tftp_process_options_ack (lock_on sink env packet).1 (lock_on sink env packet).2
          packet.data
      else if get16 packet.data 0 = tftp_op_data then
        tftp_process_data (lock_on sink env packet).1 (lock_on sink env packet).2
          packet.data fr
      else
        ({ (lock_on sink env packet).1 with
            sink_private :=
              { (lock_on sink env packet).1.sink_private with
                completed := true, success := false } },
          (lock_on sink env packet).2) := by
  by_cases hs : sink.sink_private.started = false <;>
    by_cases h6 : get16 packet.data 0 = tftp_op_options_ack <;>
    by_cases h3 : get16 packet.data 0 = tftp_op_data <;>
    by_cases h5 : get16 packet.data 0 = tftp_op_err <;>
    simp [tftp_packet_received, lock_on, hs, h6, h3, h5]

theorem options_loop_frame (ptr : List Nat) (t : tftp_transfer_t) :
    (options_loop ptr t).tftp_filename = t.tftp_filename ∧
    (options_loop ptr t).disk_filename = t.disk_filename ∧
    (options_loop ptr t).last_block = t.last_block ∧
    (options_loop ptr t).last_ack = t.last_ack ∧
    (options_loop ptr t).bytes_received = t.bytes_received ∧
    (options_loop ptr t).started = t.started ∧
    (options_loop ptr t).completed = t.completed ∧
    (options_loop ptr t).success = t.success ∧
    (options_loop ptr t).retransmits_this_block = t.retransmits_this_block ∧
    (options_loop ptr t).retransmits_total = t.retransmits_total := by
  obtain ⟨pairs, tail, hp, hnul, ht⟩ := payload_decomposition ptr.length ptr (le_refl _)
  rw [hp, options_loop_encode_tail pairs tail ht t hnul]
  exact apply_options_frame pairs t

theorem tftp_process_options_ack_any (sink : packet_sink_t) (env : Env) (message : List Nat) :
    tftp_process_options_ack sink env message =
      ({ sink with
          timer := set_timer_ms env DATA_TIMEOUT,
          sink_private :=
            { options_loop (message.drop 2) sink.sink_private with
              last_block := 0, last_ack := 0 } },
        { env with sent := env.sent ++ [ack0_packet sink] }) := by
  have hp : put16 tftp_op_ack ++ put16 0 = [0, 4, 0, 0] := by decide
  simp only [tftp_process_options_ack, tftp_create_ack_eq, net_tx, set_timer_ms, set_timer_ticks, ack_packet, hp,
    ack0_packet]

theorem window_ack_frame (sink : packet_sink_t) (env : Env) :
    (window_ack sink env).1.match_remote_ip = sink.match_remote_ip ∧
    (window_ack sink env).1.match_local_port = sink.match_local_port ∧
    (window_ack sink env).1.match_remote_port = sink.match_remote_port ∧
    (window_ack sink env).1.sink_private.started = sink.sink_private.started ∧
    (window_ack sink env).1.sink_private.window_size = sink.sink_private.window_size ∧
    (window_ack sink env).1.sink_private.block_size = sink.sink_private.block_size ∧
    (window_ack sink env).1.sink_private.rollover_value = sink.sink_private.rollover_value ∧
    (window_ack sink env).1.sink_private.last_block = sink.sink_private.last_block ∧
    (window_ack sink env).2.now = env.now ∧
    (window_ack sink env).2.registered = env.registered ∧
    (window_ack sink env).2.reglog = env.reglog := by
  rw [window_ack_eq]
  refine ⟨?_, ?_, ?_, ?_, ?_, ?_, ?_, ?_, ?_, ?_, ?_⟩ <;> split_ifs <;> rfl

theorem tftp_process_data_frame (sink : packet_sink_t) (env : Env) (message : List Nat)
    (fr : Nat) :
    (tftp_process_data sink env message fr).1.match_remote_ip = sink.match_remote_ip ∧
    (tftp_process_data sink env message fr).1.match_local_port = sink.match_local_port ∧
    (tftp_process_data sink env message fr).1.match_remote_port = sink.match_remote_port ∧
    (tftp_process_data sink env message fr).1.sink_private.started =
      sink.sink_private.started ∧
    (tftp_process_data sink env message fr).1.sink_private.window_size =
      sink.sink_private.window_size ∧
    (tftp_process_data sink env message fr).1.sink_private.block_size =
      sink.sink_private.block_size ∧
    (tftp_process_data sink env message fr).1.sink_private.rollover_value =
      sink.sink_private.rollover_value ∧
    (tftp_process_data sink env message fr).2.now = env.now ∧
    (tftp_process_data sink env message fr).2.registered = env.registered ∧
    (tftp_process_data sink env message fr).2.reglog = env.reglog := by
  rw [tftp_process_data_eq]
  split_ifs with h
  · have hw := window_ack_frame
      { sink with sink_private := (accept_data sink.sink_private env message fr).1 }
      (accept_data sink.sink_private env message fr).2
    obtain ⟨a1, a2, a3, a4, a5, a6, a7, _, a9, a10, a11⟩ := hw
    rw [a1, a2, a3, a4, a5, a6, a7, a9, a10, a11, accept_data_eq]
    dsimp only
    refine ⟨rfl, rfl, rfl, rfl, rfl, rfl, rfl, ?_, ?_, ?_⟩ <;> split_ifs <;> rfl
  · obtain ⟨a1, a2, a3, a4, a5, a6, a7, _, a9, a10, a11⟩ := window_ack_frame sink env
    exact ⟨a1, a2, a3, a4, a5, a6, a7, a9, a10, a11⟩

/-- C12. A datagram whose opcode is neither DATA (3) nor OPTION-ACK (6) leaves the
transfer completed with `success = false`; nothing is transmitted, nothing is
written, and `last_block`, `last_ack` and `bytes_received` are unchanged. -/
theorem other_opcode_fails (sink : packet_sink_t) (env : Env) (packet : packet_t) (fr : Nat)
    (h3 : get16 packet.data 0 ≠ tftp_op_data)
    (h6 : get16 packet.data 0 ≠ tftp_op_options_ack) :
    (tftp_packet_received sink env packet fr).1.sink_private.completed = true ∧
    (tftp_packet_received sink env packet fr).1.sink_private.success = false ∧
    (tftp_packet_received sink env packet fr).2.sent = env.sent ∧
    (tftp_packet_received sink env packet fr).2.written = env.written ∧
    (tftp_packet_received sink env packet fr).1.sink_private.last_block =
      sink.sink_private.last_block ∧
    (tftp_packet_received sink env packet fr).1.sink_private.last_ack =
      sink.sink_private.last_ack ∧
    (tftp_packet_received sink env packet fr).1.sink_private.bytes_received =
      sink.sink_private.bytes_received := by
  rw [tftp_packet_received_eq, if_neg h6, if_neg h3, lock_on_eq]
  refine ⟨rfl, rfl, ?_, ?_, ?_, ?_, ?_⟩ <;> split_ifs <;> rfl

theorem other_opcode_fails_witness :
    get16 (scenario_packet [0, 5, 0, 1, 110, 111, 0]).data 0 ≠ tftp_op_data ∧
    get16 (scenario_packet [0, 5, 0, 1, 110, 111, 0]).data 0 ≠ tftp_op_options_ack ∧
    (tftp_packet_received demo_sink demo_env (scenario_packet [0, 5, 0, 1, 110, 111, 0]) 0
      ).1.sink_private.completed = true ∧
    (tftp_packet_received demo_sink demo_env (scenario_packet [0, 5, 0, 1, 110, 111, 0]) 0
      ).1.sink_private.success = false ∧
    (tftp_packet_received demo_sink demo_env (scenario_packet [0, 5, 0, 1, 110, 111, 0]) 0
      ).2.sent = [] :=
  have h := other_opcode_fails demo_sink demo_env (scenario_packet [0, 5, 0, 1, 110, 111, 0]) 0
    (by decide) (by decide)
  ⟨by decide, by decide, h.1, h.2.1, h.2.2.1⟩

/-- C13. An in-sequence DATA block with a non-empty payload whose storage write
returns an error leaves the transfer completed with `success = false`, whatever
the payload length is relative to the block size. -/
theorem write_failure_aborts (sink : packet_sink_t) (env : Env) (message : List Nat) (fr : Nat)
    (hseq : get16 message 2 = expected_block sink.sink_private)
    (hpos : (message.length : Int) - 4 > 0) (hfr : fr ≠ FR_OK) :
    (tftp_process_data sink env message fr).1.sink_private.completed = true ∧
    (tftp_process_data sink env message fr).1.sink_private.success = false := by
  have hc : (message.length : Int) - 4 > 0 ∧ fr ≠ FR_OK := ⟨hpos, hfr⟩
  rw [tftp_process_data_eq, if_pos hseq, window_ack_eq, accept_data_eq]
  dsimp only
  constructor <;> split_ifs <;> rfl

theorem write_failure_aborts_witness :
    get16 (data_packet 1 [7, 8, 9]) 2 = expected_block demo_sink.sink_private ∧
    ((data_packet 1 [7, 8, 9]).length : Int) - 4 > 0 ∧
    ((data_packet 1 [7, 8, 9]).length : Int) - 4 < demo_sink.sink_private.block_size ∧
    (tftp_process_data demo_sink demo_env (data_packet 1 [7, 8, 9]) 1).1.sink_private.completed
      = true ∧
    (tftp_process_data demo_sink demo_env (data_packet 1 [7, 8, 9]) 1).1.sink_private.success
      = false :=
  have h := write_failure_aborts demo_sink demo_env (data_packet 1 [7, 8, 9]) 1
    (by decide) (by decide) (by decide)
  ⟨by decide, by decide, by decide, h.1, h.2⟩

theorem tftp_packet_received_frame (sink : packet_sink_t) (env : Env) (packet : packet_t)
    (fr : Nat) :
    (tftp_packet_received sink env packet fr).1.match_remote_port =
      (lock_on sink env packet).1.match_remote_port ∧
    (tftp_packet_received sink env packet fr).1.sink_private.started =
      (lock_on sink env packet).1.sink_private.started ∧
    (tftp_packet_received sink env packet fr).2.registered =
      (lock_on sink env packet).2.registered ∧
    (tftp_packet_received sink env packet fr).2.reglog = (lock_on sink env packet).2.reglog := by
  rw [tftp_packet_received_eq]
  split_ifs
  · rw [tftp_process_options_ack_any]
    exact ⟨rfl, (options_loop_frame _ _).2.2.2.2.2.1, rfl, rfl⟩
  · have h := tftp_process_data_frame (lock_on sink env packet).1 (lock_on sink env packet).2
      packet.data fr
    exact ⟨h.2.2.1, h.2.2.2.1, h.2.2.2.2.2.2.2.2.1, h.2.2.2.2.2.2.2.2.2⟩
  · exact ⟨rfl, rfl, rfl, rfl⟩

/-- C14. A datagram delivered while the transfer is not started, whatever its
opcode: the sink is removed from the registry (still with its old remote-port
match), `match_remote_port` becomes the datagram's UDP source port, the sink is
added again (with the new match), it is registered afterwards and `started` is
true. A datagram delivered while the transfer is started leaves
`match_remote_port` unchanged and makes no call on the registry. -/
theorem first_reply_lock_on (sink : packet_sink_t) (env : Env) (packet : packet_t) (fr : Nat) :
    (sink.sink_private.started = false →
      (tftp_packet_received sink env packet fr).1.match_remote_port =
        packet.source_port % 65536 ∧
      (packet.source_port < 65536 →
        (tftp_packet_received sink env packet fr).1.match_remote_port = packet.source_port) ∧
      (tftp_packet_received sink env packet fr).2.reglog =
        env.reglog ++ [reg_op.remove sink.match_remote_port,
          reg_op.add (packet.source_port % 65536)] ∧
      (tftp_packet_received sink env packet fr).2.registered = true ∧
      (tftp_packet_received sink env packet fr).1.sink_private.started = true) ∧
    (sink.sink_private.started = true →
      (tftp_packet_received sink env packet fr).1.match_remote_port = sink.match_remote_port ∧
      (tftp_packet_received sink env packet fr).2.reglog = env.reglog ∧
      (tftp_packet_received sink env packet fr).2.registered = env.registered ∧
      (tftp_packet_received sink env packet fr).1.sink_private.started = true) := by
  obtain ⟨h1, h2, h3, h4⟩ := tftp_packet_received_frame sink env packet fr
  rw [h1, h2, h3, h4, lock_on_eq]
  constructor
  · intro hs
    rw [if_pos hs]
    exact ⟨rfl, fun hlt => Nat.mod_eq_of_lt hlt, rfl, rfl, rfl⟩
  · intro hs
    rw [if_neg (by simp [hs])]
    exact ⟨rfl, rfl, rfl, hs⟩

theorem first_reply_lock_on_witness :
    demo_sink.sink_private.started = false ∧
    (tftp_packet_received demo_sink demo_env scenario_oack 0).1.match_remote_port = 50000 ∧
    (tftp_packet_received demo_sink demo_env scenario_oack 0).2.reglog =
      [reg_op.remove 0, reg_op.add 50000] ∧
    (tftp_packet_received demo_sink demo_env scenario_oack 0).2.registered = true ∧
    (tftp_packet_received demo_sink demo_env scenario_oack 0).1.sink_private.started = true :=
  have h := (first_reply_lock_on demo_sink demo_env scenario_oack 0).1 (by decide)
  ⟨by decide, h.1, h.2.2.1, h.2.2.2.1, h.2.2.2.2⟩

/-- C16. The packet built by `tftp_create_ack` has exactly 4 payload bytes: the
opcode 4 and `last_block`, each as a big-endian 16-bit integer; the only change
to the transfer state is `last_ack := last_block`. -/
theorem ack_wire_format (sink : packet_sink_t) :
    (tftp_create_ack sink).1.data =
      [0, 4, sink.sink_private.last_block / 256 % 256, sink.sink_private.last_block % 256] ∧
    (tftp_create_ack sink).1.data.length = 4 ∧
    get16 (tftp_create_ack sink).1.data 0 = 4 ∧
    get16 (tftp_create_ack sink).1.data 2 = sink.sink_private.last_block % 65536 ∧
    (tftp_create_ack sink).2 =
      { sink with sink_private :=
          { sink.sink_private with last_ack := sink.sink_private.last_block } } := by
  rw [tftp_create_ack_eq]
  have hd : (ack_packet sink).data =
      [0, 4, sink.sink_private.last_block / 256 % 256, sink.sink_private.last_block % 256] := rfl
  dsimp only
  rw [hd]
  refine ⟨rfl, rfl, rfl, ?_, rfl⟩
  simp only [get16, List.getD_cons_succ, List.getD_cons_zero]
  omega

/-- C19. When the output file opens, `tftp_receive` enters its wait loop in this
state: the sink is registered, exactly one packet has been transmitted, the
RRQ (opcode 1, to port 69), the timer is set `RRQ_TIMEOUT` (1000 ms, 200 ticks
of 5 ms, as a 32-bit tick count) ahead,
`block_size = 512`, `window_size = 1`, `last_block = last_ack = 0`,
`bytes_received = 0`, `started`, `completed` and `success` are false, and both
retransmit counters are 0. -/
theorem start_state (ip : Nat) (f d : List Nat) (ticks : Nat) (env : Env)
    (inputs : List pump_input) :
    tftp_receive ip f d ticks FR_OK env inputs =
      (tftp_receive_loop inputs (tftp_receive_start (tftp_receive_setup ip f d ticks) env).1
        (tftp_receive_start (tftp_receive_setup ip f d ticks) env).2).map
        (fun r => (true, r.1.sink_private, net_remove_packet_sink r.2 r.1)) ∧
    (tftp_receive_start (tftp_receive_setup ip f d ticks) env).2.registered = true ∧
    (tftp_receive_start (tftp_receive_setup ip f d ticks) env).2.sent =
      env.sent ++ [tftp_create_rrq (tftp_receive_setup ip f d ticks)] ∧
    get16 (tftp_create_rrq (tftp_receive_setup ip f d ticks)).data 0 = tftp_op_rrq ∧
    (tftp_create_rrq (tftp_receive_setup ip f d ticks)).destination_port = 69 ∧
    (tftp_receive_start (tftp_receive_setup ip f d ticks) env).1.timer = (env.now + 200) % 4294967296 ∧
    (tftp_receive_start (tftp_receive_setup ip f d ticks) env).1.sink_private =
      { tftp_filename := f, disk_filename := d, block_size := 512, last_block := 0,
        last_ack := 0, rollover_value := 0, bytes_received := 0, total_size := 0,
        window_size := 1, started := false, completed := false, success := false,
        retransmits_this_block := 0, retransmits_total := 0 } := by
  refine ⟨?_, ?_, ?_, tftp_create_rrq_opcode _, tftp_create_rrq_port _, ?_, ?_⟩
  · simp only [tftp_receive, ne_eq, not_true_eq_false, if_false]
    cases tftp_receive_loop inputs (tftp_receive_start (tftp_receive_setup ip f d ticks) env).1
      (tftp_receive_start (tftp_receive_setup ip f d ticks) env).2 <;> rfl
  · rw [tftp_receive_start_eq]
  · rw [tftp_receive_start_eq]
  · rw [tftp_receive_start_eq]
    rfl
  · rw [tftp_receive_start_eq]
    rfl

/-- C11. The option loop is a total function of the payload (it recurses on a
strictly shorter rest), and for every payload: written as complete NUL-terminated
key/value pairs followed by a rest that holds at most one NUL (an unterminated
key, or a key and an unterminated value), exactly the complete pairs are
applied, in order, and the rest changes nothing; `completed` and `success` are
unchanged and the ACK for block 0 is sent. Every payload has such a form. -/
theorem truncated_options_stop_early :
    (∀ (sink : packet_sink_t) (env : Env) (pairs : List (List Nat × List Nat))
        (tail : List Nat),
      (∀ p ∈ pairs, 0 ∉ p.1 ∧ 0 ∉ p.2) → tail.count 0 ≤ 1 →
      (tftp_process_options_ack sink env (oack_packet (encode_options pairs ++ tail))
        ).1.sink_private =
        { apply_options sink.sink_private pairs with last_block := 0, last_ack := 0 } ∧
      (tftp_process_options_ack sink env (oack_packet (encode_options pairs ++ tail))
        ).1.sink_private.completed = sink.sink_private.completed ∧
      (tftp_process_options_ack sink env (oack_packet (encode_options pairs ++ tail))
        ).1.sink_private.success = sink.sink_private.success ∧
      (tftp_process_options_ack sink env (oack_packet (encode_options pairs ++ tail))).2.sent =
        env.sent ++ [ack0_packet sink]) ∧
    (∀ payload : List Nat,
      ∃ (pairs : List (List Nat × List Nat)) (tail : List Nat),
        payload = encode_options pairs ++ tail ∧ (∀ p ∈ pairs, 0 ∉ p.1 ∧ 0 ∉ p.2) ∧
          tail.count 0 ≤ 1) := by
  constructor
  · intro sink env pairs tail hnul ht
    have hl : List.drop 2 (oack_packet (encode_options pairs ++ tail)) =
        encode_options pairs ++ tail := rfl
    rw [tftp_process_options_ack_any, hl, options_loop_encode_tail pairs tail ht _ hnul]
    have hf := apply_options_frame pairs sink.sink_private
    exact ⟨rfl, hf.2.2.2.2.2.2.1, hf.2.2.2.2.2.2.2.1, rfl⟩
  · intro payload
    exact payload_decomposition payload.length payload (le_refl _)

theorem truncated_options_stop_early_witness :
    (∀ p ∈ [(cstr "blksize", cstr "256")], 0 ∉ p.1 ∧ 0 ∉ p.2) ∧
    (cstr "windowsize" ++ [0] ++ cstr "2").count 0 ≤ 1 ∧
    (tftp_process_options_ack demo_sink demo_env
      (oack_packet (encode_options [(cstr "blksize", cstr "256")] ++
        (cstr "windowsize" ++ [0] ++ cstr "2")))).1.sink_private.block_size = 256 ∧
    (tftp_process_options_ack demo_sink demo_env
      (oack_packet (encode_options [(cstr "blksize", cstr "256")] ++
        (cstr "windowsize" ++ [0] ++ cstr "2")))).1.sink_private.window_size = 1 ∧
    (tftp_process_options_ack demo_sink demo_env
      (oack_packet (encode_options [(cstr "blksize", cstr "256")] ++
        (cstr "windowsize" ++ [0] ++ cstr "2")))).2.sent = [ack0_packet demo_sink] :=
  have h := truncated_options_stop_early.1 demo_sink demo_env [(cstr "blksize", cstr "256")]
    (cstr "windowsize" ++ [0] ++ cstr "2") (by decide) (by decide)
  ⟨by decide, by decide, (congrArg tftp_transfer_t.block_size h.1).trans (by decide),
    (congrArg tftp_transfer_t.window_size h.1).trans (by decide), h.2.2.2⟩

theorem tftp_receive_loop_abort (inputs : List pump_input) :
    ∀ (sink : packet_sink_t) (env : Env),
      (∃ inp ∈ inputs, inp.uart_byte = 113 ∨ inp.uart_byte = 81) →
      (tftp_receive_loop inputs sink env).isSome = true := by
  induction inputs with
  | nil => intro sink env h; simp at h
  | cons inp rest ih =>
    intro sink env h
    by_cases hc : sink.sink_private.completed = true
    · simp [tftp_receive_loop, hc]
    · by_cases hq : inp.uart_byte = 113 ∨ inp.uart_byte = 81
      · simp [tftp_receive_loop, hc, hq]
      · have hrest : ∃ i ∈ rest, i.uart_byte = 113 ∨ i.uart_byte = 81 := by
          obtain ⟨i, hi, hi2⟩ := h
          rcases List.mem_cons.mp hi with h0 | h0
          · subst h0
            exact absurd hi2 hq
          · exact ⟨i, h0, hi2⟩
        simp only [tftp_receive_loop, hc, hq, if_false]
        exact ih _ _ hrest

/-- C20. Whenever `tftp_receive` returns (after success, failure or abort, or
after a failure to open the output file), the sink is not registered with the
dispatcher. When the output file cannot be opened the function returns at
once, no call on the registry and no transmission having been made. It
returns in particular whenever an abort byte ('q' or 'Q') is read. -/
theorem completion_cleanup (ip : Nat) (f d : List Nat) (ticks fr_open : Nat) (env : Env)
    (inputs : List pump_input) (hfresh : env.registered = false) :
    (∀ r, tftp_receive ip f d ticks fr_open env inputs = some r → r.2.2.registered = false) ∧
    (fr_open ≠ FR_OK →
      ∃ r, tftp_receive ip f d ticks fr_open env inputs = some r ∧
        r.2.2.reglog = env.reglog ∧ r.2.2.sent = env.sent ∧ r.2.2.registered = false) ∧
    ((∃ inp ∈ inputs, inp.uart_byte = 113 ∨ inp.uart_byte = 81) →
      (tftp_receive ip f d ticks fr_open env inputs).isSome = true) := by
  refine ⟨?_, ?_, ?_⟩
  · intro r hr
    by_cases ho : fr_open = FR_OK
    · subst ho
      simp only [tftp_receive, ne_eq, not_true_eq_false, if_false] at hr
      cases hl : tftp_receive_loop inputs
          (tftp_receive_start (tftp_receive_setup ip f d ticks) env).1
          (tftp_receive_start (tftp_receive_setup ip f d ticks) env).2 with
      | none => rw [hl] at hr; cases hr
      | some x =>
        rw [hl] at hr
        injection hr with hr
        rw [← hr]
        rfl
    · simp only [tftp_receive, ne_eq, ho, not_false_eq_true, if_true] at hr
      injection hr with hr
      rw [← hr]
      exact hfresh
  · intro ho
    refine ⟨(true, (tftp_receive_setup ip f d ticks).sink_private, env), ?_, rfl, rfl, hfresh⟩
    simp only [tftp_receive, ne_eq, ho, not_false_eq_true, if_true]
  · intro hq
    by_cases ho : fr_open = FR_OK
    · subst ho
      have hl := tftp_receive_loop_abort inputs
        (tftp_receive_start (tftp_receive_setup ip f d ticks) env).1
        (tftp_receive_start (tftp_receive_setup ip f d ticks) env).2 hq
      simp only [tftp_receive, ne_eq, not_true_eq_false, if_false]
      cases hl2 : tftp_receive_loop inputs
          (tftp_receive_start (tftp_receive_setup ip f d ticks) env).1
          (tftp_receive_start (tftp_receive_setup ip f d ticks) env).2 with
      | none => rw [hl2] at hl; cases hl
      | some x => rfl
    · simp only [tftp_receive, ne_eq, ho, not_false_eq_true, if_true]
      rfl

theorem completion_cleanup_witness :
    demo_env.registered = false ∧
    (tftp_receive 3232235777 (cstr "vmlinux") (cstr "vmlinux") 0 FR_OK demo_env
      (silent_inputs 12)).isSome = true ∧
    (∀ r, tftp_receive 3232235777 (cstr "vmlinux") (cstr "vmlinux") 0 FR_OK demo_env
      (silent_inputs 12) = some r → r.2.2.registered = false) :=
  ⟨rfl, by decide,
    (completion_cleanup 3232235777 (cstr "vmlinux") (cstr "vmlinux") 0 FR_OK demo_env
      (silent_inputs 12) rfl).1⟩

theorem rrq_options_eq (f : List Nat) :
    rrq_options f =
      options_append_all (f :: rrq_fixed_strings) (List.replicate MAXOPT 0, 0) := by
  unfold rrq_options options_append_all rrq_fixed_strings
  generalize List.replicate MAXOPT 0 = buf
  simp only [List.foldl_cons, List.foldl_nil]

theorem memcpy_at_length (buf : List Nat) (offset : Nat) (src : List Nat)
    (h : offset + src.length ≤ buf.length) : (memcpy_at buf offset src).length = buf.length := by
  simp only [memcpy_at, List.length_append, List.length_take, List.length_drop]
  omega

theorem memcpy_at_take (buf : List Nat) (offset : Nat) (src : List Nat)
    (h : offset ≤ buf.length) :
    (memcpy_at buf offset src).take (offset + src.length) = buf.take offset ++ src := by
  have hl : (buf.take offset ++ src).length = offset + src.length := by
    simp only [List.length_append, List.length_take]
    omega
  unfold memcpy_at
  rw [← hl, List.take_left]

theorem options_append_fits (options : List Nat) (offset : Nat) (extra acc : List Nat)
    (hlen : options.length = MAXOPT) (hoff : offset = acc.length)
    (hacc : options.take offset = acc) (hfit : extra.length + 1 + offset < MAXOPT) :
    (options_append options offset extra).1.length = MAXOPT ∧
    (options_append options offset extra).2 = (acc ++ extra ++ [0]).length ∧
    (options_append options offset extra).1.take (options_append options offset extra).2 =
      acc ++ extra ++ [0] := by
  have hn : ¬ (extra.length + 1 + offset ≥ MAXOPT) := by omega
  have hsl : (extra ++ [0]).length = extra.length + 1 := by simp
  simp only [options_append, hn, if_false]
  refine ⟨?_, ?_, ?_⟩
  · rw [memcpy_at_length _ _ _ (by rw [hsl, hlen]; omega), hlen]
  · simp only [List.length_append, List.length_singleton]
    omega
  · have h := memcpy_at_take options offset (extra ++ [0]) (by rw [hlen]; omega)
    rw [hsl] at h
    rw [h, hacc, List.append_assoc]

theorem options_append_all_fits (strings : List (List Nat)) :
    ∀ (options : List Nat) (offset : Nat) (acc : List Nat),
      options.length = MAXOPT → offset = acc.length → options.take offset = acc →
      (acc ++ nul_terminated strings).length < MAXOPT →
      (options_append_all strings (options, offset)).1.take
          (options_append_all strings (options, offset)).2 =
        acc ++ nul_terminated strings := by
  induction strings with
  | nil =>
    intro options offset acc _ _ hacc _
    simp only [options_append_all, List.foldl_nil, nul_terminated, List.append_nil]
    exact hacc
  | cons s rest ih =>
    intro options offset acc hlen hoff hacc hfit
    simp only [nul_terminated, List.length_append, List.length_cons] at hfit
    have hstep := options_append_fits options offset s acc hlen hoff hacc (by omega)
    have h := ih (options_append options offset s).1 (options_append options offset s).2
      (acc ++ s ++ [0]) hstep.1 hstep.2.1 hstep.2.2
      (by simp only [List.length_append, List.length_singleton]; omega)
    simp only [options_append_all, List.foldl_cons] at h ⊢
    rw [h]
    simp [nul_terminated]

theorem rrq_options_take (f : List Nat) (hfit : f.length ≤ 1347) :
    (rrq_options f).1.take (rrq_options f).2 = nul_terminated (f :: rrq_fixed_strings) := by
  rw [rrq_options_eq]
  have h := options_append_all_fits (f :: rrq_fixed_strings) (List.replicate MAXOPT 0) 0 []
    (by simp) rfl rfl
    (by
      have hl : (nul_terminated rrq_fixed_strings).length = 51 := by decide
      show ([] ++ (f ++ 0 :: nul_terminated rrq_fixed_strings)).length < MAXOPT
      rw [List.nil_append, List.length_append, List.length_cons, hl]
      unfold MAXOPT
      omega)
  rw [h, List.nil_append]

/-- C15, as stated, fails for long file names: with a name of 1348 bytes the last
call of `options_append` finds the 1400-byte buffer full and resets the offset
to 0, so the payload of the RRQ is the opcode alone. -/
theorem rrq_long_name_truncated :
    (tftp_create_rrq (sink_for_file (List.replicate 1348 97))).data = [0, 1] ∧
    (tftp_create_rrq (sink_for_file (List.replicate 1348 97))).data.length ≠ 1348 + 54 := by
  decide

/-- C15 (amended). For every remote file name `f` of at most 1347 bytes, the packet
built by `tftp_create_rrq` goes to UDP port 69 and its payload is exactly the
big-endian opcode 1 followed by `f` NUL, `octet` NUL, `rollover` NUL `0` NUL,
`tsize` NUL `0` NUL, `blksize` NUL `1024` NUL, `windowsize` NUL `8` NUL, with
nothing after, so its length is `strlen(f) + 54`. -/
theorem rrq_contents (sink : packet_sink_t) (hfit : sink.sink_private.tftp_filename.length ≤ 1347) :
    (tftp_create_rrq sink).destination_port = 69 ∧
    (tftp_create_rrq sink).data = rrq_payload sink.sink_private.tftp_filename ∧
    (tftp_create_rrq sink).data.length = sink.sink_private.tftp_filename.length + 54 := by
  have hd : (tftp_create_rrq sink).data = rrq_payload sink.sink_private.tftp_filename := by
    have h : (tftp_create_rrq sink).data =
        put16 tftp_op_rrq ++ (rrq_options sink.sink_private.tftp_filename).1.take
          (rrq_options sink.sink_private.tftp_filename).2 := by
      simp only [tftp_create_rrq]
    rw [h, rrq_options_take _ hfit]
    simp [rrq_payload, nul_terminated, rrq_fixed_strings, put16, tftp_op_rrq]
  refine ⟨tftp_create_rrq_port sink, hd, ?_⟩
  rw [hd]
  simp only [rrq_payload, List.length_append, List.length_cons, List.length_nil]
  have h1 : (cstr "octet").length = 5 := by decide
  have h2 : (cstr "rollover").length = 8 := by decide
  have h3 : (cstr "0").length = 1 := by decide
  have h4 : (cstr "tsize").length = 5 := by decide
  have h5 : (cstr "blksize").length = 7 := by decide
  have h6 : (cstr "1024").length = 4 := by decide
  have h7 : (cstr "windowsize").length = 10 := by decide
  have h8 : (cstr "8").length = 1 := by decide
  omega

theorem rrq_contents_witness :
    demo_sink.sink_private.tftp_filename.length ≤ 1347 ∧
    (tftp_create_rrq demo_sink).data = rrq_payload (cstr "vmlinux") ∧
    (tftp_create_rrq demo_sink).data.length = 61 :=
  have h := rrq_contents demo_sink (by decide)
  ⟨by decide, h.2.1, h.2.2⟩

theorem net_pump_cons (e : net_event) (rest : List net_event) (sink : packet_sink_t)
    (env : Env) :
    net_pump (e :: rest) sink env =
      net_pump rest (engine_step e sink env).1 (engine_step e sink env).2 := by
  cases e <;> rfl

theorem lock_on_frame (sink : packet_sink_t) (env : Env) (packet : packet_t) :
    (lock_on sink env packet).1.sink_private.last_block = sink.sink_private.last_block ∧
    (lock_on sink env packet).1.sink_private.last_ack = sink.sink_private.last_ack ∧
    (lock_on sink env packet).1.sink_private.rollover_value = sink.sink_private.rollover_value ∧
    (lock_on sink env packet).1.sink_private.window_size = sink.sink_private.window_size ∧
    (lock_on sink env packet).1.sink_private.block_size = sink.sink_private.block_size ∧
    (lock_on sink env packet).1.sink_private.bytes_received =
      sink.sink_private.bytes_received ∧
    (lock_on sink env packet).1.sink_private.completed = sink.sink_private.completed ∧
    (lock_on sink env packet).1.sink_private.success = sink.sink_private.success ∧
    (lock_on sink env packet).1.sink_private.retransmits_this_block =
      sink.sink_private.retransmits_this_block ∧
    (lock_on sink env packet).2.sent = env.sent ∧
    (lock_on sink env packet).2.written = env.written := by
  rw [lock_on_eq]
  refine ⟨?_, ?_, ?_, ?_, ?_, ?_, ?_, ?_, ?_, ?_, ?_⟩ <;> split_ifs <;> rfl

theorem expected_block_congr (t1 t2 : tftp_transfer_t) (h1 : t1.last_block = t2.last_block)
    (h2 : t1.rollover_value = t2.rollover_value) : expected_block t1 = expected_block t2 := by
  unfold expected_block
  rw [h1, h2]

theorem window_ack_order (sink : packet_sink_t) (env : Env)
    (h : sink.sink_private.last_ack ≤ sink.sink_private.last_block) :
    (window_ack sink env).1.sink_private.last_ack ≤
      (window_ack sink env).1.sink_private.last_block := by
  rw [window_ack_eq]
  split_ifs
  · exact le_refl _
  · exact h

theorem get16_le (message : List Nat) (off : Nat) : get16 message off ≤ 0xFFFF := by
  unfold get16
  omega

theorem engine_step_order (e : net_event) (sink : packet_sink_t) (env : Env)
    (hinv : ack_order sink.sink_private) (hno : ¬ rolls_over sink e) :
    ack_order (engine_step e sink env).1.sink_private := by
  obtain ⟨hle, h16⟩ := hinv
  cases e with
  | timer_expired =>
    simp only [engine_step]
    rw [tftp_timer_expired_eq]
    split_ifs
    · exact ⟨hle, h16⟩
    · exact ⟨hle, h16⟩
    · exact ⟨hle, h16⟩
    · exact ⟨le_refl _, h16⟩
  | packet_received packet fr =>
    simp only [engine_step]
    obtain ⟨l1, l2, l3, _⟩ := lock_on_frame sink env packet
    rw [tftp_packet_received_eq]
    split_ifs with h6 h3
    · rw [tftp_process_options_ack_any]
      exact ⟨le_refl 0, Nat.zero_le _⟩
    · by_cases hseq : get16 packet.data 2 = expected_block (lock_on sink env packet).1.sink_private
      · have hexp : expected_block (lock_on sink env packet).1.sink_private =
            expected_block sink.sink_private := expected_block_congr _ _ l1 l3
        have hlt : sink.sink_private.last_block < 0xFFFF := by
          rcases Nat.lt_or_ge sink.sink_private.last_block 0xFFFF with h | h
          · exact h
          · exact absurd ⟨h3, by omega, by rw [← hexp]; exact hseq⟩ hno
        have hrx : get16 packet.data 2 = sink.sink_private.last_block + 1 := by
          rw [hseq, hexp, expected_block_eq _ h16, if_pos hlt]
        have hfr := process_data_accept_frame (lock_on sink env packet).1
          (lock_on sink env packet).2 packet.data fr hseq
        have hack := process_data_accept_ack (lock_on sink env packet).1
          (lock_on sink env packet).2 packet.data fr hseq
        unfold ack_order
        rw [hfr.1]
        refine ⟨?_, get16_le _ _⟩
        by_cases hge : (get16 packet.data 2 : Int) ≥
            ((lock_on sink env packet).1.sink_private.last_ack : Int) +
              (lock_on sink env packet).1.sink_private.window_size
        · rw [(hack.1 hge).2]
        · rw [(hack.2 hge).2, l2, hrx]
          omega
      · rw [tftp_process_data_eq, if_neg hseq]
        have := window_ack_order (lock_on sink env packet).1 (lock_on sink env packet).2
          (by rw [l1, l2]; exact hle)
        refine ⟨this, ?_⟩
        rw [(window_ack_frame _ _).2.2.2.2.2.2.2.1, l1]
        exact h16
    · show (lock_on sink env packet).1.sink_private.last_ack ≤
          (lock_on sink env packet).1.sink_private.last_block ∧
        (lock_on sink env packet).1.sink_private.last_block ≤ 0xFFFF
      rw [l1, l2]
      exact ⟨hle, h16⟩

theorem net_pump_order (events : List net_event) :
    ∀ (sink : packet_sink_t) (env : Env), ack_order sink.sink_private →
      no_rollover events sink env →
      ack_order (net_pump events sink env).1.sink_private := by
  induction events with
  | nil => intro sink env h _; exact h
  | cons e rest ih =>
    intro sink env h hno
    rw [net_pump_cons]
    exact ih _ _ (engine_step_order e sink env h hno.1) hno.2

theorem get16_data_packet_opcode (block : Nat) (payload : List Nat) :
    get16 (data_packet block payload) 0 = tftp_op_data := rfl

theorem get16_data_packet_block (block : Nat) (payload : List Nat) (h : block < 65536) :
    get16 (data_packet block payload) 2 = block := by
  simp only [data_packet, put16, get16, List.cons_append, List.nil_append, List.getD_cons_succ,
    List.getD_cons_zero]
  omega

theorem tftp_packet_received_data (sink : packet_sink_t) (env : Env) (packet : packet_t)
    (fr : Nat) (hs : sink.sink_private.started = true)
    (h3 : get16 packet.data 0 = tftp_op_data) :
    tftp_packet_received sink env packet fr = tftp_process_data sink env packet.data fr := by
  have hl : lock_on sink env packet = (sink, env) := by
    rw [lock_on_eq, if_neg (by simp [hs])]
  rw [tftp_packet_received_eq, hl, if_neg (by rw [h3]; decide), if_pos h3]

theorem data_event_step (block : Nat) (sink : packet_sink_t) (env : Env)
    (hs : sink.sink_private.started = true) :
    engine_step (data_event block) sink env =
      tftp_process_data sink env (data_packet block (List.replicate 512 0)) FR_OK := by
  generalize hp : List.replicate 512 0 = payload
  have h := tftp_packet_received_data sink env (scenario_packet (data_packet block payload))
    FR_OK hs (get16_data_packet_opcode block payload)
  unfold data_event engine_step
  rw [hp]
  exact h

theorem data_run_window3 (n : Nat) :
    ∀ (b : Nat) (sink : packet_sink_t) (env : Env),
      sink.sink_private.started = true → sink.sink_private.window_size = 3 →
      sink.sink_private.last_block = b → sink.sink_private.last_ack = b - b % 3 →
      b + n ≤ 0xFFFF →
      (net_pump (data_run b n) sink env).1.sink_private.started = true ∧
      (net_pump (data_run b n) sink env).1.sink_private.window_size = 3 ∧
      (net_pump (data_run b n) sink env).1.sink_private.last_block = b + n ∧
      (net_pump (data_run b n) sink env).1.sink_private.last_ack = (b + n) - (b + n) % 3 ∧
      (net_pump (data_run b n) sink env).1.sink_private.rollover_value =
        sink.sink_private.rollover_value := by
  induction n with
  | zero =>
    intro b sink env hs hw hb ha _
    exact ⟨hs, hw, hb, ha, rfl⟩
  | succ n ih =>
    intro b sink env hs hw hb ha hle
    have hstep : engine_step (data_event (b + 1)) sink env =
        tftp_process_data sink env (data_packet (b + 1) (List.replicate 512 0)) FR_OK :=
      data_event_step (b + 1) sink env hs
    have hrx : get16 (data_packet (b + 1) (List.replicate 512 0)) 2 = b + 1 :=
      get16_data_packet_block _ _ (by omega)
    have hseq : get16 (data_packet (b + 1) (List.replicate 512 0)) 2 =
        expected_block sink.sink_private := by
      rw [hrx, expected_block_eq _ (by omega), if_pos (by omega), hb]
    have hfr := process_data_accept_frame sink env _ FR_OK hseq
    have hfr2 := tftp_process_data_frame sink env
      (data_packet (b + 1) (List.replicate 512 0)) FR_OK
    have hack := process_data_accept_ack sink env _ FR_OK hseq
    have hla : (tftp_process_data sink env (data_packet (b + 1) (List.replicate 512 0))
        FR_OK).1.sink_private.last_ack = (b + 1) - (b + 1) % 3 := by
      by_cases hge : (get16 (data_packet (b + 1) (List.replicate 512 0)) 2 : Int) ≥
          (sink.sink_private.last_ack : Int) + sink.sink_private.window_size
      · rw [(hack.1 hge).2, hrx]
        rw [hrx, ha, hw] at hge
        omega
      · rw [(hack.2 hge).2, ha]
        rw [hrx, ha, hw] at hge
        omega
    have h := ih (b + 1)
      (tftp_process_data sink env (data_packet (b + 1) (List.replicate 512 0)) FR_OK).1
      (tftp_process_data sink env (data_packet (b + 1) (List.replicate 512 0)) FR_OK).2
      (by rw [hfr2.2.2.2.1]; exact hs) (by rw [hfr.2.1]; exact hw) (by rw [hfr.1, hrx]) hla
      (by omega)
    simp only [data_run, net_pump_cons, hstep]
    have hb2 : b + 1 + n = b + (n + 1) := by omega
    rw [hb2, hfr2.2.2.2.2.2.2.1] at h
    exact h

theorem rollover_after_oack :
    tftp_packet_received { demo_sink with timer := 200 }
        { now := 0, sent := [tftp_create_rrq demo_sink], written := [], registered := true,
          reglog := [reg_op.add 0] } oack_window3 FR_OK =
      (window3_sink, after_oack_env) := by
  rw [tftp_packet_received_oack _ _ oack_window3 FR_OK [(cstr "windowsize", cstr "3")]
    (by decide) rfl (by decide)]
  have ha : apply_options { demo_sink.sink_private with started := true }
      [(cstr "windowsize", cstr "3")] =
      { demo_sink.sink_private with started := true, window_size := 3 } := by
    decide
  rw [ha]
  rfl

theorem net_pump_snoc (events : List net_event) (e : net_event) (sink : packet_sink_t)
    (env : Env) :
    net_pump (events ++ [e]) sink env =
      engine_step e (net_pump events sink env).1 (net_pump events sink env).2 := by
  rw [net_pump_append, net_pump_cons]
  rfl

theorem rollover_run_eq :
    net_pump rollover_events (tftp_receive_start demo_sink demo_env).1
        (tftp_receive_start demo_sink demo_env).2 =
      tftp_process_data (net_pump (data_run 0 65535) window3_sink after_oack_env).1
        (net_pump (data_run 0 65535) window3_sink after_oack_env).2
        (data_packet 0 (List.replicate 512 0)) FR_OK := by
  have hs := (data_run_window3 65535 0 window3_sink after_oack_env rfl rfl rfl rfl
    (by decide)).1
  unfold rollover_events
  generalize data_run 0 65535 = run at hs ⊢
  rw [demo_start_eq, net_pump_cons]
  simp only [engine_step]
  rw [rollover_after_oack, net_pump_snoc, data_event_step 0 _ _ hs]

/-- C17, as stated, fails: after the OPTION-ACK with window size 3, DATA blocks 1 to
65535 in order and then DATA block 0 (the negotiated rollover value), the
transfer has `last_block = 0` and `last_ack = 65535`. -/
theorem ack_order_fails_after_rollover :
    (net_pump rollover_events (tftp_receive_start demo_sink demo_env).1
      (tftp_receive_start demo_sink demo_env).2).1.sink_private.last_block = 0 ∧
    (net_pump rollover_events (tftp_receive_start demo_sink demo_env).1
      (tftp_receive_start demo_sink demo_env).2).1.sink_private.last_ack = 65535 ∧
    ¬ (net_pump rollover_events (tftp_receive_start demo_sink demo_env).1
        (tftp_receive_start demo_sink demo_env).2).1.sink_private.last_ack ≤
      (net_pump rollover_events (tftp_receive_start demo_sink demo_env).1
        (tftp_receive_start demo_sink demo_env).2).1.sink_private.last_block := by
  obtain ⟨_, hw, hb, ha, hr⟩ := data_run_window3 65535 0 window3_sink after_oack_env
    rfl rfl rfl rfl (by decide)
  rw [rollover_run_eq]
  generalize net_pump (data_run 0 65535) window3_sink after_oack_env = st at hw hb ha hr ⊢
  have hrx : get16 (data_packet 0 (List.replicate 512 0)) 2 = 0 :=
    get16_data_packet_block _ _ (by decide)
  have hrv : window3_sink.sink_private.rollover_value = 0 := rfl
  have hseq : get16 (data_packet 0 (List.replicate 512 0)) 2 =
      expected_block st.1.sink_private := by
    rw [hrx, expected_block_eq _ (by rw [hb]), if_neg (by rw [hb]; decide), hr, hrv]
  have hfr := process_data_accept_frame st.1 st.2 _ FR_OK hseq
  have hack := (process_data_accept_ack st.1 st.2 _ FR_OK hseq).2
    (by rw [hrx, ha, hw]; decide)
  rw [hfr.1, hack.2, ha, hrx]
  decide

/-- C17 (amended). In every state reached from the state in which `tftp_receive`
enters its wait loop by a sequence of `tftp_packet_received` and
`tftp_timer_expired` calls none of which accepts a DATA block while
`last_block` is 0xFFFF (no block-number rollover), `last_ack <= last_block`
holds. -/
theorem ack_order_without_rollover (ip : Nat) (f d : List Nat) (ticks : Nat) (env : Env)
    (events : List net_event)
    (hno : no_rollover events (tftp_receive_start (tftp_receive_setup ip f d ticks) env).1
      (tftp_receive_start (tftp_receive_setup ip f d ticks) env).2) :
    (net_pump events (tftp_receive_start (tftp_receive_setup ip f d ticks) env).1
      (tftp_receive_start (tftp_receive_setup ip f d ticks) env).2).1.sink_private.last_ack ≤
    (net_pump events (tftp_receive_start (tftp_receive_setup ip f d ticks) env).1
      (tftp_receive_start (tftp_receive_setup ip f d ticks) env).2).1.sink_private.last_block := by
  have h0 : ack_order (tftp_receive_start (tftp_receive_setup ip f d ticks) env).1.sink_private := by
    rw [tftp_receive_start_eq]
    exact ⟨le_refl 0, Nat.zero_le _⟩
  exact (net_pump_order events _ _ h0 hno).1

theorem ack_order_without_rollover_witness :
    no_rollover [data_event 1, net_event.timer_expired, data_event 2, data_event 7]
      (tftp_receive_start demo_sink demo_env).1 (tftp_receive_start demo_sink demo_env).2 ∧
    (net_pump [data_event 1, net_event.timer_expired, data_event 2, data_event 7]
      (tftp_receive_start demo_sink demo_env).1
      (tftp_receive_start demo_sink demo_env).2).1.sink_private.last_ack ≤
    (net_pump [data_event 1, net_event.timer_expired, data_event 2, data_event 7]
      (tftp_receive_start demo_sink demo_env).1
      (tftp_receive_start demo_sink demo_env).2).1.sink_private.last_block :=
  ⟨by decide,
    ack_order_without_rollover 3232235777 (cstr "vmlinux") (cstr "vmlinux") 0 demo_env
      [data_event 1, net_event.timer_expired, data_event 2, data_event 7] (by decide)⟩

theorem apply_options_scenario (t : tftp_transfer_t) :
    apply_options t [(cstr "blksize", cstr "1024"), (cstr "windowsize", cstr "8")] =
      { t with block_size := 1024, window_size := 8 } := by
  have d1 : cstr "blksize" ≠ cstr "rollover" := by decide
  have d2 : cstr "blksize" ≠ cstr "tsize" := by decide
  have d3 : cstr "windowsize" ≠ cstr "rollover" := by decide
  have d4 : cstr "windowsize" ≠ cstr "tsize" := by decide
  have d5 : cstr "windowsize" ≠ cstr "blksize" := by decide
  have v1 : to_u16 (atoi (cstr "1024")) = 1024 := by decide
  have v2 : atoi (cstr "8") = 8 := by decide
  simp only [apply_options, List.foldl_cons, List.foldl_nil, apply_option, d1, d2, d3, d4, d5,
    if_false, if_true, v1, v2]

theorem e2e_after_oack (ip : Nat) (f d : List Nat) (ticks : Nat) (env : Env) :
    engine_step (net_event.packet_received scenario_oack FR_OK)
        (tftp_receive_start (tftp_receive_setup ip f d ticks) env).1
        (tftp_receive_start (tftp_receive_setup ip f d ticks) env).2 =
      e2e_state ip f d ticks env 0 0 0 [] [] false := by
  rw [tftp_receive_start_eq]
  simp only [engine_step]
  rw [tftp_packet_received_oack _ _ scenario_oack FR_OK
    [(cstr "blksize", cstr "1024"), (cstr "windowsize", cstr "8")] (by decide) rfl rfl,
    apply_options_scenario]
  simp [e2e_state, tftp_receive_setup, scenario_oack, scenario_packet, ack0_packet,
    set_timer_ms, set_timer_ticks]

theorem data_packet_length (block : Nat) (payload : List Nat) :
    ((data_packet block payload).length : Int) - 4 = (payload.length : Int) := by
  simp only [data_packet, put16, List.length_append, List.length_cons, List.length_nil]
  push_cast
  ring

theorem data_packet_drop (block : Nat) (payload : List Nat) :
    (data_packet block payload).drop 4 = payload := rfl

theorem e2e_data_step (ip : Nat) (f d : List Nat) (ticks : Nat) (env : Env) (lb la : Nat)
    (bytes : Int) (blocks : List (List Nat)) (acks : List packet_t) (b : Nat) (p : List Nat)
    (hb : b = lb + 1) (hb16 : b < 65536) :
    engine_step (net_event.packet_received (scenario_packet (data_packet b p)) FR_OK)
        (e2e_state ip f d ticks env lb la bytes blocks acks false).1
        (e2e_state ip f d ticks env lb la bytes blocks acks false).2 =
      e2e_state ip f d ticks env b
        (if (b : Int) ≥ (la : Int) + 8 then b else la)
        (bytes + p.length)
        (if 0 < p.length then blocks ++ [p] else blocks)
        (if (b : Int) ≥ (la : Int) + 8 then
          acks ++ [ack_for { tftp_receive_setup ip f d ticks with match_remote_port := 50000 } b]
         else acks)
        (decide (p.length < 1024)) := by
  have hstep := tftp_packet_received_data
    (e2e_state ip f d ticks env lb la bytes blocks acks false).1
    (e2e_state ip f d ticks env lb la bytes blocks acks false).2
    (scenario_packet (data_packet b p)) FR_OK rfl (get16_data_packet_opcode b p)
  have hrx : get16 (data_packet b p) 2 = b := get16_data_packet_block b p hb16
  have hexp : expected_block
      (e2e_state ip f d ticks env lb la bytes blocks acks false).1.sink_private = b := by
    rw [expected_block_eq _ (by show lb ≤ 0xFFFF; omega)]
    show (if lb < 0xFFFF then lb + 1 else 0) = b
    rw [if_pos (by omega), hb]
  have hlen := data_packet_length b p
  simp only [engine_step]
  rw [hstep]
  show tftp_process_data _ _ (data_packet b p) FR_OK = _
  rw [tftp_process_data_eq, if_pos (by rw [hrx, hexp]), window_ack_eq, accept_data_eq]
  simp only [hrx, hlen, data_packet_drop]
  rcases Nat.eq_zero_or_pos p.length with h0 | hpos
  · have hnil : p = [] := List.length_eq_zero.mp h0
    subst hnil
    by_cases hack : (b : Int) ≥ (la : Int) + 8 <;>
      simp [e2e_state, hack, ack_for, ack_packet, tftp_receive_setup, FR_OK, set_timer_ms,
        set_timer_ticks]
  · by_cases hack : (b : Int) ≥ (la : Int) + 8 <;> by_cases hshort : p.length < 1024 <;>
      simp [e2e_state, hack, hpos, hshort, ack_for, ack_packet, tftp_receive_setup, FR_OK,
        set_timer_ms, set_timer_ticks]

theorem e2e_full_step (ip : Nat) (f d : List Nat) (ticks : Nat) (env : Env) (lb la : Nat)
    (bytes : Int) (blocks : List (List Nat)) (acks : List packet_t) (b : Nat) (p : List Nat)
    (hb : b = lb + 1) (hb16 : b < 65536) (hp : p.length = 1024) :
    engine_step (net_event.packet_received (scenario_packet (data_packet b p)) FR_OK)
        (e2e_state ip f d ticks env lb la bytes blocks acks false).1
        (e2e_state ip f d ticks env lb la bytes blocks acks false).2 =
      e2e_state ip f d ticks env b
        (if (b : Int) ≥ (la : Int) + 8 then b else la)
        (bytes + 1024)
        (blocks ++ [p])
        (if (b : Int) ≥ (la : Int) + 8 then
          acks ++ [ack_for { tftp_receive_setup ip f d ticks with match_remote_port := 50000 } b]
         else acks)
        false := by
  rw [e2e_data_step ip f d ticks env lb la bytes blocks acks b p hb hb16, hp]
  simp

theorem e2e_run (ip : Nat) (f d : List Nat) (ticks : Nat) (env : Env) (payload : Nat → List Nat)
    (last : List Nat) (hfull : ∀ i, i < 9 → (payload i).length = 1024)
    (hlast : last.length < 1024) :
    net_pump (e2e_events payload last)
        (tftp_receive_start (tftp_receive_setup ip f d ticks) env).1
        (tftp_receive_start (tftp_receive_setup ip f d ticks) env).2 =
      e2e_state ip f d ticks env 10 8 (9216 + last.length)
        ((List.range 9).map payload ++ (if 0 < last.length then [last] else []))
        [ack_for { tftp_receive_setup ip f d ticks with match_remote_port := 50000 } 8]
        true := by
  have hr : List.range 9 = [0, 1, 2, 3, 4, 5, 6, 7, 8] := rfl
  unfold e2e_events
  rw [net_pump_cons, e2e_after_oack, hr]
  simp only [List.map_cons, List.map_nil, List.cons_append, List.nil_append, net_pump_cons]
  rw [e2e_full_step ip f d ticks env _ _ _ _ _ _ (payload 0) (by decide) (by decide)
    (hfull 0 (by decide))]
  rw [e2e_full_step ip f d ticks env _ _ _ _ _ _ (payload 1) (by decide) (by decide)
    (hfull 1 (by decide))]
  rw [e2e_full_step ip f d ticks env _ _ _ _ _ _ (payload 2) (by decide) (by decide)
    (hfull 2 (by decide))]
  rw [e2e_full_step ip f d ticks env _ _ _ _ _ _ (payload 3) (by decide) (by decide)
    (hfull 3 (by decide))]
  rw [e2e_full_step ip f d ticks env _ _ _ _ _ _ (payload 4) (by decide) (by decide)
    (hfull 4 (by decide))]
  rw [e2e_full_step ip f d ticks env _ _ _ _ _ _ (payload 5) (by decide) (by decide)
    (hfull 5 (by decide))]
  rw [e2e_full_step ip f d ticks env _ _ _ _ _ _ (payload 6) (by decide) (by decide)
    (hfull 6 (by decide))]
  rw [e2e_full_step ip f d ticks env _ _ _ _ _ _ (payload 7) (by decide) (by decide)
    (hfull 7 (by decide))]
  rw [e2e_full_step ip f d ticks env _ _ _ _ _ _ (payload 8) (by decide) (by decide)
    (hfull 8 (by decide))]
  rw [e2e_data_step ip f d ticks env _ _ _ _ _ 10 last (by decide) (by decide)]
  simp only [net_pump]
  norm_num [hlast]
  split_ifs <;> rfl

/-- C18. From the freshly started state, the OPTION-ACK accepting `blksize=1024` and
`windowsize=8`, DATA blocks 1 to 9 with 1024 bytes each and DATA block 10 with
fewer than 1024 bytes, delivered in order with every write succeeding, give:
block size 1024 and window size 8; the first packet sent in reply is ACK(0)
(the packets sent are the RRQ, ACK(0) and ACK(8)); the transfer is completed
with success; `bytes_received` is 9*1024 plus the length of the last payload;
and the buffers written, concatenated, are the ten payloads in block order. -/
theorem end_to_end_outcome (ip : Nat) (f d : List Nat) (ticks : Nat) (env : Env)
    (payload : Nat → List Nat) (last : List Nat)
    (hfull : ∀ i, i < 9 → (payload i).length = 1024) (hlast : last.length < 1024) :
    (net_pump (e2e_events payload last)
      (tftp_receive_start (tftp_receive_setup ip f d ticks) env).1
      (tftp_receive_start (tftp_receive_setup ip f d ticks) env).2).1.sink_private.block_size
      = 1024 ∧
    (net_pump (e2e_events payload last)
      (tftp_receive_start (tftp_receive_setup ip f d ticks) env).1
      (tftp_receive_start (tftp_receive_setup ip f d ticks) env).2).1.sink_private.window_size
      = 8 ∧
    (net_pump (e2e_events payload last)
      (tftp_receive_start (tftp_receive_setup ip f d ticks) env).1
      (tftp_receive_start (tftp_receive_setup ip f d ticks) env).2).2.sent =
      env.sent ++
        [tftp_create_rrq (tftp_receive_setup ip f d ticks),
         ack0_packet { tftp_receive_setup ip f d ticks with match_remote_port := 50000 },
         ack_for { tftp_receive_setup ip f d ticks with match_remote_port := 50000 } 8] ∧
    (net_pump (e2e_events payload last)
      (tftp_receive_start (tftp_receive_setup ip f d ticks) env).1
      (tftp_receive_start (tftp_receive_setup ip f d ticks) env).2).1.sink_private.completed
      = true ∧
    (net_pump (e2e_events payload last)
      (tftp_receive_start (tftp_receive_setup ip f d ticks) env).1
      (tftp_receive_start (tftp_receive_setup ip f d ticks) env).2).1.sink_private.success
      = true ∧
    (net_pump (e2e_events payload last)
      (tftp_receive_start (tftp_receive_setup ip f d ticks) env).1
      (tftp_receive_start (tftp_receive_setup ip f d ticks) env).2).1.sink_private.bytes_received
      = 9 * 1024 + (last.length : Int) ∧
    (∃ blocks : List (List Nat),
      (net_pump (e2e_events payload last)
        (tftp_receive_start (tftp_receive_setup ip f d ticks) env).1
        (tftp_receive_start (tftp_receive_setup ip f d ticks) env).2).2.written =
        env.written ++ blocks ∧
      blocks.flatten = ((List.range 9).map payload).flatten ++ last) := by
  rw [e2e_run ip f d ticks env payload last hfull hlast]
  refine ⟨rfl, rfl, ?_, rfl, rfl, ?_, ?_⟩
  · simp [e2e_state]
  · show (9216 : Int) + last.length = 9 * 1024 + last.length
    norm_num
  · refine ⟨(List.range 9).map payload ++ (if 0 < last.length then [last] else []), rfl, ?_⟩
    rw [List.flatten_append]
    split_ifs with h
    · simp
    · have : last = [] := List.length_eq_zero.mp (by omega)
      subst this
      simp

theorem end_to_end_outcome_witness :
    (∀ i, i < 9 → ((fun _ => List.replicate 1024 7) i).length = 1024) ∧
    [1, 2, 3].length < 1024 ∧
    (net_pump (e2e_events (fun _ => List.replicate 1024 7) [1, 2, 3])
      (tftp_receive_start
        (tftp_receive_setup 3232235777 (cstr "vmlinux") (cstr "vmlinux") 0) demo_env).1
      (tftp_receive_start
        (tftp_receive_setup 3232235777 (cstr "vmlinux") (cstr "vmlinux") 0) demo_env).2
      ).1.sink_private.completed = true ∧
    (net_pump (e2e_events (fun _ => List.replicate 1024 7) [1, 2, 3])
      (tftp_receive_start
        (tftp_receive_setup 3232235777 (cstr "vmlinux") (cstr "vmlinux") 0) demo_env).1
      (tftp_receive_start
        (tftp_receive_setup 3232235777 (cstr "vmlinux") (cstr "vmlinux") 0) demo_env).2
      ).1.sink_private.bytes_received = 9 * 1024 + (([1, 2, 3] : List Nat).length : Int) :=
  have h := end_to_end_outcome 3232235777 (cstr "vmlinux") (cstr "vmlinux") 0 demo_env
    (fun _ => List.replicate 1024 7) [1, 2, 3] (fun _ _ => List.length_replicate _ _)
    (by decide)
  ⟨fun _ _ => List.length_replicate _ _, by decide, h.2.2.2.1, h.2.2.2.2.2.1⟩

theorem net_pump_invariant (P : packet_sink_t → Env → Prop)
    (hstep : ∀ (e : net_event) (sink : packet_sink_t) (env : Env), P sink env →
      P (engine_step e sink env).1 (engine_step e sink env).2)
    (events : List net_event) :
    ∀ (sink : packet_sink_t) (env : Env), P sink env →
      P (net_pump events sink env).1 (net_pump events sink env).2 := by
  induction events with
  | nil => intro sink env h; exact h
  | cons e rest ih =>
    intro sink env h
    rw [net_pump_cons]
    exact ih _ _ (hstep e sink env h)

theorem process_data_flags (sink : packet_sink_t) (env : Env) (message : List Nat) (fr : Nat) :
    (tftp_process_data sink env message fr).1.sink_private.completed =
      (if get16 message 2 = expected_block sink.sink_private then
        (accept_data sink.sink_private env message fr).1.completed
       else sink.sink_private.completed) ∧
    (tftp_process_data sink env message fr).1.sink_private.success =
      (if get16 message 2 = expected_block sink.sink_private then
        (accept_data sink.sink_private env message fr).1.success
       else sink.sink_private.success) ∧
    (tftp_process_data sink env message fr).1.sink_private.retransmits_this_block =
      (if get16 message 2 = expected_block sink.sink_private then 0
       else sink.sink_private.retransmits_this_block) ∧
    (tftp_process_data sink env message fr).1.sink_private.bytes_received =
      (if get16 message 2 = expected_block sink.sink_private then
        (accept_data sink.sink_private env message fr).1.bytes_received
       else sink.sink_private.bytes_received) ∧
    (tftp_process_data sink env message fr).2.written =
      (if get16 message 2 = expected_block sink.sink_private then
        (accept_data sink.sink_private env message fr).2.written
       else env.written) := by
  rw [tftp_process_data_eq]
  by_cases h : get16 message 2 = expected_block sink.sink_private
  · simp only [h, if_true]
    rw [window_ack_eq]
    refine ⟨?_, ?_, ?_, ?_, ?_⟩ <;> split_ifs <;> first | rfl | (rw [accept_data_eq])
  · simp only [h, if_false]
    rw [window_ack_eq]
    refine ⟨?_, ?_, ?_, ?_, ?_⟩ <;> split_ifs <;> rfl

theorem engine_step_completed (e : net_event) (sink : packet_sink_t) (env : Env)
    (hc : sink.sink_private.completed = true) :
    (engine_step e sink env).1.sink_private.completed = true := by
  cases e with
  | timer_expired =>
    simp only [engine_step]
    rw [tftp_timer_expired_eq]
    split_ifs <;> first | rfl | exact hc
  | packet_received packet fr =>
    simp only [engine_step]
    have hl := (lock_on_frame sink env packet).2.2.2.2.2.2.1
    rw [tftp_packet_received_eq]
    split_ifs
    · rw [tftp_process_options_ack_any]
      exact ((options_loop_frame _ _).2.2.2.2.2.2.1).trans (hl.trans hc)
    · rw [(process_data_flags _ _ _ _).1, accept_data_eq]
      dsimp only
      rw [hl, hc]
      split_ifs <;> rfl
    · rfl

theorem engine_step_settled (e : net_event) (sink : packet_sink_t) (env : Env)
    (hk : success_settled sink.sink_private) :
    success_settled (engine_step e sink env).1.sink_private := by
  cases e with
  | timer_expired =>
    simp only [engine_step]
    rw [tftp_timer_expired_eq]
    split_ifs with h1 h2 h3
    · intro h
      cases h
    · exact hk
    · intro h
      exact absurd (hk h).1 h2
    · intro h
      exact absurd (hk h).1 h2
  | packet_received packet fr =>
    simp only [engine_step]
    obtain ⟨_, _, _, _, _, _, lc, ls, lr, _, _⟩ := lock_on_frame sink env packet
    rw [tftp_packet_received_eq]
    split_ifs
    · rw [tftp_process_options_ack_any]
      have hf := options_loop_frame (List.drop 2 packet.data)
        (lock_on sink env packet).1.sink_private
      intro h
      have h' : sink.sink_private.success = true := by
        rw [← ls, ← hf.2.2.2.2.2.2.2.1]
        exact h
      refine ⟨?_, ?_⟩
      · exact (hf.2.2.2.2.2.2.1.trans lc).trans (hk h').1
      · exact (hf.2.2.2.2.2.2.2.2.1.trans lr).trans (hk h').2
    · have hfl := process_data_flags (lock_on sink env packet).1 (lock_on sink env packet).2
        packet.data fr
      unfold success_settled
      rw [hfl.1, hfl.2.1, hfl.2.2.1]
      by_cases hseq : get16 packet.data 2 = expected_block (lock_on sink env packet).1.sink_private
      · simp only [hseq, if_true]
        rw [accept_data_eq]
        dsimp only
        rw [lc, ls]
        intro h
        refine ⟨?_, trivial⟩
        by_cases hfail : (packet.data.length : Int) - 4 > 0 ∧ fr ≠ FR_OK
        · rw [if_pos hfail]
        · rw [if_neg hfail] at h ⊢
          by_cases hshort : sink.sink_private.completed = false ∧
              (packet.data.length : Int) - 4 <
                ((lock_on sink env packet).1.sink_private.block_size : Int)
          · rw [if_pos hshort]
          · rw [if_neg hshort] at h ⊢
            exact (hk h).1
      · simp only [hseq, if_false]
        rw [lc, ls, lr]
        exact hk
    · intro h
      cases h

theorem start_settled (ip : Nat) (f d : List Nat) (ticks : Nat) (env : Env) :
    success_settled (tftp_receive_start (tftp_receive_setup ip f d ticks) env).1.sink_private := by
  rw [tftp_receive_start_eq]
  intro h
  cases h

theorem net_pump_settled (events : List net_event) (sink : packet_sink_t) (env : Env)
    (hk : success_settled sink.sink_private) :
    success_settled (net_pump events sink env).1.sink_private :=
  net_pump_invariant (fun s _ => success_settled s.sink_private)
    (fun e s en h => engine_step_settled e s en h) events sink env hk

theorem net_pump_completed (events : List net_event) (sink : packet_sink_t) (env : Env)
    (hc : sink.sink_private.completed = true) :
    (net_pump events sink env).1.sink_private.completed = true :=
  net_pump_invariant (fun s _ => s.sink_private.completed = true)
    (fun e s en h => engine_step_completed e s en h) events sink env hc

/-- C22. In every state reached from the initial transfer state by any sequence of
`tftp_packet_received` and `tftp_timer_expired` calls, `success = true` implies
`completed = true`; and once `completed` is true it stays true, after one more
call from any state and after any further sequence of calls. -/
theorem completion_permanent (ip : Nat) (f d : List Nat) (ticks : Nat) (env : Env)
    (events : List net_event) :
    ((net_pump events (tftp_receive_start (tftp_receive_setup ip f d ticks) env).1
        (tftp_receive_start (tftp_receive_setup ip f d ticks) env).2).1.sink_private.success
        = true →
      (net_pump events (tftp_receive_start (tftp_receive_setup ip f d ticks) env).1
        (tftp_receive_start (tftp_receive_setup ip f d ticks) env).2).1.sink_private.completed
        = true) ∧
    (∀ more : List net_event,
      (net_pump events (tftp_receive_start (tftp_receive_setup ip f d ticks) env).1
        (tftp_receive_start (tftp_receive_setup ip f d ticks) env).2).1.sink_private.completed
        = true →
      (net_pump (events ++ more) (tftp_receive_start (tftp_receive_setup ip f d ticks) env).1
        (tftp_receive_start (tftp_receive_setup ip f d ticks) env).2).1.sink_private.completed
        = true) ∧
    (∀ (e : net_event) (sink : packet_sink_t) (en : Env),
      sink.sink_private.completed = true →
      (engine_step e sink en).1.sink_private.completed = true) := by
  refine ⟨?_, ?_, ?_⟩
  · intro hs
    exact (net_pump_settled events _ _ (start_settled ip f d ticks env) hs).1
  · intro more hc
    rw [net_pump_append]
    exact net_pump_completed more _ _ hc
  · intro e sink en hc
    exact engine_step_completed e sink en hc

theorem completion_permanent_witness :
    (net_pump [short_data_event 1]
      (tftp_receive_start demo_sink demo_env).1
      (tftp_receive_start demo_sink demo_env).2).1.sink_private.success = true ∧
    (net_pump [short_data_event 1]
      (tftp_receive_start demo_sink demo_env).1
      (tftp_receive_start demo_sink demo_env).2).1.sink_private.completed = true ∧
    (net_pump ([short_data_event 1] ++ [net_event.timer_expired, data_event 2])
      (tftp_receive_start demo_sink demo_env).1
      (tftp_receive_start demo_sink demo_env).2).1.sink_private.completed = true :=
  have h := completion_permanent 3232235777 (cstr "vmlinux") (cstr "vmlinux") 0 demo_env
    [short_data_event 1]
  ⟨by decide, h.1 (by decide), h.2.1 [net_event.timer_expired, data_event 2] (by decide)⟩

/-- C25. In every state reached from the initial transfer state by any sequence of
`tftp_packet_received` and `tftp_timer_expired` calls, `success = true` implies
`retransmits_this_block = 0`; so `tftp_timer_expired` called in such a state
with `success = true` transmits nothing and leaves the sink, with the whole
transfer state, and the environment unchanged. -/
theorem timer_keeps_success (ip : Nat) (f d : List Nat) (ticks : Nat) (env : Env)
    (events : List net_event)
    (hs : (net_pump events (tftp_receive_start (tftp_receive_setup ip f d ticks) env).1
      (tftp_receive_start (tftp_receive_setup ip f d ticks) env).2).1.sink_private.success
      = true) :
    (net_pump events (tftp_receive_start (tftp_receive_setup ip f d ticks) env).1
      (tftp_receive_start (tftp_receive_setup ip f d ticks) env).2
      ).1.sink_private.retransmits_this_block = 0 ∧
    tftp_timer_expired
        (net_pump events (tftp_receive_start (tftp_receive_setup ip f d ticks) env).1
          (tftp_receive_start (tftp_receive_setup ip f d ticks) env).2).1
        (net_pump events (tftp_receive_start (tftp_receive_setup ip f d ticks) env).1
          (tftp_receive_start (tftp_receive_setup ip f d ticks) env).2).2 =
      net_pump events (tftp_receive_start (tftp_receive_setup ip f d ticks) env).1
        (tftp_receive_start (tftp_receive_setup ip f d ticks) env).2 := by
  have hk := net_pump_settled events _ _ (start_settled ip f d ticks env) hs
  refine ⟨hk.2, ?_⟩
  rw [tftp_timer_expired_eq, if_neg (by rw [hk.2]; decide), if_pos hk.1]

theorem timer_keeps_success_witness :
    (net_pump [net_event.timer_expired, short_data_event 1]
      (tftp_receive_start (tftp_receive_setup 3232235777 (cstr "vmlinux") (cstr "vmlinux") 0)
        demo_env).1
      (tftp_receive_start (tftp_receive_setup 3232235777 (cstr "vmlinux") (cstr "vmlinux") 0)
        demo_env).2).1.sink_private.success = true ∧
    (net_pump [net_event.timer_expired, short_data_event 1]
      (tftp_receive_start (tftp_receive_setup 3232235777 (cstr "vmlinux") (cstr "vmlinux") 0)
        demo_env).1
      (tftp_receive_start (tftp_receive_setup 3232235777 (cstr "vmlinux") (cstr "vmlinux") 0)
        demo_env).2).1.sink_private.retransmits_this_block = 0 :=
  ⟨by decide,
    (timer_keeps_success 3232235777 (cstr "vmlinux") (cstr "vmlinux") 0 demo_env
      [net_event.timer_expired, short_data_event 1] (by decide)).1⟩

theorem window_ack_bound (sink : packet_sink_t) (env : Env)
    (hw : 1 ≤ sink.sink_private.window_size) :
    window_bound (window_ack sink env).1.sink_private := by
  rw [window_ack_eq]
  unfold window_bound
  split_ifs with h
  · show (sink.sink_private.last_block : Int) <
      (sink.sink_private.last_block : Int) + sink.sink_private.window_size
    omega
  · show (sink.sink_private.last_block : Int) <
      (sink.sink_private.last_ack : Int) + sink.sink_private.window_size
    omega

theorem engine_step_window (e : net_event) (sink : packet_sink_t) (env : Env)
    (hb : window_bound sink.sink_private)
    (hw : 1 ≤ (engine_step e sink env).1.sink_private.window_size) :
    window_bound (engine_step e sink env).1.sink_private := by
  cases e with
  | timer_expired =>
    simp only [engine_step] at hw ⊢
    rw [tftp_timer_expired_eq] at hw ⊢
    unfold window_bound at hb ⊢
    split_ifs at hw ⊢
    · exact hb
    · exact hb
    · exact hb
    · show (sink.sink_private.last_block : Int) <
        (sink.sink_private.last_block : Int) + sink.sink_private.window_size
      have hw' : 1 ≤ sink.sink_private.window_size := hw
      omega
  | packet_received packet fr =>
    simp only [engine_step] at hw ⊢
    obtain ⟨l1, l2, _, l4, _⟩ := lock_on_frame sink env packet
    rw [tftp_packet_received_eq] at hw ⊢
    split_ifs at hw ⊢
    · rw [tftp_process_options_ack_any] at hw ⊢
      unfold window_bound
      have hw' : 1 ≤ (options_loop (List.drop 2 packet.data)
          (lock_on sink env packet).1.sink_private).window_size := hw
      show ((0 : Nat) : Int) < ((0 : Nat) : Int) +
        (options_loop (List.drop 2 packet.data)
          (lock_on sink env packet).1.sink_private).window_size
      omega
    · have hfr := tftp_process_data_frame (lock_on sink env packet).1
        (lock_on sink env packet).2 packet.data fr
      rw [hfr.2.2.2.2.1] at hw
      rw [tftp_process_data_eq]
      split_ifs
      · apply window_ack_bound
        show 1 ≤ (accept_data (lock_on sink env packet).1.sink_private
          (lock_on sink env packet).2 packet.data fr).1.window_size
        rw [accept_data_eq]
        exact hw
      · exact window_ack_bound _ _ hw
    · unfold window_bound at hb ⊢
      show ((lock_on sink env packet).1.sink_private.last_block : Int) <
        ((lock_on sink env packet).1.sink_private.last_ack : Int) +
          (lock_on sink env packet).1.sink_private.window_size
      rw [l1, l2, l4]
      exact hb

theorem net_pump_window (events : List net_event) :
    ∀ (sink : packet_sink_t) (env : Env), window_bound sink.sink_private →
      windows_positive events sink env →
      window_bound (net_pump events sink env).1.sink_private := by
  induction events with
  | nil => intro sink env h _; exact h
  | cons e rest ih =>
    intro sink env h hpos
    rw [net_pump_cons]
    exact ih _ _ (engine_step_window e sink env h hpos.1) hpos.2

/-- C23. Provided the window size is at least 1 after every call, in every state
reached from the initial transfer state by a sequence of `tftp_packet_received`
and `tftp_timer_expired` calls, `last_block < last_ack + window_size` holds (as
integers); consequently a DATA datagram that is out of sequence in such a state
causes no ACK to be sent. -/
theorem unacknowledged_window_bound (ip : Nat) (f d : List Nat) (ticks : Nat) (env : Env)
    (events : List net_event)
    (hpos : windows_positive events (tftp_receive_start (tftp_receive_setup ip f d ticks) env).1
      (tftp_receive_start (tftp_receive_setup ip f d ticks) env).2) :
    ((net_pump events (tftp_receive_start (tftp_receive_setup ip f d ticks) env).1
        (tftp_receive_start (tftp_receive_setup ip f d ticks) env).2).1.sink_private.last_block
        : Int) <
      ((net_pump events (tftp_receive_start (tftp_receive_setup ip f d ticks) env).1
        (tftp_receive_start (tftp_receive_setup ip f d ticks) env).2).1.sink_private.last_ack
        : Int) +
      (net_pump events (tftp_receive_start (tftp_receive_setup ip f d ticks) env).1
        (tftp_receive_start (tftp_receive_setup ip f d ticks) env).2).1.sink_private.window_size ∧
    (∀ (message : List Nat) (fr : Nat),
      get16 message 2 ≠ expected_block
        (net_pump events (tftp_receive_start (tftp_receive_setup ip f d ticks) env).1
          (tftp_receive_start (tftp_receive_setup ip f d ticks) env).2).1.sink_private →
      (tftp_process_data
        (net_pump events (tftp_receive_start (tftp_receive_setup ip f d ticks) env).1
          (tftp_receive_start (tftp_receive_setup ip f d ticks) env).2).1
        (net_pump events (tftp_receive_start (tftp_receive_setup ip f d ticks) env).1
          (tftp_receive_start (tftp_receive_setup ip f d ticks) env).2).2 message fr).2.sent =
        (net_pump events (tftp_receive_start (tftp_receive_setup ip f d ticks) env).1
          (tftp_receive_start (tftp_receive_setup ip f d ticks) env).2).2.sent) := by
  have h0 : window_bound
      (tftp_receive_start (tftp_receive_setup ip f d ticks) env).1.sink_private := by
    rw [tftp_receive_start_eq]
    unfold window_bound
    show ((0 : Nat) : Int) < ((0 : Nat) : Int) + 1
    omega
  have hb := net_pump_window events _ _ h0 hpos
  refine ⟨hb, ?_⟩
  intro message fr hne
  rw [tftp_process_data_eq, if_neg hne, window_ack_eq, if_neg (by unfold window_bound at hb; omega)]

theorem unacknowledged_window_bound_witness :
    windows_positive [data_event 1, net_event.timer_expired, data_event 2]
      (tftp_receive_start (tftp_receive_setup 3232235777 (cstr "vmlinux") (cstr "vmlinux") 0)
        demo_env).1
      (tftp_receive_start (tftp_receive_setup 3232235777 (cstr "vmlinux") (cstr "vmlinux") 0)
        demo_env).2 ∧
    ((net_pump [data_event 1, net_event.timer_expired, data_event 2]
      (tftp_receive_start (tftp_receive_setup 3232235777 (cstr "vmlinux") (cstr "vmlinux") 0)
        demo_env).1
      (tftp_receive_start (tftp_receive_setup 3232235777 (cstr "vmlinux") (cstr "vmlinux") 0)
        demo_env).2).1.sink_private.last_block : Int) <
      ((net_pump [data_event 1, net_event.timer_expired, data_event 2]
        (tftp_receive_start (tftp_receive_setup 3232235777 (cstr "vmlinux") (cstr "vmlinux") 0)
          demo_env).1
        (tftp_receive_start (tftp_receive_setup 3232235777 (cstr "vmlinux") (cstr "vmlinux") 0)
          demo_env).2).1.sink_private.last_ack : Int) +
      (net_pump [data_event 1, net_event.timer_expired, data_event 2]
        (tftp_receive_start (tftp_receive_setup 3232235777 (cstr "vmlinux") (cstr "vmlinux") 0)
          demo_env).1
        (tftp_receive_start (tftp_receive_setup 3232235777 (cstr "vmlinux") (cstr "vmlinux") 0)
          demo_env).2).1.sink_private.window_size :=
  ⟨by decide,
    (unacknowledged_window_bound 3232235777 (cstr "vmlinux") (cstr "vmlinux") 0 demo_env
      [data_event 1, net_event.timer_expired, data_event 2] (by decide)).1⟩

theorem engine_step_bytes (e : net_event) (sink : packet_sink_t) (env : Env) :
    ((engine_step e sink env).2.written = env.written ∧
      (engine_step e sink env).1.sink_private.bytes_received =
        sink.sink_private.bytes_received) ∨
    (∃ buf : List Nat, 0 < buf.length ∧
      (engine_step e sink env).2.written = env.written ++ [buf] ∧
      (engine_step e sink env).1.sink_private.bytes_received =
        sink.sink_private.bytes_received + (buf.length : Int)) := by
  cases e with
  | timer_expired =>
    left
    simp only [engine_step]
    rw [tftp_timer_expired_eq]
    constructor <;> split_ifs <;> rfl
  | packet_received packet fr =>
    simp only [engine_step]
    obtain ⟨_, _, _, _, _, lb, _, _, _, _, lw⟩ := lock_on_frame sink env packet
    rw [tftp_packet_received_eq]
    split_ifs
    · left
      rw [tftp_process_options_ack_any]
      exact ⟨lw, ((options_loop_frame _ _).2.2.2.2.1).trans lb⟩
    · have hfl := process_data_flags (lock_on sink env packet).1 (lock_on sink env packet).2
        packet.data fr
      rw [hfl.2.2.2.1, hfl.2.2.2.2]
      by_cases hseq : get16 packet.data 2 = expected_block (lock_on sink env packet).1.sink_private
      · simp only [hseq, if_true]
        rw [accept_data_eq]
        dsimp only
        by_cases hpos : (packet.data.length : Int) - 4 > 0
        · right
          refine ⟨packet.data.drop 4, ?_, ?_, ?_⟩
          · rw [List.length_drop]
            omega
          · rw [if_pos hpos, lw]
          · rw [if_pos hpos, lb, List.length_drop]
            have : ((packet.data.length - 4 : Nat) : Int) = (packet.data.length : Int) - 4 := by
              omega
            rw [this]
        · left
          rw [if_neg hpos, if_neg hpos]
          exact ⟨lw, lb⟩
      · left
        simp only [hseq, if_false]
        exact ⟨lw, lb⟩
    · left
      exact ⟨lw, lb⟩

theorem engine_step_accounted (written0 : List (List Nat)) (e : net_event)
    (sink : packet_sink_t) (env : Env) (h : bytes_accounted written0 sink env) :
    bytes_accounted written0 (engine_step e sink env).1 (engine_step e sink env).2 := by
  obtain ⟨blocks, hw, hb⟩ := h
  rcases engine_step_bytes e sink env with ⟨h1, h2⟩ | ⟨buf, _, h1, h2⟩
  · exact ⟨blocks, h1.trans hw, h2.trans hb⟩
  · refine ⟨blocks ++ [buf], ?_, ?_⟩
    · rw [h1, hw, List.append_assoc]
    · rw [h2, hb]
      simp

theorem engine_step_bytes_le (e : net_event) (sink : packet_sink_t) (env : Env) :
    sink.sink_private.bytes_received ≤ (engine_step e sink env).1.sink_private.bytes_received := by
  rcases engine_step_bytes e sink env with ⟨_, h2⟩ | ⟨buf, _, _, h2⟩
  · rw [h2]
  · rw [h2]
    omega

theorem net_pump_bytes_le (events : List net_event) :
    ∀ (sink : packet_sink_t) (env : Env),
      sink.sink_private.bytes_received ≤ (net_pump events sink env).1.sink_private.bytes_received := by
  induction events with
  | nil => intro sink env; exact le_refl _
  | cons e rest ih =>
    intro sink env
    rw [net_pump_cons]
    exact le_trans (engine_step_bytes_le e sink env) (ih _ _)

/-- C27. In every state reached from the initial transfer state by any sequence of
`tftp_packet_received` and `tftp_timer_expired` calls, `bytes_received` equals
the total length of the buffers handed to the storage write since the start;
each call either issues no write and leaves `bytes_received` alone, or issues
one write of a non-empty buffer and adds exactly its length, whatever the
write returns; and `bytes_received` never decreases. -/
theorem byte_accounting (ip : Nat) (f d : List Nat) (ticks : Nat) (env : Env)
    (events : List net_event) :
    (∃ blocks : List (List Nat),
      (net_pump events (tftp_receive_start (tftp_receive_setup ip f d ticks) env).1
        (tftp_receive_start (tftp_receive_setup ip f d ticks) env).2).2.written =
        env.written ++ blocks ∧
      (net_pump events (tftp_receive_start (tftp_receive_setup ip f d ticks) env).1
        (tftp_receive_start (tftp_receive_setup ip f d ticks) env).2).1.sink_private.bytes_received
        = ((blocks.map List.length).sum : Nat)) ∧
    (∀ more : List net_event,
      (net_pump events (tftp_receive_start (tftp_receive_setup ip f d ticks) env).1
        (tftp_receive_start (tftp_receive_setup ip f d ticks) env).2).1.sink_private.bytes_received
        ≤
      (net_pump (events ++ more) (tftp_receive_start (tftp_receive_setup ip f d ticks) env).1
        (tftp_receive_start (tftp_receive_setup ip f d ticks) env).2
        ).1.sink_private.bytes_received) ∧
    (∀ (e : net_event) (sink : packet_sink_t) (en : Env),
      ((engine_step e sink en).2.written = en.written ∧
        (engine_step e sink en).1.sink_private.bytes_received =
          sink.sink_private.bytes_received) ∨
      (∃ buf : List Nat, 0 < buf.length ∧
        (engine_step e sink en).2.written = en.written ++ [buf] ∧
        (engine_step e sink en).1.sink_private.bytes_received =
          sink.sink_private.bytes_received + (buf.length : Int))) := by
  refine ⟨?_, ?_, engine_step_bytes⟩
  · have h0 : bytes_accounted env.written
        (tftp_receive_start (tftp_receive_setup ip f d ticks) env).1
        (tftp_receive_start (tftp_receive_setup ip f d ticks) env).2 := by
      rw [tftp_receive_start_eq]
      exact ⟨[], by simp, rfl⟩
    exact net_pump_invariant (bytes_accounted env.written)
      (fun e s en h => engine_step_accounted env.written e s en h) events _ _ h0
  · intro more
    rw [net_pump_append]
    exact net_pump_bytes_le more _ _

/-- C24. When `tftp_process_data` accepts a DATA datagram, unless the accepted
block number is 0xFFFF while the rollover value is 0xFFFF, delivering the same
datagram again at once performs no storage write and leaves `last_block` and
`bytes_received` as the first delivery left them. -/
theorem duplicate_written_once (sink : packet_sink_t) (env : Env) (message : List Nat)
    (fr fr2 : Nat) (hseq : get16 message 2 = expected_block sink.sink_private)
    (hexc : ¬ (get16 message 2 = 0xFFFF ∧ sink.sink_private.rollover_value = 0xFFFF)) :
    (tftp_process_data (tftp_process_data sink env message fr).1
      (tftp_process_data sink env message fr).2 message fr2).2.written =
      (tftp_process_data sink env message fr).2.written ∧
    (tftp_process_data (tftp_process_data sink env message fr).1
      (tftp_process_data sink env message fr).2 message fr2).1.sink_private.last_block =
      (tftp_process_data sink env message fr).1.sink_private.last_block ∧
    (tftp_process_data (tftp_process_data sink env message fr).1
      (tftp_process_data sink env message fr).2 message fr2).1.sink_private.bytes_received =
      (tftp_process_data sink env message fr).1.sink_private.bytes_received := by
  have hlb := (process_data_accept_frame sink env message fr hseq).1
  have hro := (tftp_process_data_frame sink env message fr).2.2.2.2.2.2.1
  have hrx := get16_le message 2
  have hne : get16 message 2 ≠
      expected_block (tftp_process_data sink env message fr).1.sink_private := by
    rw [expected_block_eq _ (by rw [hlb]; exact hrx), hlb, hro]
    split_ifs with h
    · omega
    · intro heq
      exact hexc ⟨by omega, by rw [← heq]; omega⟩
  have hfl := process_data_flags (tftp_process_data sink env message fr).1
    (tftp_process_data sink env message fr).2 message fr2
  have hfr := tftp_process_data_eq (tftp_process_data sink env message fr).1
    (tftp_process_data sink env message fr).2 message fr2
  rw [if_neg hne] at hfr
  refine ⟨?_, ?_, ?_⟩
  · rw [hfl.2.2.2.2, if_neg hne]
  · rw [hfr, (window_ack_frame _ _).2.2.2.2.2.2.2.1]
  · rw [hfl.2.2.2.1, if_neg hne]

theorem duplicate_written_once_witness :
    get16 (data_packet 1 [7, 8, 9]) 2 = expected_block demo_sink.sink_private ∧
    (tftp_process_data (tftp_process_data demo_sink demo_env (data_packet 1 [7, 8, 9]) 0).1
      (tftp_process_data demo_sink demo_env (data_packet 1 [7, 8, 9]) 0).2
      (data_packet 1 [7, 8, 9]) 0).2.written = [[7, 8, 9]] ∧
    (tftp_process_data (tftp_process_data demo_sink demo_env (data_packet 1 [7, 8, 9]) 0).1
      (tftp_process_data demo_sink demo_env (data_packet 1 [7, 8, 9]) 0).2
      (data_packet 1 [7, 8, 9]) 0).1.sink_private.bytes_received = 3 :=
  have h := duplicate_written_once demo_sink demo_env (data_packet 1 [7, 8, 9]) 0 0
    (by decide) (by decide)
  ⟨by decide, h.1.trans (by decide), h.2.2.trans (by decide)⟩

/-- C26. For a 1400-byte option buffer and an offset below 1400: when
`offset + strlen(s) + 1 < 1400`, `options_append` returns
`offset + strlen(s) + 1` and the buffer holds `s` and its NUL at positions
`offset` to `offset + strlen(s)`, every other position being unchanged;
otherwise it returns 0 and the buffer is unchanged. In both cases the result is
below 1400 and the buffer still has 1400 bytes, so nothing is written at an
index of 1400 or more. -/
theorem options_append_in_bounds (options : List Nat) (offset : Nat) (extra : List Nat)
    (hlen : options.length = MAXOPT) (hoff : offset < MAXOPT) :
    (offset + extra.length + 1 < MAXOPT →
      (options_append options offset extra).2 = offset + extra.length + 1 ∧
      ((options_append options offset extra).1.drop offset).take (extra.length + 1) =
        extra ++ [0] ∧
      (options_append options offset extra).1.take offset = options.take offset ∧
      (options_append options offset extra).1.drop (offset + extra.length + 1) =
        options.drop (offset + extra.length + 1)) ∧
    (¬ offset + extra.length + 1 < MAXOPT →
      options_append options offset extra = (options, 0)) ∧
    (options_append options offset extra).2 < MAXOPT ∧
    (options_append options offset extra).1.length = MAXOPT := by
  have hsl : (extra ++ [0]).length = extra.length + 1 := by simp
  have htl : (options.take offset).length = offset := by
    rw [List.length_take, hlen]
    omega
  by_cases hfit : offset + extra.length + 1 < MAXOPT
  · have hn : ¬ (extra.length + 1 + offset ≥ MAXOPT) := by omega
    have heq : options_append options offset extra =
        (options.take offset ++ (extra ++ [0]) ++ options.drop (offset + (extra.length + 1)),
          offset + (extra.length + 1)) := by
      simp only [options_append, hn, if_false, memcpy_at, hsl]
    rw [heq]
    refine ⟨fun _ => ⟨rfl, ?_, ?_, ?_⟩, fun h => absurd hfit h, ?_, ?_⟩
    · show ((options.take offset ++ (extra ++ [0]) ++
        options.drop (offset + (extra.length + 1))).drop offset).take (extra.length + 1) = _
      rw [List.append_assoc, List.drop_left' htl, ← hsl, List.take_left]
    · show (options.take offset ++ (extra ++ [0]) ++
        options.drop (offset + (extra.length + 1))).take offset = _
      rw [List.append_assoc, List.take_left' htl]
    · show (options.take offset ++ (extra ++ [0]) ++
        options.drop (offset + (extra.length + 1))).drop (offset + extra.length + 1) = _
      have hl2 : (options.take offset ++ (extra ++ [0])).length = offset + extra.length + 1 := by
        rw [List.length_append, htl, hsl]
        omega
      rw [List.drop_left' hl2]
      rfl
    · show offset + (extra.length + 1) < MAXOPT
      omega
    · show (options.take offset ++ (extra ++ [0]) ++
        options.drop (offset + (extra.length + 1))).length = MAXOPT
      simp only [List.length_append, List.length_take, List.length_drop, List.length_cons,
        List.length_nil, hlen]
      omega
  · have hn : extra.length + 1 + offset ≥ MAXOPT := by omega
    have heq : options_append options offset extra = (options, 0) := by
      simp only [options_append, hn, if_true]
    rw [heq]
    refine ⟨fun h => absurd h hfit, fun _ => rfl, ?_, hlen⟩
    show 0 < MAXOPT
    decide

theorem options_append_in_bounds_witness :
    (List.replicate MAXOPT 0).length = MAXOPT ∧ 5 < MAXOPT ∧
    (options_append (List.replicate MAXOPT 0) 5 (cstr "octet")).2 = 11 ∧
    (options_append (List.replicate MAXOPT 0) 1395 (cstr "octet")).2 = 0 ∧
    (options_append (List.replicate MAXOPT 0) 5 (cstr "octet")).1.length = MAXOPT :=
  have h := options_append_in_bounds (List.replicate MAXOPT 0) 5 (cstr "octet")
    (by decide) (by decide)
  ⟨by decide, by decide, (h.1 (by decide)).1, by decide, h.2.2.2⟩

theorem ones_add_norm (s w : Nat) (hw : w ≤ 65535) :
    ones_add (ones_norm s) w = ones_norm (s + w) := by
  unfold ones_add ones_norm
  split_ifs <;> omega

theorem foldl_ones_add (words : List Nat) (hw : ∀ w ∈ words, w ≤ 65535) :
    ∀ s : Nat, words.foldl ones_add (ones_norm s) = ones_norm (s + words.sum) := by
  induction words with
  | nil => intro s; simp
  | cons w rest ih =>
    intro s
    simp only [List.foldl_cons, List.sum_cons]
    rw [ones_add_norm s w (hw w (by simp)), ih (fun x hx => hw x (by simp [hx])), Nat.add_assoc]

theorem ones_sum_eq (words : List Nat) (hw : ∀ w ∈ words, w ≤ 65535) :
    ones_sum words = ones_norm words.sum := by
  have h := foldl_ones_add words hw 0
  simpa [ones_sum, ones_norm] using h

theorem words_of_bytes_le : ∀ (bytes : List Nat), ∀ w ∈ words_of_bytes bytes, w ≤ 65535
  | [] => by simp [words_of_bytes]
  | [b] => by
    intro w hw
    simp only [words_of_bytes, List.mem_singleton] at hw
    omega
  | b1 :: b2 :: rest => by
    intro w hw
    simp only [words_of_bytes, List.mem_cons] at hw
    rcases hw with h | h
    · omega
    · exact words_of_bytes_le rest w h

theorem ones_norm_le (s : Nat) : ones_norm s ≤ 65535 := by
  unfold ones_norm
  split_ifs <;> omega

theorem ones_norm_complement (s c : Nat) (hc : c = 65535 - ones_norm s) :
    ones_norm (s + c) = 65535 := by
  subst hc
  unfold ones_norm
  by_cases hs : s = 0
  · subst hs
    decide
  · rw [if_neg hs]
    have hne : s + (65535 - ((s - 1) % 65535 + 1)) ≠ 0 := by omega
    rw [if_neg hne]
    omega

theorem ipv4_words_le (h : ipv4_header_t) : ∀ w ∈ ipv4_words h, w ≤ 65535 := by
  intro w hw
  simp only [ipv4_words, List.mem_cons, List.mem_singleton, List.not_mem_nil, or_false] at hw
  rcases hw with h | h | h | h | h | h | h | h | h | h <;> omega

theorem udp_words_le (d : udp_datagram) : ∀ w ∈ udp_words d, w ≤ 65535 := by
  intro w hw
  simp only [udp_words, List.mem_append, List.mem_cons, List.mem_singleton, List.not_mem_nil,
    or_false] at hw
  rcases hw with (h | h | h | h | h | h | h | h | h | h) | h
  all_goals first | omega | exact words_of_bytes_le _ w h

theorem ipv4_checksum_round_trip (d : udp_datagram) :
    ipv4_checksum_valid (net_compute_ipv4_checksum d) = true := by
  unfold ipv4_checksum_valid
  rw [decide_eq_true_iff, ones_sum_eq _ (ipv4_words_le _)]
  have h0 := ones_sum_eq (ipv4_words { d.ipv4 with checksum := 0 }) (ipv4_words_le _)
  have hle := ones_norm_le (ipv4_words { d.ipv4 with checksum := 0 }).sum
  have hs : (ipv4_words (net_compute_ipv4_checksum d).ipv4).sum =
      (ipv4_words { d.ipv4 with checksum := 0 }).sum +
        (65535 - ones_norm (ipv4_words { d.ipv4 with checksum := 0 }).sum) := by
    rw [← h0]
    have hc : ones_sum (ipv4_words { d.ipv4 with checksum := 0 }) ≤ 65535 := by
      rw [h0]
      exact hle
    simp only [net_compute_ipv4_checksum, ipv4_words, List.sum_cons, List.sum_nil] at hc ⊢
    omega
  rw [hs]
  exact ones_norm_complement _ _ rfl

theorem ones_norm_field (s : Nat) :
    ones_norm (s + udp_checksum_field (65535 - ones_norm s)) = 65535 := by
  unfold udp_checksum_field ones_norm
  by_cases hs : s = 0
  · subst hs
    decide
  · rw [if_neg hs]
    by_cases hz : 65535 - ((s - 1) % 65535 + 1) = 0
    · rw [if_pos hz, if_neg (by omega)]
      omega
    · rw [if_neg hz, if_neg (by omega)]
      omega

theorem udp_checksum_field_le (c : Nat) (hc : c ≤ 65535) :
    1 ≤ udp_checksum_field c ∧ udp_checksum_field c ≤ 65535 := by
  unfold udp_checksum_field
  split_ifs <;> omega

theorem udp_sum_round_trip (d : udp_datagram) :
    ones_sum (udp_words (net_compute_udp_checksum d)) = 0xFFFF := by
  rw [ones_sum_eq _ (udp_words_le _)]
  have h0 := ones_sum_eq (udp_words { d with udp := { d.udp with checksum := 0 } })
    (udp_words_le _)
  have hf := udp_checksum_field_le
    (65535 - ones_norm (udp_words { d with udp := { d.udp with checksum := 0 } }).sum)
    (by omega)
  have hs : (udp_words (net_compute_udp_checksum d)).sum =
      (udp_words { d with udp := { d.udp with checksum := 0 } }).sum +
        udp_checksum_field
          (65535 - ones_norm (udp_words { d with udp := { d.udp with checksum := 0 } }).sum) := by
    rw [← h0] at hf ⊢
    simp only [net_compute_udp_checksum, udp_words, List.sum_cons, List.sum_nil,
      List.sum_append] at hf ⊢
    omega
  rw [hs]
  exact ones_norm_field _

theorem udp_checksum_round_trip (d : udp_datagram) :
    udp_checksum_valid (net_compute_udp_checksum d) = true := by
  unfold udp_checksum_valid
  rw [decide_eq_true_iff]
  exact Or.inr (udp_sum_round_trip d)

theorem byte_weight_cases (i : Nat) : byte_weight i = 256 ∨ byte_weight i = 1 := by
  unfold byte_weight
  split_ifs
  · exact Or.inl rfl
  · exact Or.inr rfl

theorem words_sum_set : ∀ (bytes : List Nat) (i v : Nat), i < bytes.length →
    (words_of_bytes (bytes.set i v)).sum + bytes.getD i 0 % 256 * byte_weight i =
      (words_of_bytes bytes).sum + v % 256 * byte_weight i
  | [], i, v, h => by simp at h
  | [b], i, v, h => by
    have hi : i = 0 := by
      simp only [List.length_singleton] at h
      omega
    subst hi
    have w0 : byte_weight 0 = 256 := rfl
    simp only [List.set_cons_zero, words_of_bytes, List.sum_cons, List.sum_nil,
      List.getD_cons_zero, w0]
    omega
  | b1 :: b2 :: rest, 0, v, _ => by
    have w0 : byte_weight 0 = 256 := rfl
    simp only [List.set_cons_zero, words_of_bytes, List.sum_cons, List.getD_cons_zero, w0]
    omega
  | b1 :: b2 :: rest, 1, v, _ => by
    have w1 : byte_weight 1 = 1 := rfl
    simp only [List.set_cons_succ, List.set_cons_zero, words_of_bytes, List.sum_cons,
      List.getD_cons_succ, List.getD_cons_zero, w1]
    omega
  | b1 :: b2 :: rest, i + 2, v, h => by
    have ih := words_sum_set rest i v (by simpa using h)
    have hw : byte_weight (i + 2) = byte_weight i := by
      unfold byte_weight
      have : (i + 2) % 2 = i % 2 := by omega
      rw [this]
    simp only [List.set_cons_succ, words_of_bytes, List.sum_cons, List.getD_cons_succ, hw]
    omega

theorem flip_bit_cases (b k : Nat) (hk : k < 8) :
    ∃ delta : Nat, 1 ≤ delta ∧ delta ≤ 128 ∧
      (flip_bit b k % 256 = b % 256 + delta ∨ flip_bit b k % 256 + delta = b % 256) := by
  unfold flip_bit
  interval_cases k <;> norm_num <;> split_ifs <;>
    first
    | exact ⟨1, by omega⟩
    | exact ⟨2, by omega⟩
    | exact ⟨4, by omega⟩
    | exact ⟨8, by omega⟩
    | exact ⟨16, by omega⟩
    | exact ⟨32, by omega⟩
    | exact ⟨64, by omega⟩
    | exact ⟨128, by omega⟩

theorem flip_changes_sum (h p q : Nat) (hv : ones_norm (h + p) = 65535)
    (hq : (1 ≤ q ∧ q ≤ 32768) ∧ True) (p2 : Nat) (hp : p2 = p + q ∨ p2 + q = p) :
    ones_norm (h + p2) ≠ 65535 := by
  unfold ones_norm at hv ⊢
  split_ifs at hv ⊢ <;> omega

theorem flip_invalidates (e : udp_datagram) (i k : Nat)
    (hvalid : ones_sum (udp_words e) = 0xFFFF) (hc : e.udp.checksum % 65536 ≠ 0)
    (hi : i < e.payload.length) (hk : k < 8) :
    udp_checksum_valid (flip_payload_bit e i k) = false := by
  unfold udp_checksum_valid
  rw [decide_eq_false_iff_not, not_or]
  refine ⟨hc, ?_⟩
  rw [ones_sum_eq _ (udp_words_le _)] at hvalid ⊢
  have hset := words_sum_set e.payload i (flip_bit (e.payload.getD i 0) k) hi
  obtain ⟨delta, h1, h2, h3⟩ := flip_bit_cases (e.payload.getD i 0) k hk
  simp only [udp_words, flip_payload_bit, List.sum_append] at hvalid ⊢
  generalize (words_of_bytes (e.payload.set i (flip_bit (e.payload.getD i 0) k))).sum = p2
    at hset ⊢
  generalize (words_of_bytes e.payload).sum = p at hset hvalid
  generalize flip_bit (e.payload.getD i 0) k % 256 = b2 at hset h3
  generalize e.payload.getD i 0 % 256 = b at hset h3
  rcases byte_weight_cases i with hw | hw <;> rw [hw] at hset
  · exact flip_changes_sum _ p (delta * 256) hvalid ⟨by omega, trivial⟩ p2 (by omega)
  · exact flip_changes_sum _ p delta hvalid ⟨by omega, trivial⟩ p2 (by omega)

theorem compute_udp_checksum_range (d : udp_datagram) :
    1 ≤ (net_compute_udp_checksum d).udp.checksum ∧
    (net_compute_udp_checksum d).udp.checksum ≤ 65535 := by
  simp only [net_compute_udp_checksum]
  exact udp_checksum_field_le _ (by omega)

/-- C21. After `net_compute_ipv4_checksum` and `net_compute_udp_checksum` have
filled in the checksum fields of any datagram, the decoder reports the IPv4
header checksum and the UDP checksum valid, the UDP checksum field is not zero,
and inverting any single bit of any payload byte makes the UDP checksum
invalid. -/
theorem checksum_round_trip (d : udp_datagram) :
    ipv4_checksum_valid (net_compute_udp_checksum (net_compute_ipv4_checksum d)) = true ∧
    udp_checksum_valid (net_compute_udp_checksum (net_compute_ipv4_checksum d)) = true ∧
    (net_compute_udp_checksum (net_compute_ipv4_checksum d)).udp.checksum ≠ 0 ∧
    ∀ i k : Nat, i < d.payload.length → k < 8 →
      udp_checksum_valid
        (flip_payload_bit (net_compute_udp_checksum (net_compute_ipv4_checksum d)) i k)
        = false := by
  have hr := compute_udp_checksum_range (net_compute_ipv4_checksum d)
  refine ⟨ipv4_checksum_round_trip d, udp_checksum_round_trip _, by omega, ?_⟩
  intro i k hi hk
  exact flip_invalidates _ i k (udp_sum_round_trip _) (by omega) hi hk

/-- C21, an instance: for a datagram whose one's-complement sum leaves the
complement zero, the UDP checksum stored is 0xFFFF, both checksums verify, and
the datagram with the lowest bit of its first payload byte inverted fails the
UDP check. -/
theorem checksum_round_trip_witness :
    (net_compute_udp_checksum (net_compute_ipv4_checksum zero_checksum_datagram)).udp.checksum
      = 0xFFFF ∧
    ipv4_checksum_valid
      (net_compute_udp_checksum (net_compute_ipv4_checksum zero_checksum_datagram)) = true ∧
    udp_checksum_valid
      (net_compute_udp_checksum (net_compute_ipv4_checksum zero_checksum_datagram)) = true ∧
    (flip_payload_bit
      (net_compute_udp_checksum (net_compute_ipv4_checksum zero_checksum_datagram)) 0 0).payload
      = [0xCA, 0x92] ∧
    udp_checksum_valid
      (flip_payload_bit
        (net_compute_udp_checksum (net_compute_ipv4_checksum zero_checksum_datagram)) 0 0)
      = false :=
  ⟨by decide, (checksum_round_trip zero_checksum_datagram).1,
    (checksum_round_trip zero_checksum_datagram).2.1, by decide,
    (checksum_round_trip zero_checksum_datagram).2.2.2 0 0 (by decide) (by decide)⟩

end Tftp
